import Mathlib

/-!
# MPLS netlink route builder: label codec, attribute appender, route operations

A shallow embedding of `mpls_core.c` and `mpls_routes.c`.

* Machine integers are natural numbers, reduced `% 2 ^ w` wherever the C type
  can wrap.
* Memory is a map from byte offsets (relative to the start of the request,
  `&req == &req.nlh`) to byte values; multi-byte fields are stored in the
  byte order of the host, which is a parameter.
* System calls and libc lookups are oracles of an environment, and every
  operation returns the sequence of effects it performed.
-/

namespace Mpls

/-! ## Host byte order and integer representation -/

/-- Byte order of the host that runs the program. -/
inductive Endian where
  | little
  | big
  deriving DecidableEq, Repr

/-- The `n` low-order bytes of `v`, least significant first. -/
def le_bytes : Nat → Nat → List Nat
  | 0, _ => []
  | n + 1, v => v % 256 :: le_bytes n (v / 256)

/-- Value of a byte string read least significant byte first. -/
def le_val : List Nat → Nat
  | [] => 0
  | b :: bs => b + 256 * le_val bs

/-- In-memory representation (ascending addresses) of an `n`-byte unsigned
integer `v` on a host of byte order `e`. -/
def to_bytes (e : Endian) (n v : Nat) : List Nat :=
  match e with
  | Endian.little => le_bytes n v
  | Endian.big => (le_bytes n v).reverse

/-- Unsigned integer a host of byte order `e` reads from the bytes `bs`
(ascending addresses). -/
def of_bytes (e : Endian) (bs : List Nat) : Nat :=
  match e with
  | Endian.little => le_val bs
  | Endian.big => le_val bs.reverse

/-- libc `htonl`: the host integer whose four bytes in memory are the
network-order (big-endian) bytes of `x`; the identity on a big-endian host, a
32-bit byte swap on a little-endian one. -/
def htonl (e : Endian) (x : Nat) : Nat := of_bytes e (to_bytes Endian.big 4 x)

/-- libc `ntohl`: the number whose network-order bytes are the four bytes the
host integer `x` occupies in memory. -/
def ntohl (e : Endian) (x : Nat) : Nat := of_bytes Endian.big (to_bytes e 4 x)

/-- Value of a 32-bit pattern read as a signed `int`. -/
def to_int32 (v : Nat) : Int := if v < 2 ^ 31 then (v : Int) else (v : Int) - 2 ^ 32

/-! ## Label codec (`mpls_core.c`) -/

/-- Model of `create_mpls_label` (`mpls_core.c:91`): the returned `uint32_t`
together with the lines written to `stderr`. -/
def create_mpls_label (e : Endian) (label s_bit : Nat) : Nat × List String :=
  if label > 0xFFFFF then
    (0, ["Error: Label exceeds 20 bits (max 1048575)\n"])
  else if s_bit ≠ 0 ∧ s_bit ≠ 1 then
    (0, ["Error: S-bit must be 0 or 1\n"])
  else
    let mpls_label := (((label &&& 0xFFFFF) <<< 12) % 2 ^ 32) ||| (s_bit <<< 8)
    (htonl e mpls_label, [])

/-- The eight bytes `bytes[0..7]` that `create_mpls_label_for_encap` fills in
for an accepted triple (`mpls_core.c:121-136`). -/
def encap_bytes (label s_bit tc : Nat) : List Nat :=
  let mpls := (((label <<< 12) % 2 ^ 32) ||| (tc <<< 9) ||| (s_bit <<< 8) ||| 0x00) % 2 ^ 32
  [0x08, 0x00, 0x01, 0x00,
   (mpls >>> 24) &&& 0xFF, (mpls >>> 16) &&& 0xFF, (mpls >>> 8) &&& 0xFF, mpls &&& 0xFF]

/-- Model of `create_mpls_label_for_encap` (`mpls_core.c:106`): the returned
`uint64_t` (the host's reading of the eight bytes after the `memcpy`) together
with the lines written to `stderr`. -/
def create_mpls_label_for_encap (e : Endian) (label s_bit tc : Nat) : Nat × List String :=
  if label > 0xFFFFF then
    (0, ["Error: Label exceeds 20 bits (max 1048575)\n"])
  else if s_bit > 1 then
    (0, ["Error: S-bit must be 0 or 1\n"])
  else if tc > 7 then
    (0, ["Error: TC exceeds 3 bits (max 7)\n"])
  else
    (of_bytes e (encap_bytes label s_bit tc), [])

/-! ## Request memory -/

/-- Bytes of the request, indexed by their offset from `&req` (which is also
`&req.nlh`). -/
abbrev Mem := Nat → Nat

/-- The request after `req = {0}`. -/
def zero_mem : Mem := fun _ => 0

/-- Write the bytes `bs` at offsets `a, a+1, ...` (also `memcpy(base + a, bs, len)`). -/
def store_bytes (m : Mem) (a : Nat) (bs : List Nat) : Mem :=
  fun i => if a ≤ i ∧ i < a + bs.length then bs.getD (i - a) 0 else m i

/-- The `n` bytes at offsets `a, a+1, ...`. -/
def load_bytes (m : Mem) (a n : Nat) : List Nat :=
  (List.range n).map (fun i => m (a + i))

/-- Store an `n`-byte unsigned field in host byte order (the value is reduced
to `n` bytes, as a C assignment does). -/
def store (e : Endian) (n : Nat) (m : Mem) (a v : Nat) : Mem :=
  store_bytes m a (to_bytes e n v)

/-- Load an `n`-byte unsigned field in host byte order. -/
def load (e : Endian) (n : Nat) (m : Mem) (a : Nat) : Nat :=
  of_bytes e (load_bytes m a n)

/-- Field `nlmsg_len` of `struct nlmsghdr` (`__u32` at offset 0). -/
def nlmsg_len (e : Endian) (m : Mem) : Nat := load e 4 m 0

/-- Field `nlmsg_type` of `struct nlmsghdr` (`__u16` at offset 4). -/
def nlmsg_type (e : Endian) (m : Mem) : Nat := load e 2 m 4

/-- Field `nlmsg_flags` of `struct nlmsghdr` (`__u16` at offset 6). -/
def nlmsg_flags (e : Endian) (m : Mem) : Nat := load e 2 m 6

/-- Field `nlmsg_seq` of `struct nlmsghdr` (`__u32` at offset 8). -/
def nlmsg_seq (e : Endian) (m : Mem) : Nat := load e 4 m 8

/-- Field `nlmsg_pid` of `struct nlmsghdr` (`__u32` at offset 12). -/
def nlmsg_pid (e : Endian) (m : Mem) : Nat := load e 4 m 12

/-! ## Constants and macros of the Linux headers the program includes

`linux/netlink.h`, `linux/rtnetlink.h`, `linux/socket.h`; none of them is part
of the repository. -/

def NLMSG_HDRLEN : Nat := 16
def sizeof_rtmsg : Nat := 12
def sizeof_rtattr : Nat := 4
def BUF_SIZE : Nat := 4096
/-- Size of the request structure `struct { nlmsghdr; rtmsg; char buf[BUF_SIZE]; }`. -/
def sizeof_req : Nat := NLMSG_HDRLEN + sizeof_rtmsg + BUF_SIZE
/-- Offset of `req.rtm` inside the request. -/
def rtm_off : Nat := 16

/-- Macro `NLMSG_ALIGN(len) = ((len) + NLMSG_ALIGNTO - 1) & ~(NLMSG_ALIGNTO - 1)`
with `NLMSG_ALIGNTO = 4U`: unsigned 32-bit arithmetic. -/
def NLMSG_ALIGN (len : Nat) : Nat := ((len + 3) % 2 ^ 32) &&& 0xFFFFFFFC

/-- Macro `NLMSG_LENGTH(len) = (len) + NLMSG_HDRLEN`. -/
def NLMSG_LENGTH (len : Nat) : Nat := len + NLMSG_HDRLEN

/-- Macro `RTA_ALIGN(len) = ((len) + RTA_ALIGNTO - 1) & ~(RTA_ALIGNTO - 1)`
with `RTA_ALIGNTO = 4U`. -/
def RTA_ALIGN (len : Nat) : Nat := ((len + 3) % 2 ^ 32) &&& 0xFFFFFFFC

/-- Macro `RTA_LENGTH(len) = RTA_ALIGN(sizeof(struct rtattr)) + (len)`. -/
def RTA_LENGTH (len : Nat) : Nat := RTA_ALIGN sizeof_rtattr + len

def AF_INET : Nat := 2
def AF_NETLINK : Nat := 16
def AF_MPLS : Nat := 28
def SOCK_RAW : Nat := 3
def NETLINK_ROUTE : Nat := 0
def NLMSG_ERROR : Nat := 2
def RTM_NEWROUTE : Int := 24
def NLM_F_REQUEST : Nat := 0x01
def NLM_F_ACK : Nat := 0x04
def NLM_F_EXCL : Nat := 0x200
def NLM_F_CREATE : Nat := 0x400
def RT_TABLE_MAIN : Nat := 254
def RTPROT_BOOT : Nat := 3
def RT_SCOPE_UNIVERSE : Nat := 0
def RT_SCOPE_LINK : Nat := 253
def RTN_UNICAST : Nat := 1
def RTA_DST : Nat := 1
def RTA_OIF : Nat := 4
def RTA_GATEWAY : Nat := 5
def RTA_VIA : Nat := 18
def RTA_NEWDST : Nat := 19
def RTA_ENCAP_TYPE : Nat := 21
def RTA_ENCAP : Nat := 22
def NLA_F_NESTED : Nat := 0x8000
def EXIT_FAILURE : Nat := 1
/-- Constant `LWTUNNEL_ENCAP_MPLS` (`mpls_core.c:15`, `mpls_routes.c:6`). -/
def LWTUNNEL_ENCAP_MPLS : Nat := 1

/-! ## Message builder (`mpls_core.c`) -/

/-- Bit pattern of a C `int` stored into an unsigned field of `n` bytes. -/
def int_bits (n : Nat) (x : Int) : Nat := (x % (256 : Int) ^ n).toNat

/-- Model of `init_netlink_message` (`mpls_core.c:37`). -/
def init_netlink_message (e : Endian) (m : Mem) (type flags pid seq : Int) : Mem :=
  let m := store e 4 m 0 (NLMSG_LENGTH sizeof_rtmsg)
  let m := store e 2 m 4 (int_bits 2 type)
  let m := store e 2 m 6 (int_bits 2 flags)
  let m := store e 4 m 8 (int_bits 4 seq)
  store e 4 m 12 (int_bits 4 pid)

/-- Model of `init_route_message` (`mpls_core.c:46`), `rtm` being `&req.rtm`:
the fields are the bytes 0, 1, 4, 5, 6, 7 of `struct rtmsg`. -/
def init_route_message (m : Mem) (family dst_len table protocol scope type : Nat) : Mem :=
  let m := store_bytes m (rtm_off + 0) [family % 256]
  let m := store_bytes m (rtm_off + 1) [dst_len % 256]
  let m := store_bytes m (rtm_off + 4) [table % 256]
  let m := store_bytes m (rtm_off + 5) [protocol % 256]
  let m := store_bytes m (rtm_off + 6) [scope % 256]
  store_bytes m (rtm_off + 7) [type % 256]

/-- How a call of `add_attr` ends: it returns, leaving the request `m`, or it
ends the process through `exit(status)` after writing `msg` to `stderr`, the
request being `m` at that moment. -/
inductive Outcome where
  | ok (m : Mem)
  | exit (m : Mem) (msg : String) (status : Nat)

/-- Whether the call returned. -/
def Outcome.isOk : Outcome → Bool
  | Outcome.ok _ => true
  | Outcome.exit _ _ _ => false

/-- The request as the call left it. -/
def Outcome.mem : Outcome → Mem
  | Outcome.ok m => m
  | Outcome.exit m _ _ => m

/-- Model of `add_attr` (`mpls_core.c:56`). The payload `data` stands for the
`len` bytes at `data`, so `len` is `data.length`. Offsets `rta_len` at `+0`
and `rta_type` at `+2` are those of `struct rtattr`; `RTA_DATA(rta)` is
`rta + RTA_LENGTH(0)`. -/
def add_attr (e : Endian) (m : Mem) (maxlen : Nat) (type : Int) (data : List Nat) : Outcome :=
  let rta := NLMSG_ALIGN (nlmsg_len e m)
  let rta_len := RTA_LENGTH data.length % 2 ^ 32
  if (NLMSG_ALIGN (nlmsg_len e m) + rta_len) % 2 ^ 32 > maxlen then
    Outcome.exit m "Attribute too big\n" EXIT_FAILURE
  else
    let m := store e 2 m (rta + 2) (int_bits 2 type)
    let m := store e 2 m rta rta_len
    let m := store_bytes m (rta + RTA_LENGTH 0) data
    Outcome.ok (store e 4 m 0 ((NLMSG_ALIGN (nlmsg_len e m) + rta_len) % 2 ^ 32))

/-- A run of successive `add_attr` calls on the same request, stopping at the
first one that ends the process. -/
def add_attrs (e : Endian) (maxlen : Nat) : Mem → List (Int × List Nat) → Outcome
  | m, [] => Outcome.ok m
  | m, (type, data) :: rest =>
    match add_attr e m maxlen type data with
    | Outcome.ok m1 => add_attrs e maxlen m1 rest
    | Outcome.exit m1 msg status => Outcome.exit m1 msg status

/-! ## Environment and effects -/

/-- An IPv4 address as `inet_pton` leaves it in a `struct in_addr`: four bytes
in network order. -/
structure in_addr where
  b0 : Fin 256
  b1 : Fin 256
  b2 : Fin 256
  b3 : Fin 256
  deriving DecidableEq, Repr

/-- The four bytes of a `struct in_addr` in memory order. -/
def in_addr.bytes (a : in_addr) : List Nat := [a.b0.val, a.b1.val, a.b2.val, a.b3.val]

/-- What the system answers to the calls of one operation. Every call is made
at most once per operation, so one answer per call is enough. -/
structure Env where
  /-- Byte order of the host. -/
  endian : Endian
  /-- Result of `socket(AF_NETLINK, SOCK_RAW, NETLINK_ROUTE)`. -/
  socket : Int
  /-- Result of `bind` on the new socket. -/
  bind : Int
  /-- Result of `getpid()`. -/
  getpid : Int
  /-- Result of `if_nametoindex(name)`: `0` when the name does not resolve. -/
  if_nametoindex : String → Nat
  /-- Address written by `inet_pton(AF_INET, s, &a)` when it returns `1`;
  `none` when it returns anything else. -/
  inet_pton : String → Option in_addr
  /-- Result of `sendmsg`. -/
  sendmsg : Int
  /-- Result of `recv`. -/
  recv : Int
  /-- Content of the receive buffer after `recv`. -/
  response : Mem
  /-- Text of `strerror`. -/
  strerror : Int → String

/-- Observable steps of an operation, in program order. -/
inductive Event where
  | socket (domain type protocol : Nat)
  | bind (fd : Int)
  | close (fd : Int)
  | getpid
  | if_nametoindex (name : String)
  | inet_pton (af : Nat) (src : String)
  | sendmsg (fd : Int) (msg : List Nat)
  | recv (fd : Int)
  | perror (s : String)
  | stderr (s : String)
  | exit (status : Nat)
  deriving DecidableEq, Repr

/-- Lines written to `stderr` by `fprintf`, as events. -/
def stderr_events (lines : List String) : List Event := lines.map Event.stderr

/-! ## Transport (`mpls_core.c`) -/

/-- Model of `create_netlink_socket` (`mpls_core.c:18`). -/
def create_netlink_socket (env : Env) : Int × List Event :=
  let sockfd := env.socket
  if sockfd < 0 then
    (-1, [Event.socket AF_NETLINK SOCK_RAW NETLINK_ROUTE, Event.perror "socket"])
  else if env.bind < 0 then
    (-1, [Event.socket AF_NETLINK SOCK_RAW NETLINK_ROUTE, Event.bind sockfd,
          Event.perror "bind", Event.close sockfd])
  else
    (sockfd, [Event.socket AF_NETLINK SOCK_RAW NETLINK_ROUTE, Event.bind sockfd])

/-- Negation of an `int` as the compiled code performs it, in two's
complement on 32 bits: the negation of `INT_MIN` is `INT_MIN`. -/
def neg_int32 (x : Int) : Int := to_int32 (int_bits 4 (-x))

/-- Model of `process_kernel_response` (`mpls_core.c:71`). `nlmsg_type` is the
`__u16` at offset 4 of the response, and `err->error` the `int` at
`NLMSG_DATA(nlh)`, offset 16; `-err->error` is an `int` negation. -/
def process_kernel_response (env : Env) (sockfd : Int) : Int × List Event :=
  let len := env.recv
  if len < 0 then
    (-1, [Event.recv sockfd, Event.perror "Failed to receive response from kernel"])
  else if nlmsg_type env.endian env.response = NLMSG_ERROR then
    let error := to_int32 (load env.endian 4 env.response NLMSG_HDRLEN)
    if error ≠ 0 then
      (-1, [Event.recv sockfd,
            Event.stderr ("Netlink error: " ++ env.strerror (neg_int32 error) ++ " (code="
              ++ toString (neg_int32 error) ++ ")\n")])
    else
      (0, [Event.recv sockfd])
  else
    (0, [Event.recv sockfd])

/-- Model of `get_interface_index` (`mpls_core.c:145`). -/
def get_interface_index (env : Env) (ifname : String) : Int × List Event :=
  let ifindex := to_int32 (env.if_nametoindex ifname % 2 ^ 32)
  if ifindex = 0 then
    (ifindex, [Event.if_nametoindex ifname, Event.perror "if_nametoindex"])
  else
    (ifindex, [Event.if_nametoindex ifname])

/-- Model of `send_netlink_message` (`mpls_core.c:154`): the datagram is the
`len` bytes at `nlh`. -/
def send_netlink_message (env : Env) (sockfd : Int) (m : Mem) (len : Nat) : Int × List Event :=
  if env.sendmsg < 0 then
    (-1, [Event.sendmsg sockfd (load_bytes m 0 len), Event.perror "sendmsg"])
  else
    let r := process_kernel_response env sockfd
    (r.1, Event.sendmsg sockfd (load_bytes m 0 len) :: r.2)

/-! ## Route operations (`mpls_routes.c`) -/

/-- Result of a route operation: the returned `int`, or `none` when the
process ended inside the operation, and the steps performed. -/
abbrev Result := Option Int × List Event

/-- The process ends inside `add_attr`. -/
def exited (pre : List Event) (msg : String) (status : Nat) : Result :=
  (none, pre ++ [Event.stderr msg, Event.exit status])

/-- Flags every operation passes to `init_netlink_message`. -/
def request_flags : Int :=
  ((NLM_F_REQUEST ||| NLM_F_ACK ||| NLM_F_CREATE ||| NLM_F_EXCL : Nat) : Int)

/-- The request after `req = {0}`, `init_netlink_message` and
`init_route_message`, as the four label operations set it up. -/
def init_mpls_req (env : Env) : Mem :=
  init_route_message (init_netlink_message env.endian zero_mem RTM_NEWROUTE request_flags env.getpid 1)
    AF_MPLS 20 RT_TABLE_MAIN RTPROT_BOOT RT_SCOPE_UNIVERSE RTN_UNICAST

/-- The request after `req = {0}`, `init_netlink_message` and
`init_route_message`, as the two encapsulation operations set it up. -/
def init_inet_req (env : Env) (scope : Nat) : Mem :=
  init_route_message (init_netlink_message env.endian zero_mem RTM_NEWROUTE request_flags env.getpid 1)
    AF_INET 32 RT_TABLE_MAIN RTPROT_BOOT scope RTN_UNICAST

/-- Model of `create_mpls_route_dev` (`mpls_routes.c:9`). -/
def create_mpls_route_dev (env : Env) (interface : String) (label s_bit : Nat) : Result :=
  let e := env.endian
  let s := create_netlink_socket env
  if s.1 < 0 then (some (-1), s.2) else
  let sockfd := s.1
  let req := init_mpls_req env
  let mpls_label := create_mpls_label e label s_bit
  let t := s.2 ++ [Event.getpid] ++ stderr_events mpls_label.2
  match add_attr e req sizeof_req RTA_DST (to_bytes e 4 mpls_label.1) with
  | Outcome.exit _ msg st => exited t msg st
  | Outcome.ok req =>
  let ifindex := get_interface_index env interface
  let t := t ++ ifindex.2
  if ifindex.1 = 0 then (some (-1), t ++ [Event.close sockfd]) else
  match add_attr e req sizeof_req RTA_OIF (to_bytes e 4 (int_bits 4 ifindex.1)) with
  | Outcome.exit _ msg st => exited t msg st
  | Outcome.ok req =>
  let ret := send_netlink_message env sockfd req (nlmsg_len e req)
  (some ret.1, t ++ ret.2 ++ [Event.close sockfd])

/-- Model of `create_mpls_route_nexthop` (`mpls_routes.c:38`). -/
def create_mpls_route_nexthop (env : Env) (nexthop_ip : String) (label s_bit : Nat) : Result :=
  let e := env.endian
  let s := create_netlink_socket env
  if s.1 < 0 then (some (-1), s.2) else
  let sockfd := s.1
  let req := init_mpls_req env
  let mpls_label := create_mpls_label e label s_bit
  let t := s.2 ++ [Event.getpid] ++ stderr_events mpls_label.2
  match add_attr e req sizeof_req RTA_DST (to_bytes e 4 mpls_label.1) with
  | Outcome.exit _ msg st => exited t msg st
  | Outcome.ok req =>
  let family := to_bytes e 2 AF_INET
  let t := t ++ [Event.inet_pton AF_INET nexthop_ip]
  match env.inet_pton nexthop_ip with
  | none =>
    (some (-1), t ++ [Event.stderr "Invalid next hop IP address\n", Event.close sockfd])
  | some nh_ip =>
  let via := family ++ nh_ip.bytes
  match add_attr e req sizeof_req RTA_VIA via with
  | Outcome.exit _ msg st => exited t msg st
  | Outcome.ok req =>
  let ret := send_netlink_message env sockfd req (nlmsg_len e req)
  (some ret.1, t ++ ret.2 ++ [Event.close sockfd])

/-- Model of `create_mpls_route_swap_nexthop` (`mpls_routes.c:78`). -/
def create_mpls_route_swap_nexthop (env : Env) (nexthop_ip : String)
    (label new_label s_bit : Nat) : Result :=
  let e := env.endian
  let s := create_netlink_socket env
  if s.1 < 0 then (some (-1), s.2) else
  let sockfd := s.1
  let req := init_mpls_req env
  let mpls_label := create_mpls_label e label s_bit
  let t := s.2 ++ [Event.getpid] ++ stderr_events mpls_label.2
  match add_attr e req sizeof_req RTA_DST (to_bytes e 4 mpls_label.1) with
  | Outcome.exit _ msg st => exited t msg st
  | Outcome.ok req =>
  let mpls_new_label := create_mpls_label e new_label s_bit
  let t := t ++ stderr_events mpls_new_label.2
  match add_attr e req sizeof_req RTA_NEWDST (to_bytes e 4 mpls_new_label.1) with
  | Outcome.exit _ msg st => exited t msg st
  | Outcome.ok req =>
  let family := to_bytes e 2 AF_INET
  let t := t ++ [Event.inet_pton AF_INET nexthop_ip]
  match env.inet_pton nexthop_ip with
  | none =>
    (some (-1), t ++ [Event.stderr "Invalid next hop IP address\n", Event.close sockfd])
  | some nh_ip =>
  let via := family ++ nh_ip.bytes
  match add_attr e req sizeof_req RTA_VIA via with
  | Outcome.exit _ msg st => exited t msg st
  | Outcome.ok req =>
  let ret := send_netlink_message env sockfd req (nlmsg_len e req)
  (some ret.1, t ++ ret.2 ++ [Event.close sockfd])

/-- Model of `create_mpls_route_swap_dev` (`mpls_routes.c:122`). -/
def create_mpls_route_swap_dev (env : Env) (interface : String)
    (label new_label s_bit : Nat) : Result :=
  let e := env.endian
  let s := create_netlink_socket env
  if s.1 < 0 then (some (-1), s.2) else
  let sockfd := s.1
  let req := init_mpls_req env
  let mpls_label := create_mpls_label e label s_bit
  let t := s.2 ++ [Event.getpid] ++ stderr_events mpls_label.2
  match add_attr e req sizeof_req RTA_DST (to_bytes e 4 mpls_label.1) with
  | Outcome.exit _ msg st => exited t msg st
  | Outcome.ok req =>
  let mpls_new_label := create_mpls_label e new_label s_bit
  let t := t ++ stderr_events mpls_new_label.2
  match add_attr e req sizeof_req RTA_NEWDST (to_bytes e 4 mpls_new_label.1) with
  | Outcome.exit _ msg st => exited t msg st
  | Outcome.ok req =>
  let ifindex := get_interface_index env interface
  let t := t ++ ifindex.2
  if ifindex.1 = 0 then
    (some (-1), t ++ [Event.stderr ("Failed to get interface index for " ++ interface ++ "\n"),
                      Event.close sockfd])
  else
  match add_attr e req sizeof_req RTA_OIF (to_bytes e 4 (int_bits 4 ifindex.1)) with
  | Outcome.exit _ msg st => exited t msg st
  | Outcome.ok req =>
  let ret := send_netlink_message env sockfd req (nlmsg_len e req)
  (some ret.1, t ++ ret.2 ++ [Event.close sockfd])

/-- The inline construction of the nested encapsulation attribute
(`mpls_routes.c:187-197` and `246-256`): no capacity check, `rta_type` then
`rta_len` then the eight bytes of `create_mpls_label_for_encap(mpls_label, 1, 0)`,
then the update of `nlmsg_len`. Returns the request and what
`create_mpls_label_for_encap` wrote to `stderr`. -/
def add_encap_inline (e : Endian) (m : Mem) (mpls_label : Nat) : Mem × List String :=
  let rta_encap := NLMSG_ALIGN (nlmsg_len e m)
  let m := store e 2 m (rta_encap + 2) (RTA_ENCAP ||| NLA_F_NESTED)
  let m := store e 2 m rta_encap (RTA_LENGTH 8)
  let full_mpls_header := create_mpls_label_for_encap e mpls_label 1 0
  let m := store_bytes m (rta_encap + RTA_LENGTH 0) (to_bytes e 8 full_mpls_header.1)
  let m := store e 4 m 0
    ((NLMSG_ALIGN (nlmsg_len e m) + RTA_ALIGN (load e 2 m rta_encap)) % 2 ^ 32)
  (m, full_mpls_header.2)

/-- Model of `create_mpls_encap_route_dev` (`mpls_routes.c:162`). -/
def create_mpls_encap_route_dev (env : Env) (interface dst_ip : String)
    (mpls_label : Nat) : Result :=
  let e := env.endian
  let s := create_netlink_socket env
  if s.1 < 0 then (some (-1), s.2) else
  let sockfd := s.1
  let req := init_inet_req env RT_SCOPE_LINK
  let t := s.2 ++ [Event.getpid, Event.inet_pton AF_INET dst_ip]
  match env.inet_pton dst_ip with
  | none =>
    (some (-1), t ++ [Event.stderr "Invalid destination IP address\n", Event.close sockfd])
  | some dst_addr =>
  match add_attr e req sizeof_req RTA_DST dst_addr.bytes with
  | Outcome.exit _ msg st => exited t msg st
  | Outcome.ok req =>
  let enc := add_encap_inline e req mpls_label
  let req := enc.1
  let t := t ++ stderr_events enc.2
  match add_attr e req sizeof_req RTA_ENCAP_TYPE (to_bytes e 2 LWTUNNEL_ENCAP_MPLS) with
  | Outcome.exit _ msg st => exited t msg st
  | Outcome.ok req =>
  let ifindex := get_interface_index env interface
  let t := t ++ ifindex.2
  if ifindex.1 = 0 then
    (some (-1), t ++ [Event.stderr ("Failed to get interface index for " ++ interface ++ "\n"),
                      Event.close sockfd])
  else
  match add_attr e req sizeof_req RTA_OIF (to_bytes e 4 (int_bits 4 ifindex.1)) with
  | Outcome.exit _ msg st => exited t msg st
  | Outcome.ok req =>
  let ret := send_netlink_message env sockfd req (nlmsg_len e req)
  (some ret.1, t ++ ret.2 ++ [Event.close sockfd])

/-- Model of `create_mpls_encap_route_via` (`mpls_routes.c:221`). -/
def create_mpls_encap_route_via (env : Env) (dst_ip : String) (mpls_label : Nat)
    (gateway_ip : String) : Result :=
  let e := env.endian
  let s := create_netlink_socket env
  if s.1 < 0 then (some (-1), s.2) else
  let sockfd := s.1
  let req := init_inet_req env RT_SCOPE_UNIVERSE
  let t := s.2 ++ [Event.getpid, Event.inet_pton AF_INET dst_ip]
  match env.inet_pton dst_ip with
  | none =>
    (some (-1), t ++ [Event.stderr "Invalid destination IP address\n", Event.close sockfd])
  | some dst_addr =>
  match add_attr e req sizeof_req RTA_DST dst_addr.bytes with
  | Outcome.exit _ msg st => exited t msg st
  | Outcome.ok req =>
  let enc := add_encap_inline e req mpls_label
  let req := enc.1
  let t := t ++ stderr_events enc.2
  match add_attr e req sizeof_req RTA_ENCAP_TYPE (to_bytes e 2 LWTUNNEL_ENCAP_MPLS) with
  | Outcome.exit _ msg st => exited t msg st
  | Outcome.ok req =>
  let t := t ++ [Event.inet_pton AF_INET gateway_ip]
  match env.inet_pton gateway_ip with
  | none =>
    (some (-1), t ++ [Event.stderr "Invalid gateway IP address\n", Event.close sockfd])
  | some gw_addr =>
  match add_attr e req sizeof_req RTA_GATEWAY gw_addr.bytes with
  | Outcome.exit _ msg st => exited t msg st
  | Outcome.ok req =>
  let ret := send_netlink_message env sockfd req (nlmsg_len e req)
  (some ret.1, t ++ ret.2 ++ [Event.close sockfd])

/-! ## Reading a message back -/

/-- One attribute of a message as a receiver sees it. -/
structure Attr where
  /-- Offset of the attribute header in the message. -/
  off : Nat
  /-- Field `rta_len`. -/
  len : Nat
  /-- Field `rta_type`. -/
  type : Nat
  /-- The `rta_len - 4` bytes after the header. -/
  payload : List Nat
  deriving DecidableEq, Repr

/-- The attributes of the datagram `msg`, enumerated the way the macros
`RTA_OK` and `RTA_NEXT` of `linux/rtnetlink.h` do, starting at offset `off`:
an attribute is taken while at least a header remains, and
`4 ≤ rta_len ≤ remaining`; the walk then advances by `RTA_ALIGN(rta_len)`. -/
def rta_walk (e : Endian) (msg : List Nat) : Nat → Nat → List Attr
  | 0, _ => []
  | fuel + 1, off =>
    let remaining := msg.length - off
    let rta_len := of_bytes e [msg.getD off 0, msg.getD (off + 1) 0]
    let rta_type := of_bytes e [msg.getD (off + 2) 0, msg.getD (off + 3) 0]
    if off + sizeof_rtattr ≤ msg.length ∧ sizeof_rtattr ≤ rta_len ∧ rta_len ≤ remaining then
      { off := off, len := rta_len, type := rta_type,
        payload := (msg.drop (off + 4)).take (rta_len - 4) }
        :: rta_walk e msg fuel (off + RTA_ALIGN rta_len)
    else []

/-- Attributes of a route request: the walk starts after the 16-byte header
and the 12-byte route descriptor. -/
def attrs_of (e : Endian) (msg : List Nat) : List Attr :=
  rta_walk e msg msg.length (NLMSG_LENGTH sizeof_rtmsg)

/-- The datagrams handed to `sendmsg`, in order. -/
def sent : List Event → List (List Nat)
  | [] => []
  | Event.sendmsg _ msg :: rest => msg :: sent rest
  | _ :: rest => sent rest

/-- A 32-bit label word split into (label, traffic class, stack-bottom bit, ttl):
bits 31..12, 11..9, 8 and 7..0. -/
def decode_word (w : Nat) : Nat × Nat × Nat × Nat :=
  ((w >>> 12) &&& 0xFFFFF, (w >>> 9) &&& 7, (w >>> 8) &&& 1, w &&& 0xFF)

/-- A sample environment: little-endian host, every call succeeds, the kernel
acknowledges with an error report of code 0. -/
def sample_env : Env where
  endian := Endian.little
  socket := 3
  bind := 0
  getpid := 4242
  if_nametoindex := fun name => if name = "eth0" then 2 else 0
  inet_pton := fun s =>
    if s = "10.0.0.1" then some ⟨10, 0, 0, 1⟩
    else if s = "10.0.0.2" then some ⟨10, 0, 0, 2⟩
    else if s = "192.168.1.5" then some ⟨192, 168, 1, 5⟩
    else none
  sendmsg := 0
  recv := 36
  response := store Endian.little 2 (store Endian.little 4 zero_mem 0 36) 4 NLMSG_ERROR
  strerror := fun _ => ""

/-- The sample environment with a kernel that answers with an error report of
code `-17` (`EEXIST`). -/
def eexist_env : Env :=
  { sample_env with
    response := store Endian.little 4
      (store Endian.little 2 (store Endian.little 4 zero_mem 0 36) 4 NLMSG_ERROR)
      NLMSG_HDRLEN (int_bits 4 (-17))
    strerror := fun c => if c = 17 then "File exists" else "" }

/-- The sample environment with a `recv` that fails. -/
def recv_fail_env : Env := { sample_env with recv := -1 }

/-! ## Observations on a run -/

/-- Events that leave the socket and the process alone: lookups and diagnostics. -/
def Event.is_local : Event → Bool
  | Event.getpid => true
  | Event.if_nametoindex _ => true
  | Event.inet_pton _ _ => true
  | Event.perror _ => true
  | Event.stderr _ => true
  | _ => false

/-- The descriptors handed to `close`, in order. -/
def closed : List Event → List Int
  | [] => []
  | Event.close fd :: rest => fd :: closed rest
  | _ :: rest => closed rest

/-- Whether the run ends the process through `exit`. -/
def exits : List Event → Bool
  | [] => false
  | Event.exit _ :: _ => true
  | _ :: rest => exits rest

/-- The three ways a route operation can run. Socket creation fails; or the
bind fails and the socket is closed; or the socket is open and bound, some
lookups and diagnostics `mid` follow, and then either the operation gives up
on its literals (`ok_local` false), closes and returns `-1`, or it sends the
first `n ≤ 64` bytes of its request, closes, and returns what
`send_netlink_message` returned. -/
def op_run (env : Env) (ok_local : Prop) (r : Result) : Prop :=
  (env.socket < 0 ∧
    r = (some (-1), [Event.socket AF_NETLINK SOCK_RAW NETLINK_ROUTE, Event.perror "socket"])) ∨
  (0 ≤ env.socket ∧ env.bind < 0 ∧
    r = (some (-1), [Event.socket AF_NETLINK SOCK_RAW NETLINK_ROUTE, Event.bind env.socket,
          Event.perror "bind", Event.close env.socket])) ∨
  (0 ≤ env.socket ∧ 0 ≤ env.bind ∧ ∃ mid : List Event, (∀ ev ∈ mid, ev.is_local = true) ∧
    ((¬ ok_local ∧
        r = (some (-1),
          [Event.socket AF_NETLINK SOCK_RAW NETLINK_ROUTE, Event.bind env.socket] ++ mid
            ++ [Event.close env.socket])) ∨
     (ok_local ∧ ∃ (req : Mem) (n : Nat), n ≤ 64 ∧
        r = (some (send_netlink_message env env.socket req n).1,
          [Event.socket AF_NETLINK SOCK_RAW NETLINK_ROUTE, Event.bind env.socket] ++ mid
            ++ (send_netlink_message env env.socket req n).2 ++ [Event.close env.socket]))))

/-- The operation returns `0` or `-1`, and `0` exactly when the socket is
created and bound, the literals are accepted (`parsed`), `sendmsg` succeeds
and the check of the kernel's response succeeds. -/
def returns_zero_iff (env : Env) (parsed : Prop) (r : Result) : Prop :=
  (r.1 = some 0 ∨ r.1 = some (-1)) ∧
    (r.1 = some 0 ↔
      (0 ≤ env.socket ∧ 0 ≤ env.bind ∧ parsed ∧ 0 ≤ env.sendmsg ∧
        (process_kernel_response env env.socket).1 = 0))

/-- The operation returns `-1` and hands nothing to `sendmsg`. -/
def rejected_unsent (r : Result) : Prop := r.1 = some (-1) ∧ sent r.2 = []

/-- The operation returns, `close` is called exactly once, on the socket, and
that call is the last step of the run. -/
def closes_once (env : Env) (r : Result) : Prop :=
  r.1 ≠ none ∧ closed r.2 = [env.socket] ∧ r.2.getLast? = some (Event.close env.socket)

/-- The operation returns without going through `exit`, and every datagram it
sends has at most 64 bytes. -/
def never_overflows (r : Result) : Prop :=
  r.1 ≠ none ∧ exits r.2 = false ∧ ∀ msg ∈ sent r.2, msg.length ≤ 64

/-- The values returned by the six route operations, on the same environment
and arguments, all satisfy `P`. -/
def six_return (env : Env) (interface nexthop_ip dst_ip gateway_ip : String)
    (label new_label s_bit : Nat) (P : Option Int → Prop) : Prop :=
  P (create_mpls_route_dev env interface label s_bit).1 ∧
    P (create_mpls_route_nexthop env nexthop_ip label s_bit).1 ∧
    P (create_mpls_route_swap_dev env interface label new_label s_bit).1 ∧
    P (create_mpls_route_swap_nexthop env nexthop_ip label new_label s_bit).1 ∧
    P (create_mpls_encap_route_dev env interface dst_ip label).1 ∧
    P (create_mpls_encap_route_via env dst_ip label gateway_ip).1

/-! ## Bit-level facts used by the codec proofs -/

theorem shl_or_eq_add (a b k : Nat) (hb : b < 2 ^ k) : (a <<< k) ||| b = a * 2 ^ k + b := by
  rw [Nat.shiftLeft_eq, Nat.mul_comm a, Nat.mul_add_lt_is_or hb]

theorem and_ff (x : Nat) : x &&& 0xFF = x % 256 :=
  Nat.and_pow_two_sub_one_eq_mod x 8

theorem and_fffff (x : Nat) : x &&& 0xFFFFF = x % 2 ^ 20 :=
  Nat.and_pow_two_sub_one_eq_mod x 20

theorem and_one (x : Nat) : x &&& 1 = x % 2 :=
  Nat.and_pow_two_sub_one_eq_mod x 1

theorem and_seven (x : Nat) : x &&& 7 = x % 8 :=
  Nat.and_pow_two_sub_one_eq_mod x 3

/-- The label word of the plain encoding, in arithmetic form. -/
theorem plain_word_eq (label s_bit : Nat) (hl : label ≤ 0xFFFFF) (hs : s_bit ≤ 1) :
    (((label &&& 0xFFFFF) <<< 12) % 2 ^ 32) ||| (s_bit <<< 8) = label * 4096 + s_bit * 256 := by
  have h1 : (label &&& 0xFFFFF) = label := by rw [and_fffff]; omega
  have h2 : s_bit <<< 8 = s_bit * 256 := by rw [Nat.shiftLeft_eq]
  have h3 : (label <<< 12) % 2 ^ 32 = label <<< 12 := by
    rw [Nat.shiftLeft_eq]; omega
  rw [h1, h3, h2, shl_or_eq_add _ _ 12 (by omega)]
  omega

/-- The label word of the encapsulation encoding, in arithmetic form. -/
theorem encap_word_eq (label s_bit tc : Nat) (hs : s_bit ≤ 1) (ht : tc ≤ 7) :
    (label <<< 12) ||| (tc <<< 9) ||| (s_bit <<< 8) = label * 4096 + tc * 512 + s_bit * 256 := by
  have h2 : s_bit <<< 8 = s_bit * 256 := by rw [Nat.shiftLeft_eq]
  rw [h2, Nat.lor_assoc, shl_or_eq_add tc _ 9 (by omega), shl_or_eq_add label _ 12 (by omega)]
  omega

/-! ## Integers and their bytes -/

theorem le_bytes_length (n v : Nat) : (le_bytes n v).length = n := by
  induction n generalizing v with
  | zero => rfl
  | succ n ih => simp [le_bytes, ih]

theorem le_val_le_bytes (n v : Nat) : le_val (le_bytes n v) = v % 256 ^ n := by
  induction n generalizing v with
  | zero => simp [le_bytes, le_val, Nat.mod_one]
  | succ n ih =>
    simp only [le_bytes, le_val, ih]
    rw [pow_succ', Nat.mod_mul]

theorem le_bytes_le_val (bs : List Nat) (h : ∀ b ∈ bs, b < 256) :
    le_bytes bs.length (le_val bs) = bs := by
  induction bs with
  | nil => rfl
  | cons b bs ih =>
    have hb : b < 256 := h b (List.mem_cons_self _ _)
    have ih1 := ih (fun x hx => h x (List.mem_cons_of_mem _ hx))
    simp only [List.length_cons, le_bytes, le_val]
    have h1 : (b + 256 * le_val bs) % 256 = b := by omega
    have h2 : (b + 256 * le_val bs) / 256 = le_val bs := by omega
    rw [h1, h2, ih1]

theorem le_bytes_lt (n v : Nat) : ∀ b ∈ le_bytes n v, b < 256 := by
  induction n generalizing v with
  | zero => simp [le_bytes]
  | succ n ih =>
    intro b hb
    simp only [le_bytes, List.mem_cons] at hb
    rcases hb with hb | hb
    · omega
    · exact ih _ b hb

theorem to_bytes_length (e : Endian) (n v : Nat) : (to_bytes e n v).length = n := by
  cases e <;> simp [to_bytes, le_bytes_length]

theorem to_bytes_lt (e : Endian) (n v : Nat) : ∀ b ∈ to_bytes e n v, b < 256 := by
  cases e
  · exact le_bytes_lt n v
  · intro b hb
    exact le_bytes_lt n v b (by simpa [to_bytes] using hb)

/-- Reading back a stored integer gives the integer reduced to the field width. -/
theorem of_bytes_to_bytes (e : Endian) (n v : Nat) :
    of_bytes e (to_bytes e n v) = v % 256 ^ n := by
  cases e <;> simp [of_bytes, to_bytes, le_val_le_bytes]

/-- The bytes of the integer read from a byte string are that byte string. -/
theorem to_bytes_of_bytes (e : Endian) (bs : List Nat) (h : ∀ b ∈ bs, b < 256) :
    to_bytes e bs.length (of_bytes e bs) = bs := by
  cases e
  · exact le_bytes_le_val bs h
  · simp only [to_bytes, of_bytes]
    have h1 := le_bytes_le_val bs.reverse (fun b hb => h b (by simpa using hb))
    rw [List.length_reverse] at h1
    rw [h1, List.reverse_reverse]

theorem ntohl_htonl (e : Endian) (x : Nat) : ntohl e (htonl e x) = x % 2 ^ 32 := by
  unfold ntohl htonl
  have h := to_bytes_of_bytes e (to_bytes Endian.big 4 x) (to_bytes_lt _ _ _)
  rw [to_bytes_length] at h
  rw [h, of_bytes_to_bytes]
  norm_num

theorem htonl_eq_zero_iff (e : Endian) (x : Nat) (hx : x < 2 ^ 32) : htonl e x = 0 ↔ x = 0 := by
  constructor
  · intro h
    have h1 := ntohl_htonl e x
    rw [h, Nat.mod_eq_of_lt hx] at h1
    rw [← h1]
    cases e <;> rfl
  · intro h
    subst h
    cases e <;> rfl

theorem decode_word_eq (w : Nat) :
    decode_word w = (w / 4096 % 1048576, w / 512 % 8, w / 256 % 2, w % 256) := by
  simp only [decode_word, and_fffff, and_seven, and_one, and_ff, Nat.shiftRight_eq_div_pow]
  norm_num

/-- Network-order bytes of a 32-bit word, written out. -/
theorem to_bytes_big_4 (w : Nat) :
    to_bytes Endian.big 4 w
      = [w / 16777216 % 256, w / 65536 % 256, w / 256 % 256, w % 256] := by
  simp [to_bytes, le_bytes, Nat.div_div_eq_div_mul]

/-- The eight bytes built for an accepted triple: the fixed descriptor, then
the label word in network order. -/
theorem encap_bytes_eq (label s_bit tc : Nat) (hl : label ≤ 0xFFFFF) (hs : s_bit ≤ 1)
    (ht : tc ≤ 7) :
    encap_bytes label s_bit tc
      = [0x08, 0x00, 0x01, 0x00]
          ++ to_bytes Endian.big 4 ((label <<< 12) ||| (tc <<< 9) ||| (s_bit <<< 8)) := by
  have h3 : (label <<< 12) % 2 ^ 32 = label <<< 12 := by
    rw [Nat.shiftLeft_eq]; omega
  have hw := encap_word_eq label s_bit tc hs ht
  have hlt : (label <<< 12) ||| (tc <<< 9) ||| (s_bit <<< 8) < 2 ^ 32 := by
    rw [hw]; omega
  simp only [encap_bytes, h3, Nat.or_zero, Nat.mod_eq_of_lt hlt, and_ff,
    Nat.shiftRight_eq_div_pow, to_bytes_big_4]
  norm_num

theorem encap_bytes_lt (label s_bit tc : Nat) : ∀ b ∈ encap_bytes label s_bit tc, b < 256 := by
  intro b hb
  simp only [encap_bytes, and_ff, List.mem_cons, List.mem_singleton, List.not_mem_nil,
    or_false] at hb
  omega

theorem encap_bytes_length (label s_bit tc : Nat) : (encap_bytes label s_bit tc).length = 8 := rfl

theorem create_mpls_label_for_encap_valid (e : Endian) (label s_bit tc : Nat)
    (hl : label ≤ 0xFFFFF) (hs : s_bit ≤ 1) (ht : tc ≤ 7) :
    create_mpls_label_for_encap e label s_bit tc = (of_bytes e (encap_bytes label s_bit tc), []) := by
  simp [create_mpls_label_for_encap, Nat.not_lt.mpr hl, Nat.not_lt.mpr hs, Nat.not_lt.mpr ht]

theorem create_mpls_label_valid (e : Endian) (label s_bit : Nat)
    (hl : label ≤ 0xFFFFF) (hs : s_bit ≤ 1) :
    create_mpls_label e label s_bit = (htonl e (label * 4096 + s_bit * 256), []) := by
  have h2 : ¬ (s_bit ≠ 0 ∧ s_bit ≠ 1) := by omega
  simp only [create_mpls_label, Nat.not_lt.mpr hl, h2, if_false, plain_word_eq label s_bit hl hs]

/-! ## Label codec: claims C1, C2, C6, C7, C8 -/

/-- C1. For every label `l ≤ 1048575` and stack-bottom bit `s ∈ {0,1}`, the
value of `create_mpls_label(l, s)` converted back from network byte order is a
32-bit word with bits 31..12 equal to `l`, bit 8 equal to `s`, and bits 11..9
and 7..0 all zero, on either host byte order. -/
theorem C1_plain_label_roundtrip (e : Endian) (l s : Nat) (hl : l ≤ 1048575)
    (hs : s = 0 ∨ s = 1) :
    ntohl e (create_mpls_label e l s).1 < 2 ^ 32 ∧
      decode_word (ntohl e (create_mpls_label e l s).1) = (l, 0, s, 0) := by
  have hs1 : s ≤ 1 := by omega
  rw [create_mpls_label_valid e l s hl hs1, ntohl_htonl, decode_word_eq]
  have h : (l * 4096 + s * 256) % 2 ^ 32 = l * 4096 + s * 256 := by omega
  rw [h]
  refine ⟨by omega, ?_⟩
  simp only [Prod.mk.injEq]
  omega

theorem C1_plain_label_roundtrip_witness :
    ntohl Endian.little (create_mpls_label Endian.little 100 1).1 < 2 ^ 32 ∧
      decode_word (ntohl Endian.little (create_mpls_label Endian.little 100 1).1)
        = (100, 0, 1, 0) :=
  C1_plain_label_roundtrip Endian.little 100 1 (by decide) (by decide)

/-- C2. For every label `≤ 0xFFFFF`, stack-bottom bit `s ∈ {0,1}` and traffic
class `tc ≤ 7`, the eight bytes, in memory order, of the value returned by
`create_mpls_label_for_encap(label, s, tc)` are the descriptor
`0x08, 0x00, 0x01, 0x00` followed by the four big-endian bytes of the word
`(label << 12) | (tc << 9) | (s << 8)`, the last of which (time to live) is 0;
on either host byte order. -/
theorem C2_encap_header_bytes (e : Endian) (label s tc : Nat) (hl : label ≤ 0xFFFFF)
    (hs : s = 0 ∨ s = 1) (ht : tc ≤ 7) :
    to_bytes e 8 (create_mpls_label_for_encap e label s tc).1
        = [0x08, 0x00, 0x01, 0x00]
            ++ to_bytes Endian.big 4 ((label <<< 12) ||| (tc <<< 9) ||| (s <<< 8)) ∧
      (to_bytes Endian.big 4 ((label <<< 12) ||| (tc <<< 9) ||| (s <<< 8))).getD 3 1 = 0 := by
  have hs1 : s ≤ 1 := by omega
  rw [create_mpls_label_for_encap_valid e label s tc hl hs1 ht]
  have h := to_bytes_of_bytes e (encap_bytes label s tc) (encap_bytes_lt label s tc)
  rw [encap_bytes_length] at h
  refine ⟨by rw [h, encap_bytes_eq label s tc hl hs1 ht], ?_⟩
  rw [encap_word_eq label s tc hs1 ht, to_bytes_big_4]
  simp only [List.getD_cons_succ, List.getD_cons_zero]
  omega

theorem C2_encap_header_bytes_witness :
    to_bytes Endian.little 8 (create_mpls_label_for_encap Endian.little 100 1 5).1
        = [0x08, 0x00, 0x01, 0x00]
            ++ to_bytes Endian.big 4 ((100 <<< 12) ||| (5 <<< 9) ||| (1 <<< 8)) ∧
      (to_bytes Endian.big 4 ((100 <<< 12) ||| (5 <<< 9) ||| (1 <<< 8))).getD 3 1 = 0 :=
  C2_encap_header_bytes Endian.little 100 1 5 (by decide) (by decide) (by decide)

/-- C6, as stated, fails: the rejected pair (label `0x100000`, stack-bottom 0)
gets the same result as the valid pair (label 0, stack-bottom 0), namely 0. -/
theorem C6_rejection_not_distinct :
    ¬ (∀ l s l' s' : Nat, (l > 0xFFFFF ∨ (s ≠ 0 ∧ s ≠ 1)) → l' ≤ 0xFFFFF → (s' = 0 ∨ s' = 1) →
        (create_mpls_label Endian.little l s).1 ≠ (create_mpls_label Endian.little l' s').1) := by
  intro h
  exact h 0x100000 0 0 0 (by decide) (by decide) (by decide) (by decide)

/-- C6, amended. For every label `> 0xFFFFF` and every stack-bottom value
outside `{0,1}`, `create_mpls_label` returns 0 and writes an error line to
`stderr`, while a valid pair writes nothing; the returned 0 differs from the
value of every valid pair except (label 0, stack-bottom 0), whose encoding is
0 as well. -/
theorem C6_rejection_returns_zero (e : Endian) (l s l' s' : Nat)
    (hbad : l > 0xFFFFF ∨ (s ≠ 0 ∧ s ≠ 1)) (hl' : l' ≤ 0xFFFFF) (hs' : s' = 0 ∨ s' = 1) :
    (create_mpls_label e l s).1 = 0 ∧ (create_mpls_label e l s).2 ≠ [] ∧
      (create_mpls_label e l' s').2 = [] ∧
      ((create_mpls_label e l s).1 = (create_mpls_label e l' s').1 ↔ (l' = 0 ∧ s' = 0)) := by
  have hs1 : s' ≤ 1 := by omega
  have h0 : (create_mpls_label e l s).1 = 0 ∧ (create_mpls_label e l s).2 ≠ [] := by
    unfold create_mpls_label
    by_cases h1 : l > 0xFFFFF
    · simp [h1]
    · have h2 : s ≠ 0 ∧ s ≠ 1 := by omega
      simp [h1, h2]
  refine ⟨h0.1, h0.2, ?_, ?_⟩
  · rw [create_mpls_label_valid e l' s' hl' hs1]
  · rw [h0.1, create_mpls_label_valid e l' s' hl' hs1]
    constructor
    · intro h
      have := (htonl_eq_zero_iff e (l' * 4096 + s' * 256) (by omega)).mp h.symm
      omega
    · rintro ⟨rfl, rfl⟩
      exact ((htonl_eq_zero_iff e 0 (by decide)).mpr rfl).symm

theorem C6_rejection_returns_zero_witness :
    (create_mpls_label Endian.little 0x100000 1).1 = 0 ∧
      (create_mpls_label Endian.little 0x100000 1).2 ≠ [] ∧
      (create_mpls_label Endian.little 100 1).2 = [] ∧
      ((create_mpls_label Endian.little 0x100000 1).1 = (create_mpls_label Endian.little 100 1).1
        ↔ ((100 : Nat) = 0 ∧ (1 : Nat) = 0)) :=
  C6_rejection_returns_zero Endian.little 0x100000 1 100 1 (by decide) (by decide) (by decide)

/-- C7. `create_mpls_label_for_encap` returns 0 exactly for the triples with
label `> 0xFFFFF`, or stack-bottom `> 1`, or traffic class `> 7` (so traffic
class 8 with a valid label and stack-bottom is rejected), and a non-zero value
for every valid triple: the rejection result is never a valid encoding. -/
theorem C7_encap_rejects_with_zero (e : Endian) (label s tc : Nat) :
    ((create_mpls_label_for_encap e label s tc).1 = 0 ↔ (label > 0xFFFFF ∨ s > 1 ∨ tc > 7)) ∧
      (create_mpls_label_for_encap e 100 1 8).1 = 0 := by
  refine ⟨?_, by simp [create_mpls_label_for_encap]⟩
  by_cases hl : label > 0xFFFFF
  · simp [create_mpls_label_for_encap, hl]
  by_cases hs : s > 1
  · simp [create_mpls_label_for_encap, hl, hs]
  by_cases ht : tc > 7
  · simp [create_mpls_label_for_encap, hl, hs, ht]
  rw [create_mpls_label_for_encap_valid e label s tc (by omega) (by omega) (by omega)]
  have hne : of_bytes e (encap_bytes label s tc) ≠ 0 := by
    cases e <;> simp only [of_bytes, encap_bytes, List.reverse_cons, List.reverse_nil,
      List.nil_append, List.cons_append, le_val] <;> omega
  simp only [hne, false_iff]
  omega

/-- C8, as stated, fails on the little-endian host: for label 100,
stack-bottom 1, traffic class 0 the low 32 bits of the returned value are the
fixed descriptor `0x00010008`, whose bits 31..12 are 16 and whose bit 8 is 0. -/
theorem C8_low_word_is_descriptor :
    (create_mpls_label_for_encap Endian.little 100 1 0).1 % 2 ^ 32 = 0x00010008 ∧
      decode_word ((create_mpls_label_for_encap Endian.little 100 1 0).1 % 2 ^ 32)
        = (16, 0, 0, 8) ∧
      (decode_word ((create_mpls_label_for_encap Endian.little 100 1 0).1 % 2 ^ 32)).1 ≠ 100 := by
  decide

/-- C8, amended. For every label `≤ 0xFFFFF`, stack-bottom bit `s ∈ {0,1}` and
traffic class `tc` in `0..7`, on the little-endian host the low 32 bits of the
value returned by `create_mpls_label_for_encap(label, s, tc)` are the fixed
descriptor `0x00010008`, and it is the high 32 bits, converted from network
byte order, that decode back to the triple: bits 31..12 = label,
bits 11..9 = tc, bit 8 = s (and time to live 0). -/
theorem C8_high_word_decodes (label s tc : Nat) (hl : label ≤ 0xFFFFF)
    (hs : s = 0 ∨ s = 1) (ht : tc ≤ 7) :
    (create_mpls_label_for_encap Endian.little label s tc).1 % 2 ^ 32 = 0x00010008 ∧
      decode_word (ntohl Endian.little
        ((create_mpls_label_for_encap Endian.little label s tc).1 / 2 ^ 32))
        = (label, tc, s, 0) := by
  have hs1 : s ≤ 1 := by omega
  have hw := encap_word_eq label s tc hs1 ht
  rw [create_mpls_label_for_encap_valid _ label s tc hl hs1 ht,
    encap_bytes_eq label s tc hl hs1 ht]
  generalize hbs : to_bytes Endian.big 4 ((label <<< 12) ||| (tc <<< 9) ||| (s <<< 8)) = bs
  have hlen : bs.length = 4 := by rw [← hbs, to_bytes_length]
  have hlt : ∀ b ∈ bs, b < 256 := by rw [← hbs]; exact to_bytes_lt _ _ _
  have hv : of_bytes Endian.little ([0x08, 0x00, 0x01, 0x00] ++ bs)
      = 0x00010008 + 2 ^ 32 * le_val bs := by
    show le_val (8 :: 0 :: 1 :: 0 :: bs) = _
    simp only [le_val]
    omega
  have h1 : (0x00010008 + 2 ^ 32 * le_val bs) % 2 ^ 32 = 0x00010008 := by omega
  have h2 : (0x00010008 + 2 ^ 32 * le_val bs) / 2 ^ 32 = le_val bs := by omega
  rw [hv, h1, h2]
  refine ⟨rfl, ?_⟩
  have h3 : ntohl Endian.little (le_val bs) = of_bytes Endian.big bs := by
    have := le_bytes_le_val bs hlt
    rw [hlen] at this
    simp only [ntohl, to_bytes, this]
  rw [h3, ← hbs, of_bytes_to_bytes, hw, decode_word_eq]
  simp only [Prod.mk.injEq]
  omega

theorem C8_high_word_decodes_witness :
    (create_mpls_label_for_encap Endian.little 100 1 5).1 % 2 ^ 32 = 0x00010008 ∧
      decode_word (ntohl Endian.little
        ((create_mpls_label_for_encap Endian.little 100 1 5).1 / 2 ^ 32))
        = (100, 5, 1, 0) :=
  C8_high_word_decodes 100 1 5 (by decide) (by decide) (by decide)

/-! ## Alignment macros -/

theorem and_fffffffc (x : Nat) (hx : x < 2 ^ 32) : x &&& 0xFFFFFFFC = x / 4 * 4 := by
  have h1 : (0xFFFFFFFC : Nat) = (2 ^ 30 - 1) <<< 2 := by decide
  have h2 : x / 4 * 4 = (x >>> 2) <<< 2 := by
    rw [Nat.shiftLeft_eq, Nat.shiftRight_eq_div_pow]
  rw [h1, h2]
  apply Nat.eq_of_testBit_eq
  intro i
  simp only [Nat.testBit_and, Nat.testBit_shiftLeft, Nat.testBit_shiftRight,
    Nat.testBit_two_pow_sub_one]
  by_cases hi : 2 ≤ i
  · have h3 : 2 + (i - 2) = i := by omega
    rw [h3]
    by_cases hi2 : i - 2 < 30
    · simp [hi, hi2]
    · have h4 : x.testBit i = false := by
        apply Nat.testBit_lt_two_pow
        calc x < 2 ^ 32 := hx
          _ ≤ 2 ^ i := Nat.pow_le_pow_right (by decide) (by omega)
      simp [h4]
  · simp [hi]

theorem NLMSG_ALIGN_eq (n : Nat) : NLMSG_ALIGN n = (n + 3) % 2 ^ 32 / 4 * 4 := by
  unfold NLMSG_ALIGN
  exact and_fffffffc _ (Nat.mod_lt _ (by decide))

theorem RTA_ALIGN_eq (n : Nat) : RTA_ALIGN n = (n + 3) % 2 ^ 32 / 4 * 4 := by
  unfold RTA_ALIGN
  exact and_fffffffc _ (Nat.mod_lt _ (by decide))

theorem NLMSG_ALIGN_mod4 (n : Nat) : NLMSG_ALIGN n % 4 = 0 := by
  rw [NLMSG_ALIGN_eq]; omega

theorem NLMSG_ALIGN_lt (n : Nat) : NLMSG_ALIGN n < 2 ^ 32 := by
  rw [NLMSG_ALIGN_eq]; omega

theorem NLMSG_ALIGN_bounds (n : Nat) (h : n + 3 < 2 ^ 32) :
    n ≤ NLMSG_ALIGN n ∧ NLMSG_ALIGN n < n + 4 := by
  rw [NLMSG_ALIGN_eq]; omega

theorem RTA_LENGTH_eq (n : Nat) : RTA_LENGTH n = 4 + n := by
  have h : RTA_ALIGN sizeof_rtattr = 4 := by decide
  rw [RTA_LENGTH, h]

/-! ## Loads and stores -/

theorem load_bytes_length (m : Mem) (a n : Nat) : (load_bytes m a n).length = n := by
  simp [load_bytes]

theorem load_bytes_store_bytes_same (m : Mem) (a : Nat) (bs : List Nat) :
    load_bytes (store_bytes m a bs) a bs.length = bs := by
  apply List.ext_getElem
  · simp [load_bytes]
  · intro i h1 h2
    simp only [load_bytes, List.getElem_map, List.getElem_range, store_bytes]
    have h3 : a ≤ a + i ∧ a + i < a + bs.length := by omega
    rw [if_pos h3, Nat.add_sub_cancel_left, List.getD_eq_getElem _ _ h2]

theorem load_bytes_store_bytes_disjoint (m : Mem) (a b n : Nat) (bs : List Nat)
    (h : b + n ≤ a ∨ a + bs.length ≤ b) :
    load_bytes (store_bytes m a bs) b n = load_bytes m b n := by
  unfold load_bytes
  apply List.map_congr_left
  intro i hi
  have hi' : i < n := List.mem_range.mp hi
  have h3 : ¬ (a ≤ b + i ∧ b + i < a + bs.length) := by omega
  simp only [store_bytes, if_neg h3]

theorem load_store_same (e : Endian) (n : Nat) (m : Mem) (a v : Nat) :
    load e n (store e n m a v) a = v % 256 ^ n := by
  unfold load store
  have h := load_bytes_store_bytes_same m a (to_bytes e n v)
  rw [to_bytes_length] at h
  rw [h, of_bytes_to_bytes]

theorem load_store_bytes_disjoint (e : Endian) (n : Nat) (m : Mem) (a b : Nat) (bs : List Nat)
    (h : b + n ≤ a ∨ a + bs.length ≤ b) :
    load e n (store_bytes m a bs) b = load e n m b := by
  unfold load
  rw [load_bytes_store_bytes_disjoint m a b n bs h]

theorem load_store_disjoint (e : Endian) (n k : Nat) (m : Mem) (a b v : Nat)
    (h : b + n ≤ a ∨ a + k ≤ b) :
    load e n (store e k m a v) b = load e n m b := by
  unfold store
  exact load_store_bytes_disjoint e n m a b _ (by rw [to_bytes_length]; exact h)

theorem load_bytes_store_disjoint (e : Endian) (k : Nat) (m : Mem) (a b n v : Nat)
    (h : b + n ≤ a ∨ a + k ≤ b) :
    load_bytes (store e k m a v) b n = load_bytes m b n := by
  unfold store
  exact load_bytes_store_bytes_disjoint m a b n _ (by rw [to_bytes_length]; exact h)

theorem nlmsg_len_store (e : Endian) (m : Mem) (v : Nat) :
    nlmsg_len e (store e 4 m 0 v) = v % 2 ^ 32 := by
  unfold nlmsg_len
  rw [load_store_same]
  norm_num

/-! ## The attribute appender -/

theorem add_attr_isOk_iff (e : Endian) (m : Mem) (maxlen : Nat) (type : Int) (data : List Nat) :
    (add_attr e m maxlen type data).isOk = true
      ↔ (NLMSG_ALIGN (nlmsg_len e m) + RTA_LENGTH data.length % 2 ^ 32) % 2 ^ 32 ≤ maxlen := by
  unfold add_attr
  by_cases h : (NLMSG_ALIGN (nlmsg_len e m) + RTA_LENGTH data.length % 2 ^ 32) % 2 ^ 32 > maxlen
  · simp only [h, if_true, Outcome.isOk]
    constructor
    · intro h1; cases h1
    · intro h1; omega
  · simp only [h, if_false, Outcome.isOk, true_iff]
    omega

/-- The request after a call of `add_attr` that returns. -/
theorem add_attr_mem_of_ok (e : Endian) (m : Mem) (maxlen : Nat) (type : Int) (data : List Nat)
    (h : (add_attr e m maxlen type data).isOk = true) :
    (add_attr e m maxlen type data).mem
      = store e 4
          (store_bytes
            (store e 2 (store e 2 m (NLMSG_ALIGN (nlmsg_len e m) + 2) (int_bits 2 type))
              (NLMSG_ALIGN (nlmsg_len e m)) (RTA_LENGTH data.length % 2 ^ 32))
            (NLMSG_ALIGN (nlmsg_len e m) + RTA_LENGTH 0) data) 0
          ((NLMSG_ALIGN (nlmsg_len e
              (store_bytes
                (store e 2 (store e 2 m (NLMSG_ALIGN (nlmsg_len e m) + 2) (int_bits 2 type))
                  (NLMSG_ALIGN (nlmsg_len e m)) (RTA_LENGTH data.length % 2 ^ 32))
                (NLMSG_ALIGN (nlmsg_len e m) + RTA_LENGTH 0) data))
            + RTA_LENGTH data.length % 2 ^ 32) % 2 ^ 32) := by
  have h1 := (add_attr_isOk_iff e m maxlen type data).mp h
  have h2 : ¬ (NLMSG_ALIGN (nlmsg_len e m) + RTA_LENGTH data.length % 2 ^ 32) % 2 ^ 32 > maxlen := by
    omega
  simp only [add_attr, h2, if_false, Outcome.mem]

theorem add_attr_eq_ok_of_isOk (e : Endian) (m : Mem) (maxlen : Nat) (type : Int)
    (data : List Nat) (h : (add_attr e m maxlen type data).isOk = true) :
    add_attr e m maxlen type data = Outcome.ok (add_attr e m maxlen type data).mem := by
  cases hc : add_attr e m maxlen type data with
  | ok m1 => rfl
  | exit m1 msg st => rw [hc] at h; cases h

/-- After a call that returns, `nlmsg_len` is congruent to the payload length
modulo 4. -/
theorem add_attr_nlmsg_len_mod4 (e : Endian) (m : Mem) (maxlen : Nat) (type : Int)
    (data : List Nat) (h : (add_attr e m maxlen type data).isOk = true) :
    nlmsg_len e (add_attr e m maxlen type data).mem % 4 = data.length % 4 := by
  rw [add_attr_mem_of_ok e m maxlen type data h, nlmsg_len_store, RTA_LENGTH_eq]
  generalize hx : NLMSG_ALIGN (nlmsg_len e _) = x
  have hx4 : x % 4 = 0 := by rw [← hx]; exact NLMSG_ALIGN_mod4 _
  omega

theorem add_attrs_append (e : Endian) (maxlen : Nat) (m : Mem) (cs : List (Int × List Nat))
    (c : Int × List Nat) :
    add_attrs e maxlen m (cs ++ [c])
      = match add_attrs e maxlen m cs with
        | Outcome.ok m1 => add_attr e m1 maxlen c.1 c.2
        | Outcome.exit m1 msg status => Outcome.exit m1 msg status := by
  induction cs generalizing m with
  | nil =>
    obtain ⟨t, d⟩ := c
    simp only [List.nil_append, add_attrs]
    cases add_attr e m maxlen t d <;> rfl
  | cons c0 cs ih =>
    obtain ⟨t0, d0⟩ := c0
    simp only [List.cons_append, add_attrs]
    cases add_attr e m maxlen t0 d0 with
    | ok m1 => exact ih m1
    | exit m1 msg st => rfl

theorem int_bits_two (x : Int) : int_bits 2 x = (x % 65536).toNat := by
  simp [int_bits]

theorem int_bits_two_lt (x : Int) : int_bits 2 x < 65536 := by
  rw [int_bits_two]; omega

theorem int_bits_four (x : Int) : int_bits 4 x = (x % 4294967296).toNat := by
  simp [int_bits]

theorem nlmsg_len_init (e : Endian) (m : Mem) (type flags pid seq : Int) :
    nlmsg_len e (init_netlink_message e m type flags pid seq) = 28 := by
  unfold init_netlink_message nlmsg_len
  rw [load_store_disjoint e 4 4 _ 12 0 _ (by omega), load_store_disjoint e 4 4 _ 8 0 _ (by omega),
    load_store_disjoint e 4 2 _ 6 0 _ (by omega), load_store_disjoint e 4 2 _ 4 0 _ (by omega),
    load_store_same]
  rfl

/-- Layout of the attribute written by a call of `add_attr` that returns. -/
theorem add_attr_layout (e : Endian) (m : Mem) (maxlen : Nat) (type : Int)
    (data : List Nat) (h0 : 0 < nlmsg_len e m) (hle : nlmsg_len e m ≤ maxlen)
    (hmax : maxlen ≤ 65535) (hlen : data.length ≤ 2147483647)
    (hok : (add_attr e m maxlen type data).isOk = true) :
    NLMSG_ALIGN (nlmsg_len e m) % 4 = 0 ∧
      load e 2 (add_attr e m maxlen type data).mem (NLMSG_ALIGN (nlmsg_len e m))
        = 4 + data.length ∧
      load e 2 (add_attr e m maxlen type data).mem (NLMSG_ALIGN (nlmsg_len e m) + 2)
        = int_bits 2 type ∧
      (0 ≤ type → type ≤ 65535 →
        (load e 2 (add_attr e m maxlen type data).mem (NLMSG_ALIGN (nlmsg_len e m) + 2) : Int)
          = type) ∧
      load_bytes (add_attr e m maxlen type data).mem (NLMSG_ALIGN (nlmsg_len e m) + 4)
        data.length = data := by
  have hb := NLMSG_ALIGN_bounds (nlmsg_len e m) (by omega)
  have h4 := NLMSG_ALIGN_mod4 (nlmsg_len e m)
  have hc := (add_attr_isOk_iff e m maxlen type data).mp hok
  rw [RTA_LENGTH_eq] at hc
  rw [add_attr_mem_of_ok e m maxlen type data hok]
  simp only [RTA_LENGTH_eq, Nat.add_zero]
  generalize NLMSG_ALIGN (nlmsg_len e m) = o at *
  have ho : 4 ≤ o := by omega
  have hr : (4 + data.length) % 2 ^ 32 = 4 + data.length := by omega
  have htype : load e 2
      (store e 4
        (store_bytes (store e 2 (store e 2 m (o + 2) (int_bits 2 type)) o
          ((4 + data.length) % 2 ^ 32)) (o + 4) data) 0
        ((NLMSG_ALIGN (nlmsg_len e
          (store_bytes (store e 2 (store e 2 m (o + 2) (int_bits 2 type)) o
            ((4 + data.length) % 2 ^ 32)) (o + 4) data))
          + (4 + data.length) % 2 ^ 32) % 2 ^ 32)) (o + 2) = int_bits 2 type := by
    rw [load_store_disjoint e 2 4 _ 0 (o + 2) _ (by omega),
      load_store_bytes_disjoint e 2 _ (o + 4) (o + 2) _ (by omega),
      load_store_disjoint e 2 2 _ o (o + 2) _ (by omega), load_store_same]
    have := int_bits_two_lt type
    omega
  refine ⟨h4, ?_, htype, ?_, ?_⟩
  · rw [load_store_disjoint e 2 4 _ 0 o _ (by omega),
      load_store_bytes_disjoint e 2 _ (o + 4) o _ (by omega), load_store_same]
    omega
  · intro h1 h2
    rw [htype, int_bits_two]
    omega
  · rw [load_bytes_store_disjoint e 4 _ 0 (o + 4) _ _ (by omega),
      load_bytes_store_bytes_same]


/-- A call of `add_attr` returns when the unrounded attribute fits. -/
theorem add_attr_ok (e : Endian) (m : Mem) (maxlen : Nat) (type : Int) (data : List Nat)
    (hfit : NLMSG_ALIGN (nlmsg_len e m) + 4 + data.length ≤ maxlen) :
    (add_attr e m maxlen type data).isOk = true := by
  rw [add_attr_isOk_iff, RTA_LENGTH_eq]
  have h1 := Nat.mod_le (4 + data.length) (2 ^ 32)
  have h2 := Nat.mod_le (NLMSG_ALIGN (nlmsg_len e m) + (4 + data.length) % 2 ^ 32) (2 ^ 32)
  omega

/-- The new `nlmsg_len` after a call that returns, when the attribute does not
lie on the `nlmsg_len` field. -/
theorem add_attr_nlmsg_len (e : Endian) (m : Mem) (maxlen : Nat) (type : Int) (data : List Nat)
    (h0 : 0 < nlmsg_len e m) (hle : nlmsg_len e m ≤ maxlen) (hmax : maxlen ≤ 65535)
    (hfit : NLMSG_ALIGN (nlmsg_len e m) + 4 + data.length ≤ maxlen) :
    nlmsg_len e (add_attr e m maxlen type data).mem
      = NLMSG_ALIGN (nlmsg_len e m) + 4 + data.length := by
  have hok := add_attr_ok e m maxlen type data hfit
  have h4 := NLMSG_ALIGN_mod4 (nlmsg_len e m)
  have hb := NLMSG_ALIGN_bounds (nlmsg_len e m) (by omega)
  rw [add_attr_mem_of_ok e m maxlen type data hok, nlmsg_len_store]
  simp only [RTA_LENGTH_eq, Nat.add_zero]
  have hkeep : ∀ o, 4 ≤ o → nlmsg_len e
      (store_bytes (store e 2 (store e 2 m (o + 2) (int_bits 2 type)) o
          ((4 + data.length) % 2 ^ 32)) (o + 4) data) = nlmsg_len e m := by
    intro o ho
    unfold nlmsg_len
    rw [load_store_bytes_disjoint e 4 _ _ 0 _ (by omega),
      load_store_disjoint e 4 2 _ _ 0 _ (by omega),
      load_store_disjoint e 4 2 _ _ 0 _ (by omega)]
  rw [hkeep _ (by omega)]
  omega

/-- A call of `add_attr` leaves the bytes between the `nlmsg_len` field and the
new attribute as they were. -/
theorem add_attr_frame (e : Endian) (m : Mem) (maxlen : Nat) (type : Int) (data : List Nat)
    (b n : Nat) (hb : 4 ≤ b) (hbn : b + n ≤ NLMSG_ALIGN (nlmsg_len e m)) :
    load_bytes (add_attr e m maxlen type data).mem b n = load_bytes m b n := by
  unfold add_attr
  by_cases h : (NLMSG_ALIGN (nlmsg_len e m) + RTA_LENGTH data.length % 2 ^ 32) % 2 ^ 32 > maxlen
  · simp only [h, if_true, Outcome.mem]
  · simp only [h, if_false, Outcome.mem]
    simp only [RTA_LENGTH_eq, Nat.add_zero]
    rw [load_bytes_store_disjoint e 4 _ 0 b n _ (by omega),
      load_bytes_store_bytes_disjoint _ _ b n _ (by omega),
      load_bytes_store_disjoint e 2 _ _ b n _ (by omega),
      load_bytes_store_disjoint e 2 _ _ b n _ (by omega)]

/-! ## The attribute appender: claims C3, C4, C5 -/

/-- C3, as stated, fails: after `init_netlink_message` and the three appends
of the swap-via-next-hop recipe (payloads of 4, 4 and 6 bytes) every call
returns and `nlmsg_len` is 54, which is not a multiple of 4. -/
theorem C3_nlmsg_len_unaligned :
    (add_attrs Endian.little sizeof_req
        (init_netlink_message Endian.little zero_mem RTM_NEWROUTE request_flags 4242 1)
        [(1, [0, 6, 65, 0]), (19, [0, 12, 129, 0]), (18, [2, 0, 10, 0, 0, 1])]).isOk = true ∧
      nlmsg_len Endian.little
        (add_attrs Endian.little sizeof_req
          (init_netlink_message Endian.little zero_mem RTM_NEWROUTE request_flags 4242 1)
          [(1, [0, 6, 65, 0]), (19, [0, 12, 129, 0]), (18, [2, 0, 10, 0, 0, 1])]).mem = 54 ∧
      ¬ (54 % 4 = 0) := by
  decide

/-- C3, amended. Starting from the state left by `init_netlink_message`
(where `nlmsg_len` is 28, a multiple of 4), after every successful `add_attr`
call of any sequence of calls, for any payload lengths, `nlmsg_len` is
congruent modulo 4 to the length of the payload just appended, so it is a
multiple of 4 exactly when that length is; the offset
`NLMSG_ALIGN(nlmsg_len)`, at which the next attribute is placed, is always a
multiple of 4. -/
theorem C3_nlmsg_len_mod4 (e : Endian) (m0 : Mem) (type flags pid seq : Int) (maxlen : Nat)
    (calls : List (Int × List Nat)) (t : Int) (d : List Nat)
    (h : (add_attrs e maxlen (init_netlink_message e m0 type flags pid seq)
            (calls ++ [(t, d)])).isOk = true) :
    nlmsg_len e (init_netlink_message e m0 type flags pid seq) % 4 = 0 ∧
      nlmsg_len e (add_attrs e maxlen (init_netlink_message e m0 type flags pid seq)
          (calls ++ [(t, d)])).mem % 4 = d.length % 4 ∧
      NLMSG_ALIGN (nlmsg_len e (add_attrs e maxlen (init_netlink_message e m0 type flags pid seq)
          (calls ++ [(t, d)])).mem) % 4 = 0 := by
  refine ⟨by rw [nlmsg_len_init], ?_, NLMSG_ALIGN_mod4 _⟩
  rw [add_attrs_append] at h ⊢
  cases hc : add_attrs e maxlen (init_netlink_message e m0 type flags pid seq) calls with
  | ok m1 =>
    rw [hc] at h
    exact add_attr_nlmsg_len_mod4 e m1 maxlen t d h
  | exit m1 msg st =>
    rw [hc] at h
    cases h

theorem C3_nlmsg_len_mod4_witness :
    nlmsg_len Endian.little
        (init_netlink_message Endian.little zero_mem RTM_NEWROUTE request_flags 4242 1) % 4 = 0 ∧
      nlmsg_len Endian.little
        (add_attrs Endian.little sizeof_req
          (init_netlink_message Endian.little zero_mem RTM_NEWROUTE request_flags 4242 1)
          ([(1, [0, 6, 65, 0]), (19, [0, 12, 129, 0])] ++ [(18, [2, 0, 10, 0, 0, 1])])).mem % 4
        = [2, 0, 10, 0, 0, 1].length % 4 ∧
      NLMSG_ALIGN (nlmsg_len Endian.little
        (add_attrs Endian.little sizeof_req
          (init_netlink_message Endian.little zero_mem RTM_NEWROUTE request_flags 4242 1)
          ([(1, [0, 6, 65, 0]), (19, [0, 12, 129, 0])] ++ [(18, [2, 0, 10, 0, 0, 1])])).mem) % 4
        = 0 :=
  C3_nlmsg_len_mod4 Endian.little zero_mem RTM_NEWROUTE request_flags 4242 1 sizeof_req
    [(1, [0, 6, 65, 0]), (19, [0, 12, 129, 0])] 18 [2, 0, 10, 0, 0, 1] (by decide)

/-- C4, as stated, fails: with `nlmsg_len = 28`, capacity 38 and a 6-byte
payload the rounded size exceeds the capacity (`28 + RTA_ALIGN(10) = 40 > 38`),
yet `add_attr` returns and `nlmsg_len` becomes 38. -/
theorem C4_rounded_size_not_checked :
    NLMSG_ALIGN (nlmsg_len Endian.little
        (init_netlink_message Endian.little zero_mem RTM_NEWROUTE request_flags 4242 1))
        + RTA_ALIGN (4 + [0, 0, 0, 0, 0, 0].length) > 38 ∧
      (add_attr Endian.little
        (init_netlink_message Endian.little zero_mem RTM_NEWROUTE request_flags 4242 1)
        38 1 [0, 0, 0, 0, 0, 0]).isOk = true ∧
      nlmsg_len Endian.little (add_attr Endian.little
        (init_netlink_message Endian.little zero_mem RTM_NEWROUTE request_flags 4242 1)
        38 1 [0, 0, 0, 0, 0, 0]).mem = 38 := by
  decide

/-- C4, amended. For every message, every capacity `maxlen` and every payload:
if the unrounded size of the appended attribute exceeds the capacity, that is
`NLMSG_ALIGN(nlmsg_len) + (4 + len) > maxlen` with the sum taken in the
unsigned 32-bit arithmetic of the code, then `add_attr` ends the process with
`exit(EXIT_FAILURE)` after writing "Attribute too big", the request (so
`nlmsg_len` and every byte of the buffer) being unchanged. -/
theorem C4_capacity_exceeded (e : Endian) (m : Mem) (maxlen : Nat) (type : Int)
    (data : List Nat)
    (h : (NLMSG_ALIGN (nlmsg_len e m) + (4 + data.length) % 2 ^ 32) % 2 ^ 32 > maxlen) :
    add_attr e m maxlen type data = Outcome.exit m "Attribute too big\n" EXIT_FAILURE := by
  rw [← RTA_LENGTH_eq] at h
  simp only [add_attr, h, if_true]

theorem C4_capacity_exceeded_witness :
    (NLMSG_ALIGN (nlmsg_len Endian.little
        (init_netlink_message Endian.little zero_mem RTM_NEWROUTE request_flags 4242 1))
        + (4 + [0, 0, 0, 0, 0, 0].length) % 2 ^ 32) % 2 ^ 32 > 36 ∧
      add_attr Endian.little
        (init_netlink_message Endian.little zero_mem RTM_NEWROUTE request_flags 4242 1)
        36 1 [0, 0, 0, 0, 0, 0]
        = Outcome.exit
            (init_netlink_message Endian.little zero_mem RTM_NEWROUTE request_flags 4242 1)
            "Attribute too big\n" EXIT_FAILURE :=
  ⟨by decide, C4_capacity_exceeded Endian.little _ 36 1 [0, 0, 0, 0, 0, 0] (by decide)⟩

/-- C5, as stated, fails in two ways. With `nlmsg_len = 28` and the type
argument 65537 the call returns and the 16-bit type stored at offset 30 is 1,
not 65537. With `nlmsg_len = 0` (capacity 100, type 1, empty payload) the
attribute header lies on the `nlmsg_len` field itself, and after the call the
16-bit length stored at offset 0 is 8, not 4. -/
theorem C5_type_truncated_and_header_overlap :
    ((add_attr Endian.little
        (init_netlink_message Endian.little zero_mem RTM_NEWROUTE request_flags 4242 1)
        sizeof_req 65537 []).isOk = true ∧
      load Endian.little 2 (add_attr Endian.little
        (init_netlink_message Endian.little zero_mem RTM_NEWROUTE request_flags 4242 1)
        sizeof_req 65537 []).mem 30 = 1) ∧
      (nlmsg_len Endian.little zero_mem = 0 ∧
        (add_attr Endian.little zero_mem 100 1 []).isOk = true ∧
        load Endian.little 2 (add_attr Endian.little zero_mem 100 1 []).mem 0 = 8) := by
  decide

/-- C5, amended. For every message with `0 < nlmsg_len ≤ maxlen ≤ 65535` and
every payload of `len ≥ 0` bytes (`len` a C `int`): when `add_attr` succeeds,
the new attribute starts at offset `o = NLMSG_ALIGN(old nlmsg_len)`, a
multiple of 4; the 16-bit length stored at `o` equals `4 + len`, never
including alignment padding; the 16-bit type stored at `o + 2` equals the type
argument reduced to 16 bits, hence the type argument itself when that is in
`0..65535`; and the `len` bytes from `o + 4` equal the payload. -/
theorem C5_attribute_layout (e : Endian) (m : Mem) (maxlen : Nat) (type : Int)
    (data : List Nat) (h0 : 0 < nlmsg_len e m) (hle : nlmsg_len e m ≤ maxlen)
    (hmax : maxlen ≤ 65535) (hlen : data.length ≤ 2147483647)
    (hok : (add_attr e m maxlen type data).isOk = true) :
    NLMSG_ALIGN (nlmsg_len e m) % 4 = 0 ∧
      load e 2 (add_attr e m maxlen type data).mem (NLMSG_ALIGN (nlmsg_len e m))
        = 4 + data.length ∧
      load e 2 (add_attr e m maxlen type data).mem (NLMSG_ALIGN (nlmsg_len e m) + 2)
        = int_bits 2 type ∧
      (0 ≤ type → type ≤ 65535 →
        (load e 2 (add_attr e m maxlen type data).mem (NLMSG_ALIGN (nlmsg_len e m) + 2) : Int)
          = type) ∧
      load_bytes (add_attr e m maxlen type data).mem (NLMSG_ALIGN (nlmsg_len e m) + 4)
        data.length = data :=
  add_attr_layout e m maxlen type data h0 hle hmax hlen hok

theorem C5_attribute_layout_witness :
    NLMSG_ALIGN (nlmsg_len Endian.little (init_mpls_req sample_env)) % 4 = 0 ∧
      load Endian.little 2
        (add_attr Endian.little (init_mpls_req sample_env) sizeof_req 18
          [2, 0, 10, 0, 0, 1]).mem
        (NLMSG_ALIGN (nlmsg_len Endian.little (init_mpls_req sample_env)))
        = 4 + [2, 0, 10, 0, 0, 1].length ∧
      load Endian.little 2
        (add_attr Endian.little (init_mpls_req sample_env) sizeof_req 18
          [2, 0, 10, 0, 0, 1]).mem
        (NLMSG_ALIGN (nlmsg_len Endian.little (init_mpls_req sample_env)) + 2)
        = int_bits 2 18 ∧
      ((0 : Int) ≤ 18 → (18 : Int) ≤ 65535 →
        (load Endian.little 2
          (add_attr Endian.little (init_mpls_req sample_env) sizeof_req 18
            [2, 0, 10, 0, 0, 1]).mem
          (NLMSG_ALIGN (nlmsg_len Endian.little (init_mpls_req sample_env)) + 2) : Int)
          = 18) ∧
      load_bytes
        (add_attr Endian.little (init_mpls_req sample_env) sizeof_req 18
          [2, 0, 10, 0, 0, 1]).mem
        (NLMSG_ALIGN (nlmsg_len Endian.little (init_mpls_req sample_env)) + 4)
        [2, 0, 10, 0, 0, 1].length = [2, 0, 10, 0, 0, 1] :=
  C5_attribute_layout Endian.little (init_mpls_req sample_env) sizeof_req 18
    [2, 0, 10, 0, 0, 1] (by decide) (by decide) (by decide) (by decide) (by decide)

/-! ## Running the route operations -/

theorem create_netlink_socket_ok (env : Env) (hsock : 0 ≤ env.socket) (hbind : 0 ≤ env.bind) :
    create_netlink_socket env
      = (env.socket, [Event.socket AF_NETLINK SOCK_RAW NETLINK_ROUTE, Event.bind env.socket]) := by
  simp [create_netlink_socket, not_lt.mpr hsock, not_lt.mpr hbind]

theorem nlmsg_len_init_route_message (e : Endian) (m : Mem)
    (family dst_len table protocol scope type : Nat) :
    nlmsg_len e (init_route_message m family dst_len table protocol scope type)
      = nlmsg_len e m := by
  unfold init_route_message nlmsg_len rtm_off
  rw [load_store_bytes_disjoint e 4 _ _ 0 _ (by simp),
    load_store_bytes_disjoint e 4 _ _ 0 _ (by simp),
    load_store_bytes_disjoint e 4 _ _ 0 _ (by simp),
    load_store_bytes_disjoint e 4 _ _ 0 _ (by simp),
    load_store_bytes_disjoint e 4 _ _ 0 _ (by simp),
    load_store_bytes_disjoint e 4 _ _ 0 _ (by simp)]

theorem nlmsg_len_init_mpls_req (env : Env) : nlmsg_len env.endian (init_mpls_req env) = 28 := by
  unfold init_mpls_req
  rw [nlmsg_len_init_route_message, nlmsg_len_init]

theorem nlmsg_len_init_inet_req (env : Env) (scope : Nat) :
    nlmsg_len env.endian (init_inet_req env scope) = 28 := by
  unfold init_inet_req
  rw [nlmsg_len_init_route_message, nlmsg_len_init]

theorem to_bytes_htonl (e : Endian) (w : Nat) :
    to_bytes e 4 (htonl e w) = to_bytes Endian.big 4 w := by
  have h := to_bytes_of_bytes e (to_bytes Endian.big 4 w) (to_bytes_lt _ _ _)
  rw [to_bytes_length] at h
  exact h

theorem plain_word_shift (label s : Nat) (hs : s ≤ 1) :
    (label <<< 12) ||| (s <<< 8) = label * 4096 + s * 256 := by
  have h2 : s <<< 8 = s * 256 := by rw [Nat.shiftLeft_eq]
  rw [h2, shl_or_eq_add label _ 12 (by omega)]
  omega

/-- Payload of a label attribute for a valid pair: the label word in network
order. -/
theorem label_payload (e : Endian) (label s : Nat) (hl : label ≤ 0xFFFFF) (hs : s ≤ 1) :
    to_bytes e 4 (create_mpls_label e label s).1
      = to_bytes Endian.big 4 ((label <<< 12) ||| (s <<< 8)) := by
  rw [create_mpls_label_valid e label s hl hs, to_bytes_htonl, plain_word_shift label s hs]

theorem load_frame (e : Endian) (k : Nat) (m : Mem) (maxlen : Nat) (type : Int)
    (data : List Nat) (b : Nat) (hb : 4 ≤ b) (hbn : b + k ≤ NLMSG_ALIGN (nlmsg_len e m)) :
    load e k (add_attr e m maxlen type data).mem b = load e k m b := by
  unfold load
  rw [add_attr_frame e m maxlen type data b k hb hbn]

/-! ## Walking the attributes of a datagram -/

theorem sent_append (t1 t2 : List Event) : sent (t1 ++ t2) = sent t1 ++ sent t2 := by
  induction t1 with
  | nil => rfl
  | cons ev t1 ih => cases ev <;> simp [sent, ih]

theorem sent_stderr_events (lines : List String) : sent (stderr_events lines) = [] := by
  induction lines with
  | nil => rfl
  | cons l ls ih => simpa [stderr_events, sent] using ih

theorem sent_process_kernel_response (env : Env) (fd : Int) :
    sent (process_kernel_response env fd).2 = [] := by
  simp only [process_kernel_response]
  split_ifs <;> rfl

theorem sent_send_netlink_message (env : Env) (fd : Int) (m : Mem) (len : Nat) :
    sent (send_netlink_message env fd m len).2 = [load_bytes m 0 len] := by
  simp only [send_netlink_message]
  split_ifs
  · rfl
  · simp [sent, sent_process_kernel_response]

theorem load_bytes_getD (m : Mem) (n i : Nat) (h : i < n) :
    (load_bytes m 0 n).getD i 0 = m i := by
  rw [List.getD_eq_getElem _ _ (by simpa [load_bytes] using h)]
  simp [load_bytes]

theorem load_bytes_drop_take (m : Mem) (n a k : Nat) (h : a + k ≤ n) :
    ((load_bytes m 0 n).drop a).take k = load_bytes m a k := by
  apply List.ext_getElem
  · simp [load_bytes]; omega
  · intro i h1 h2
    simp [load_bytes]

theorem load_two (e : Endian) (m : Mem) (a : Nat) :
    load e 2 m a = of_bytes e [m a, m (a + 1)] := by
  simp [load, load_bytes, List.range_succ]

/-- One step of the walk over a datagram read from the request. -/
theorem rta_walk_step (e : Endian) (m : Mem) (n fuel off : Nat) (h : off + 4 ≤ n)
    (h4 : 4 ≤ load e 2 m off) (hfit : off + load e 2 m off ≤ n) :
    rta_walk e (load_bytes m 0 n) (fuel + 1) off
      = { off := off, len := load e 2 m off, type := load e 2 m (off + 2),
          payload := load_bytes m (off + 4) (load e 2 m off - 4) }
        :: rta_walk e (load_bytes m 0 n) fuel (off + RTA_ALIGN (load e 2 m off)) := by
  have hlen : load e 2 m off = of_bytes e [(load_bytes m 0 n).getD off 0,
      (load_bytes m 0 n).getD (off + 1) 0] := by
    rw [load_two, load_bytes_getD m n off (by omega), load_bytes_getD m n (off + 1) (by omega)]
  have htype : load e 2 m (off + 2) = of_bytes e [(load_bytes m 0 n).getD (off + 2) 0,
      (load_bytes m 0 n).getD (off + 3) 0] := by
    rw [load_two, load_bytes_getD m n (off + 2) (by omega),
      load_bytes_getD m n (off + 2 + 1) (by omega)]
  rw [rta_walk]
  simp only [← hlen, ← htype, load_bytes_length, sizeof_rtattr]
  have hc : off + 4 ≤ n ∧ 4 ≤ load e 2 m off ∧ load e 2 m off ≤ n - off := by omega
  rw [if_pos hc, load_bytes_drop_take m n (off + 4) _ (by omega)]

theorem rta_walk_stop (e : Endian) (msg : List Nat) (fuel off : Nat) (h : msg.length < off + 4) :
    rta_walk e msg fuel off = [] := by
  cases fuel with
  | zero => rfl
  | succ fuel =>
    rw [rta_walk]
    simp only [sizeof_rtattr]
    rw [if_neg (by omega)]

theorem load_congr (e : Endian) (k : Nat) (m1 m2 : Mem) (b : Nat)
    (h : load_bytes m1 b k = load_bytes m2 b k) : load e k m1 b = load e k m2 b := by
  unfold load
  rw [h]

/-- One append of a route operation: the call returns, and the request it
leaves has the new attribute at `NLMSG_ALIGN(L)`, the advanced `nlmsg_len`,
and the earlier bytes unchanged. -/
theorem add_attr_step (e : Endian) (m : Mem) (maxlen type : Nat) (data : List Nat) (L : Nat)
    (hL : nlmsg_len e m = L) (h0 : 0 < L) (hLm : L ≤ maxlen) (hmax : maxlen ≤ 65535)
    (hfit : NLMSG_ALIGN L + 4 + data.length ≤ maxlen) (ht : type < 65536) :
    ∃ m1, add_attr e m maxlen (type : Int) data = Outcome.ok m1 ∧
      nlmsg_len e m1 = NLMSG_ALIGN L + 4 + data.length ∧
      load e 2 m1 (NLMSG_ALIGN L) = 4 + data.length ∧
      load e 2 m1 (NLMSG_ALIGN L + 2) = type ∧
      load_bytes m1 (NLMSG_ALIGN L + 4) data.length = data ∧
      (∀ b k, 4 ≤ b → b + k ≤ NLMSG_ALIGN L → load_bytes m1 b k = load_bytes m b k) := by
  subst hL
  have hok := add_attr_ok e m maxlen (type : Int) data hfit
  have hlay := add_attr_layout e m maxlen (type : Int) data h0 hLm hmax (by omega) hok
  refine ⟨(add_attr e m maxlen (type : Int) data).mem,
    add_attr_eq_ok_of_isOk e m maxlen _ data hok,
    add_attr_nlmsg_len e m maxlen _ data h0 hLm hmax hfit, hlay.2.1, ?_, hlay.2.2.2.2, ?_⟩
  · rw [hlay.2.2.1, int_bits_two]
    omega
  · intro b k hb hbk
    exact add_attr_frame e m maxlen _ data b k hb hbk

/-! ## Route operations: claims C9, C10 -/

/-- C9 fails on the code: evaluation at the out-of-range label `0x100000`
(`1048576`), in an environment where every call succeeds. Each of the six
operations, with the bad value as `label`, `new_label` or `mpls_label`, writes
the codec's error line to `stderr`, yet hands one datagram to `sendmsg` and
returns 0. In the label operations the label attribute of that datagram
carries four zero bytes. -/
theorem C9_out_of_range_label_is_sent :
    ((create_mpls_route_dev sample_env "eth0" 0x100000 1).1 = some 0 ∧
      (sent (create_mpls_route_dev sample_env "eth0" 0x100000 1).2).map
          (attrs_of Endian.little)
        = [[⟨28, 8, 1, [0, 0, 0, 0]⟩, ⟨36, 8, 4, [2, 0, 0, 0]⟩]] ∧
      Event.stderr "Error: Label exceeds 20 bits (max 1048575)\n"
        ∈ (create_mpls_route_dev sample_env "eth0" 0x100000 1).2) ∧
    ((create_mpls_route_nexthop sample_env "10.0.0.1" 0x100000 1).1 = some 0 ∧
      (sent (create_mpls_route_nexthop sample_env "10.0.0.1" 0x100000 1).2).map
          (attrs_of Endian.little)
        = [[⟨28, 8, 1, [0, 0, 0, 0]⟩, ⟨36, 10, 18, [2, 0, 10, 0, 0, 1]⟩]]) ∧
    ((create_mpls_route_swap_dev sample_env "eth0" 0x100000 200 1).1 = some 0 ∧
      (sent (create_mpls_route_swap_dev sample_env "eth0" 0x100000 200 1).2).length = 1) ∧
    ((create_mpls_route_swap_dev sample_env "eth0" 100 0x100000 1).1 = some 0 ∧
      (sent (create_mpls_route_swap_dev sample_env "eth0" 100 0x100000 1).2).length = 1) ∧
    ((create_mpls_route_swap_nexthop sample_env "10.0.0.1" 0x100000 200 1).1 = some 0 ∧
      (sent (create_mpls_route_swap_nexthop sample_env "10.0.0.1" 0x100000 200 1).2).length
        = 1) ∧
    ((create_mpls_route_swap_nexthop sample_env "10.0.0.1" 100 0x100000 1).1 = some 0 ∧
      (sent (create_mpls_route_swap_nexthop sample_env "10.0.0.1" 100 0x100000 1).2).map
          (attrs_of Endian.little)
        = [[⟨28, 8, 1, [0, 6, 65, 0]⟩, ⟨36, 8, 19, [0, 0, 0, 0]⟩,
            ⟨44, 10, 18, [2, 0, 10, 0, 0, 1]⟩]]) ∧
    ((create_mpls_encap_route_dev sample_env "eth0" "192.168.1.5" 0x100000).1 = some 0 ∧
      (sent (create_mpls_encap_route_dev sample_env "eth0" "192.168.1.5" 0x100000).2).length
        = 1) ∧
    ((create_mpls_encap_route_via sample_env "192.168.1.5" 0x100000 "10.0.0.2").1 = some 0 ∧
      (sent (create_mpls_encap_route_via sample_env "192.168.1.5" 0x100000 "10.0.0.2").2).map
          (attrs_of Endian.little)
        = [[⟨28, 8, 1, [192, 168, 1, 5]⟩, ⟨36, 12, 32790, [0, 0, 0, 0, 0, 0, 0, 0]⟩,
            ⟨48, 6, 21, [1, 0]⟩, ⟨56, 8, 5, [10, 0, 0, 2]⟩]]) := by
  decide

/-- C10. For every `label` and `new_label` `≤ 0xFFFFF`, stack-bottom bit
`s ∈ {0,1}` and next-hop literal that parses to the IPv4 bytes `a`, when the
socket is opened and bound, `create_mpls_route_swap_nexthop` hands exactly one
datagram to `sendmsg`; its length is its `nlmsg_len` field, 54; after the
28 bytes of header and route descriptor it has exactly three attributes, at
the 4-byte-aligned offsets 28, 36 and 44: `RTA_DST` of declared length 8 whose
payload decodes to `(label, s)`, `RTA_NEWDST` of declared length 8 whose
payload decodes to `(new_label, s)`, and `RTA_VIA` of declared length 10 whose
payload is the 2-byte family `AF_INET` followed by the four address bytes. -/
theorem C10_swap_nexthop_message (env : Env) (nexthop_ip : String)
    (label new_label s : Nat) (a : in_addr)
    (hsock : 0 ≤ env.socket) (hbind : 0 ≤ env.bind)
    (hl : label ≤ 0xFFFFF) (hn : new_label ≤ 0xFFFFF) (hs : s = 0 ∨ s = 1)
    (hip : env.inet_pton nexthop_ip = some a) :
    ∃ msg : List Nat,
      sent (create_mpls_route_swap_nexthop env nexthop_ip label new_label s).2 = [msg] ∧
      msg.length = 54 ∧ of_bytes env.endian (msg.take 4) = msg.length ∧
      attrs_of env.endian msg
        = [{ off := 28, len := 8, type := RTA_DST,
             payload := to_bytes Endian.big 4 ((label <<< 12) ||| (s <<< 8)) },
           { off := 36, len := 8, type := RTA_NEWDST,
             payload := to_bytes Endian.big 4 ((new_label <<< 12) ||| (s <<< 8)) },
           { off := 44, len := 10, type := RTA_VIA,
             payload := to_bytes env.endian 2 AF_INET
               ++ [a.b0.val, a.b1.val, a.b2.val, a.b3.val] }] ∧
      decode_word (of_bytes Endian.big (to_bytes Endian.big 4 ((label <<< 12) ||| (s <<< 8))))
        = (label, 0, s, 0) ∧
      decode_word (of_bytes Endian.big
          (to_bytes Endian.big 4 ((new_label <<< 12) ||| (s <<< 8))))
        = (new_label, 0, s, 0) := by
  have hs1 : s ≤ 1 := by omega
  have a28 : NLMSG_ALIGN 28 = 28 := by decide
  have a36 : NLMSG_ALIGN 36 = 36 := by decide
  have a44 : NLMSG_ALIGN 44 = 44 := by decide
  have r8 : RTA_ALIGN 8 = 8 := by decide
  have r10 : RTA_ALIGN 10 = 12 := by decide
  have hmax : sizeof_req ≤ 65535 := by decide
  have hd1 := label_payload env.endian label s hl hs1
  have hd2 := label_payload env.endian new_label s hn hs1
  -- the three appends
  obtain ⟨req1, hr1, hlen1, hA1, hT1, hP1, hF1⟩ :=
    add_attr_step env.endian (init_mpls_req env) sizeof_req RTA_DST
      (to_bytes Endian.big 4 ((label <<< 12) ||| (s <<< 8))) 28
      (nlmsg_len_init_mpls_req env) (by decide) (by decide) hmax
      (by rw [a28, to_bytes_length]; decide) (by decide)
  rw [a28, to_bytes_length] at hlen1 hA1 hP1
  rw [a28] at hT1 hF1
  obtain ⟨req2, hr2, hlen2, hA2, hT2, hP2, hF2⟩ :=
    add_attr_step env.endian req1 sizeof_req RTA_NEWDST
      (to_bytes Endian.big 4 ((new_label <<< 12) ||| (s <<< 8))) 36
      hlen1 (by decide) (by decide) hmax
      (by rw [a36, to_bytes_length]; decide) (by decide)
  rw [a36, to_bytes_length] at hlen2 hA2 hP2
  rw [a36] at hT2 hF2
  have hvia : (to_bytes env.endian 2 AF_INET ++ a.bytes).length = 6 := by
    simp [to_bytes_length, in_addr.bytes]
  obtain ⟨req3, hr3, hlen3, hA3, hT3, hP3, hF3⟩ :=
    add_attr_step env.endian req2 sizeof_req RTA_VIA
      (to_bytes env.endian 2 AF_INET ++ a.bytes) 44
      hlen2 (by decide) (by decide) hmax
      (by rw [a44, hvia]; decide) (by decide)
  rw [a44, hvia] at hlen3 hA3 hP3
  rw [a44] at hT3 hF3
  have he1 : (create_mpls_label env.endian label s).2 = [] := by
    rw [create_mpls_label_valid _ label s hl hs1]
  have he2 : (create_mpls_label env.endian new_label s).2 = [] := by
    rw [create_mpls_label_valid _ new_label s hn hs1]
  norm_num at hlen1 hlen2 hlen3 hA1 hA2 hA3 hT1 hT2 hT3 hP1 hP2 hP3
  -- the run of the operation
  have hrun : sent (create_mpls_route_swap_nexthop env nexthop_ip label new_label s).2
      = [load_bytes req3 0 54] := by
    simp only [create_mpls_route_swap_nexthop, create_netlink_socket_ok env hsock hbind,
      not_lt.mpr hsock, if_false, hd1, hd2, hr1, hr2, hip, hr3, hlen3, he1, he2, sent_append,
      sent_send_netlink_message, sent_stderr_events, sent, List.append_nil, List.nil_append,
      List.append_eq]
  refine ⟨load_bytes req3 0 54, hrun, load_bytes_length _ _ _, ?_, ?_, ?_, ?_⟩
  · have htake : (load_bytes req3 0 54).take 4 = load_bytes req3 0 4 := by
      simpa using load_bytes_drop_take req3 54 0 4 (by decide)
    rw [load_bytes_length, htake]
    exact hlen3
  · have L28 : load env.endian 2 req3 28 = 8 := by
      rw [load_congr _ 2 req3 req2 28 (hF3 28 2 (by decide) (by decide)),
        load_congr _ 2 req2 req1 28 (hF2 28 2 (by decide) (by decide)), hA1]
    have T28 : load env.endian 2 req3 30 = RTA_DST := by
      rw [load_congr _ 2 req3 req2 30 (hF3 30 2 (by decide) (by decide)),
        load_congr _ 2 req2 req1 30 (hF2 30 2 (by decide) (by decide)), hT1]
    have P28 : load_bytes req3 32 4
        = to_bytes Endian.big 4 ((label <<< 12) ||| (s <<< 8)) := by
      rw [hF3 32 4 (by decide) (by decide), hF2 32 4 (by decide) (by decide), hP1]
    have L36 : load env.endian 2 req3 36 = 8 := by
      rw [load_congr _ 2 req3 req2 36 (hF3 36 2 (by decide) (by decide)), hA2]
    have T36 : load env.endian 2 req3 38 = RTA_NEWDST := by
      rw [load_congr _ 2 req3 req2 38 (hF3 38 2 (by decide) (by decide)), hT2]
    have P36 : load_bytes req3 40 4
        = to_bytes Endian.big 4 ((new_label <<< 12) ||| (s <<< 8)) := by
      rw [hF3 40 4 (by decide) (by decide), hP2]
    have h28 : NLMSG_LENGTH sizeof_rtmsg = 28 := by decide
    unfold attrs_of
    rw [load_bytes_length, h28,
      rta_walk_step _ req3 54 53 28 (by decide) (by omega) (by omega)]
    simp only [L28, T28, r8, Nat.reduceAdd, Nat.reduceSub]
    rw [rta_walk_step _ req3 54 52 36 (by decide) (by omega) (by omega)]
    simp only [L36, T36, r8, Nat.reduceAdd, Nat.reduceSub]
    rw [rta_walk_step _ req3 54 51 44 (by decide) (by omega) (by omega)]
    simp only [hA3, hT3, r10, Nat.reduceAdd, Nat.reduceSub]
    rw [rta_walk_stop _ _ 51 56 (by simp [load_bytes_length]), P28, P36, hP3]
    rfl
  · rw [of_bytes_to_bytes, plain_word_shift label s hs1, decode_word_eq]
    simp only [Prod.mk.injEq]
    omega
  · rw [of_bytes_to_bytes, plain_word_shift new_label s hs1, decode_word_eq]
    simp only [Prod.mk.injEq]
    omega

theorem C10_swap_nexthop_message_witness :
    ∃ msg : List Nat,
      sent (create_mpls_route_swap_nexthop sample_env "10.0.0.1" 100 200 1).2 = [msg] ∧
      msg.length = 54 ∧ of_bytes sample_env.endian (msg.take 4) = msg.length ∧
      attrs_of sample_env.endian msg
        = [{ off := 28, len := 8, type := RTA_DST,
             payload := to_bytes Endian.big 4 ((100 <<< 12) ||| (1 <<< 8)) },
           { off := 36, len := 8, type := RTA_NEWDST,
             payload := to_bytes Endian.big 4 ((200 <<< 12) ||| (1 <<< 8)) },
           { off := 44, len := 10, type := RTA_VIA,
             payload := to_bytes sample_env.endian 2 AF_INET
               ++ [(10 : Fin 256).val, (0 : Fin 256).val, (0 : Fin 256).val,
                   (1 : Fin 256).val] }] ∧
      decode_word (of_bytes Endian.big (to_bytes Endian.big 4 ((100 <<< 12) ||| (1 <<< 8))))
        = (100, 0, 1, 0) ∧
      decode_word (of_bytes Endian.big (to_bytes Endian.big 4 ((200 <<< 12) ||| (1 <<< 8))))
        = (200, 0, 1, 0) :=
  C10_swap_nexthop_message sample_env "10.0.0.1" 100 200 1 ⟨10, 0, 0, 1⟩
    (by decide) (by decide) (by decide) (by decide) (by decide) (by decide)

/-! ## The inline nested attribute -/

/-- The inline construction of the nested encapsulation attribute leaves the
request that `add_attr` would leave, whenever the check of `add_attr` passes. -/
theorem add_encap_inline_eq (e : Endian) (m : Mem) (maxlen : Nat) (mpls_label : Nat)
    (hok : (add_attr e m maxlen ((RTA_ENCAP ||| NLA_F_NESTED : Nat) : Int)
      (to_bytes e 8 (create_mpls_label_for_encap e mpls_label 1 0).1)).isOk = true) :
    add_encap_inline e m mpls_label
      = ((add_attr e m maxlen ((RTA_ENCAP ||| NLA_F_NESTED : Nat) : Int)
          (to_bytes e 8 (create_mpls_label_for_encap e mpls_label 1 0).1)).mem,
         (create_mpls_label_for_encap e mpls_label 1 0).2) := by
  rw [add_attr_mem_of_ok e m maxlen _ _ hok]
  have ht : int_bits 2 ((RTA_ENCAP ||| NLA_F_NESTED : Nat) : Int) = RTA_ENCAP ||| NLA_F_NESTED := by
    decide
  have hl : RTA_LENGTH (to_bytes e 8 (create_mpls_label_for_encap e mpls_label 1 0).1).length
      % 2 ^ 32 = RTA_LENGTH 8 := by
    rw [to_bytes_length]; decide
  have h12 : RTA_LENGTH 8 = 12 := by decide
  have hr : RTA_ALIGN 12 = 12 := by decide
  simp only [add_encap_inline, ht, hl]
  generalize NLMSG_ALIGN (nlmsg_len e m) = o
  have hload : load e 2
      (store_bytes (store e 2 (store e 2 m (o + 2) (RTA_ENCAP ||| NLA_F_NESTED)) o (RTA_LENGTH 8))
        (o + RTA_LENGTH 0) (to_bytes e 8 (create_mpls_label_for_encap e mpls_label 1 0).1)) o
      = 12 := by
    rw [load_store_bytes_disjoint e 2 _ _ o _ (by rw [RTA_LENGTH_eq]; omega), load_store_same, h12]
    decide
  rw [hload, hr, h12]

/-! ## Transport: claims C13, C14, C19 -/

/-- The 32-bit negation agrees with the mathematical one on every `int`
except `INT_MIN`. -/
theorem neg_int32_eq_neg (x : Int) (h1 : -2147483648 < x) (h2 : x < 2147483648) :
    neg_int32 x = -x := by
  unfold neg_int32 int_bits to_int32
  have h256 : (256 : Int) ^ 4 = 4294967296 := by norm_num
  rw [h256]
  have hnn : 0 ≤ (-x) % 4294967296 := Int.emod_nonneg _ (by norm_num)
  have hcast : (((-x) % 4294967296).toNat : Int) = (-x) % 4294967296 := Int.toNat_of_nonneg hnn
  split_ifs with h <;> omega

/-- The 32-bit negation of `INT_MIN` is `INT_MIN`. -/
theorem neg_int32_int_min : neg_int32 (-2147483648) = -2147483648 := by
  decide

theorem process_kernel_response_fst (env : Env) (sockfd : Int) :
    (process_kernel_response env sockfd).1
      = if env.recv < 0 then -1
        else if nlmsg_type env.endian env.response = NLMSG_ERROR ∧
            to_int32 (load env.endian 4 env.response NLMSG_HDRLEN) ≠ 0 then -1
        else 0 := by
  simp only [process_kernel_response]
  split_ifs <;> simp_all

theorem process_kernel_response_fst_indep (env : Env) (fd1 fd2 : Int) :
    (process_kernel_response env fd1).1 = (process_kernel_response env fd2).1 := by
  rw [process_kernel_response_fst, process_kernel_response_fst]

/-- C13. `process_kernel_response` returns 0 exactly when the receive
succeeded and either the message type of the response is not `NLMSG_ERROR` or
it is an error report whose embedded code is 0; it returns -1 exactly when the
receive failed or the response is an error report with a non-zero code; it
returns nothing else. -/
theorem C13_response_check (env : Env) (sockfd : Int) :
    ((process_kernel_response env sockfd).1 = 0 ↔
        (0 ≤ env.recv ∧
          (nlmsg_type env.endian env.response ≠ NLMSG_ERROR ∨
            (nlmsg_type env.endian env.response = NLMSG_ERROR ∧
              to_int32 (load env.endian 4 env.response NLMSG_HDRLEN) = 0)))) ∧
      ((process_kernel_response env sockfd).1 = -1 ↔
        (env.recv < 0 ∨
          (nlmsg_type env.endian env.response = NLMSG_ERROR ∧
            to_int32 (load env.endian 4 env.response NLMSG_HDRLEN) ≠ 0))) ∧
      ((process_kernel_response env sockfd).1 = 0 ∨
        (process_kernel_response env sockfd).1 = -1) := by
  rw [process_kernel_response_fst]
  by_cases h1 : env.recv < 0
  · have h0 : ¬ (0 ≤ env.recv) := by omega
    simp [h1, h0]
  · by_cases h2 : nlmsg_type env.endian env.response = NLMSG_ERROR
    · by_cases h3 : to_int32 (load env.endian 4 env.response NLMSG_HDRLEN) = 0
      · simp [h1, h2, h3]
        omega
      · simp [h1, h2, h3]
    · simp [h1, h2]
      omega

/-- C19 fails on the code: for a name that does not resolve
(`if_nametoindex` yields 0) `get_interface_index` calls `perror` and returns
0, not -1; the callers test the result against 0. -/
theorem C19_unresolved_returns_zero :
    sample_env.if_nametoindex "wlan9" = 0 ∧
      get_interface_index sample_env "wlan9"
        = (0, [Event.if_nametoindex "wlan9", Event.perror "if_nametoindex"]) ∧
      (get_interface_index sample_env "wlan9").1 ≠ -1 ∧
      get_interface_index sample_env "eth0" = (2, [Event.if_nametoindex "eth0"]) := by
  decide

/-! ## Observations on runs -/

theorem closed_append (t1 t2 : List Event) : closed (t1 ++ t2) = closed t1 ++ closed t2 := by
  induction t1 with
  | nil => rfl
  | cons ev t1 ih => cases ev <;> simp [closed, ih]

theorem exits_append (t1 t2 : List Event) : exits (t1 ++ t2) = (exits t1 || exits t2) := by
  induction t1 with
  | nil => rfl
  | cons ev t1 ih => cases ev <;> simp [exits, ih]

theorem sent_local (t : List Event) (h : ∀ ev ∈ t, ev.is_local = true) : sent t = [] := by
  induction t with
  | nil => rfl
  | cons ev t ih =>
    have h1 := h ev (List.mem_cons_self _ _)
    have h2 := ih (fun x hx => h x (List.mem_cons_of_mem _ hx))
    cases ev <;> simp_all [sent, Event.is_local]

theorem closed_local (t : List Event) (h : ∀ ev ∈ t, ev.is_local = true) : closed t = [] := by
  induction t with
  | nil => rfl
  | cons ev t ih =>
    have h1 := h ev (List.mem_cons_self _ _)
    have h2 := ih (fun x hx => h x (List.mem_cons_of_mem _ hx))
    cases ev <;> simp_all [closed, Event.is_local]

theorem exits_local (t : List Event) (h : ∀ ev ∈ t, ev.is_local = true) : exits t = false := by
  induction t with
  | nil => rfl
  | cons ev t ih =>
    have h1 := h ev (List.mem_cons_self _ _)
    have h2 := ih (fun x hx => h x (List.mem_cons_of_mem _ hx))
    cases ev <;> simp_all [exits, Event.is_local]

theorem local_stderr_events (lines : List String) :
    ∀ ev ∈ stderr_events lines, ev.is_local = true := by
  intro ev hev
  simp only [stderr_events, List.mem_map] at hev
  obtain ⟨l, _, rfl⟩ := hev
  rfl

theorem local_get_interface_index (env : Env) (ifname : String) :
    ∀ ev ∈ (get_interface_index env ifname).2, ev.is_local = true := by
  intro ev hev
  simp only [get_interface_index] at hev
  split_ifs at hev <;> simp at hev <;> rcases hev with rfl | rfl <;> rfl

theorem send_netlink_message_fst (env : Env) (fd : Int) (m : Mem) (n : Nat) :
    (send_netlink_message env fd m n).1
      = if env.sendmsg < 0 then -1 else (process_kernel_response env fd).1 := by
  simp only [send_netlink_message]
  split_ifs <;> rfl

theorem closed_process_kernel_response (env : Env) (fd : Int) :
    closed (process_kernel_response env fd).2 = [] := by
  simp only [process_kernel_response]
  split_ifs <;> rfl

theorem exits_process_kernel_response (env : Env) (fd : Int) :
    exits (process_kernel_response env fd).2 = false := by
  simp only [process_kernel_response]
  split_ifs <;> rfl

theorem closed_send_netlink_message (env : Env) (fd : Int) (m : Mem) (n : Nat) :
    closed (send_netlink_message env fd m n).2 = [] := by
  simp only [send_netlink_message]
  split_ifs
  · rfl
  · simp [closed, closed_process_kernel_response]

theorem exits_send_netlink_message (env : Env) (fd : Int) (m : Mem) (n : Nat) :
    exits (send_netlink_message env fd m n).2 = false := by
  simp only [send_netlink_message]
  split_ifs
  · rfl
  · simp [exits, exits_process_kernel_response]

/-! ## What follows from the shape of a run -/

theorem op_run_returns_zero_iff (env : Env) (P : Prop) (r : Result) (h : op_run env P r) :
    returns_zero_iff env P r := by
  have hk := process_kernel_response_fst env env.socket
  rcases h with ⟨h1, rfl⟩ | ⟨h1, h2, rfl⟩ | ⟨h1, h2, mid, _, ⟨h3, rfl⟩ | ⟨h3, req, n, _, rfl⟩⟩
  · refine ⟨Or.inr rfl, ?_⟩
    simp only [Option.some.injEq]
    constructor
    · intro h; exact absurd h (by decide)
    · intro h; omega
  · refine ⟨Or.inr rfl, ?_⟩
    simp only [Option.some.injEq]
    constructor
    · intro h; exact absurd h (by decide)
    · intro h; omega
  · refine ⟨Or.inr rfl, ?_⟩
    simp only [Option.some.injEq]
    constructor
    · intro h; exact absurd h (by decide)
    · intro h; exact absurd h.2.2.1 h3
  · unfold returns_zero_iff
    dsimp only
    rw [send_netlink_message_fst]
    simp only [Option.some.injEq]
    by_cases hs : env.sendmsg < 0
    · simp only [hs, if_true]
      refine ⟨Or.inr trivial, ?_⟩
      constructor
      · intro h; exact absurd h (by decide)
      · intro h; omega
    · simp only [hs, if_false]
      constructor
      · rw [hk]; split_ifs <;> simp
      · constructor
        · intro h; exact ⟨h1, h2, h3, by omega, h⟩
        · intro h; exact h.2.2.2.2

theorem op_run_rejected (env : Env) (P : Prop) (r : Result) (h : op_run env P r) (hP : ¬ P) :
    rejected_unsent r := by
  rcases h with ⟨_, rfl⟩ | ⟨_, _, rfl⟩ | ⟨_, _, mid, hm, ⟨_, rfl⟩ | ⟨h3, _⟩⟩
  · exact ⟨rfl, rfl⟩
  · exact ⟨rfl, rfl⟩
  · refine ⟨rfl, ?_⟩
    simp [sent_append, sent, sent_local mid hm]
  · exact absurd h3 hP

theorem op_run_closes_once (env : Env) (P : Prop) (r : Result) (h : op_run env P r)
    (hsock : 0 ≤ env.socket) : closes_once env r := by
  rcases h with ⟨h1, _⟩ | ⟨_, _, rfl⟩ | ⟨_, _, mid, hm, ⟨_, rfl⟩ | ⟨_, req, n, _, rfl⟩⟩
  · omega
  · exact ⟨by simp, rfl, rfl⟩
  · refine ⟨by simp, ?_, List.getLast?_concat _⟩
    simp [closed_append, closed, closed_local mid hm]
  · refine ⟨by simp, ?_, List.getLast?_concat _⟩
    simp [closed_append, closed, closed_local mid hm, closed_send_netlink_message]

theorem op_run_never_overflows (env : Env) (P : Prop) (r : Result) (h : op_run env P r) :
    never_overflows r := by
  rcases h with ⟨_, rfl⟩ | ⟨_, _, rfl⟩ | ⟨_, _, mid, hm, ⟨_, rfl⟩ | ⟨_, req, n, hn, rfl⟩⟩
  · exact ⟨by simp, rfl, by simp [sent]⟩
  · exact ⟨by simp, rfl, by simp [sent]⟩
  · refine ⟨by simp, ?_, ?_⟩
    · simp [exits_append, exits, exits_local mid hm]
    · simp [sent_append, sent, sent_local mid hm]
  · refine ⟨by simp, ?_, ?_⟩
    · simp [exits_append, exits, exits_local mid hm, exits_send_netlink_message]
    · simp [sent_append, sent, sent_local mid hm, sent_send_netlink_message, load_bytes_length]
      exact hn

/-- When the check of the kernel's response fails, the operation returns -1. -/
theorem op_run_response_failed (env : Env) (P : Prop) (r : Result) (h : op_run env P r)
    (hk : (process_kernel_response env env.socket).1 = -1) : r.1 = some (-1) := by
  rcases h with ⟨_, rfl⟩ | ⟨_, _, rfl⟩ | ⟨_, _, mid, hm, ⟨_, rfl⟩ | ⟨_, req, n, hn, rfl⟩⟩
  · rfl
  · rfl
  · rfl
  · simp only [send_netlink_message_fst, hk]
    split_ifs <;> rfl

/-! ## The runs of the six operations -/

/-- The inline nested attribute, as one step of a route operation. -/
theorem add_encap_step (e : Endian) (m : Mem) (maxlen mpls_label L : Nat)
    (hL : nlmsg_len e m = L) (h0 : 0 < L) (hLm : L ≤ maxlen) (hmax : maxlen ≤ 65535)
    (hfit : NLMSG_ALIGN L + 4 + 8 ≤ maxlen) :
    ∃ m1, add_encap_inline e m mpls_label
        = (m1, (create_mpls_label_for_encap e mpls_label 1 0).2) ∧
      nlmsg_len e m1 = NLMSG_ALIGN L + 4 + 8 ∧
      load e 2 m1 (NLMSG_ALIGN L) = 4 + 8 ∧
      load e 2 m1 (NLMSG_ALIGN L + 2) = (RTA_ENCAP ||| NLA_F_NESTED) ∧
      load_bytes m1 (NLMSG_ALIGN L + 4) 8
        = to_bytes e 8 (create_mpls_label_for_encap e mpls_label 1 0).1 ∧
      (∀ b k, 4 ≤ b → b + k ≤ NLMSG_ALIGN L → load_bytes m1 b k = load_bytes m b k) := by
  have hlen8 : (to_bytes e 8 (create_mpls_label_for_encap e mpls_label 1 0).1).length = 8 :=
    to_bytes_length _ _ _
  obtain ⟨m1, hr, hlen, hA, hT, hP, hF⟩ :=
    add_attr_step e m maxlen (RTA_ENCAP ||| NLA_F_NESTED)
      (to_bytes e 8 (create_mpls_label_for_encap e mpls_label 1 0).1) L hL h0 hLm hmax
      (by rw [hlen8]; exact hfit) (by decide)
  rw [hlen8] at hlen hA hP
  have hok : (add_attr e m maxlen ((RTA_ENCAP ||| NLA_F_NESTED : Nat) : Int)
      (to_bytes e 8 (create_mpls_label_for_encap e mpls_label 1 0).1)).isOk = true := by
    rw [hr]; rfl
  refine ⟨m1, ?_, hlen, hA, hT, hP, hF⟩
  rw [add_encap_inline_eq e m maxlen mpls_label hok, hr]
  rfl

theorem create_mpls_route_dev_run (env : Env) (interface : String) (label s_bit : Nat) :
    op_run env ((get_interface_index env interface).1 ≠ 0)
      (create_mpls_route_dev env interface label s_bit) := by
  by_cases hsock : env.socket < 0
  · left
    exact ⟨hsock, by simp [create_mpls_route_dev, create_netlink_socket, hsock]⟩
  by_cases hbind : env.bind < 0
  · right; left
    exact ⟨by omega, hbind, by simp [create_mpls_route_dev, create_netlink_socket, hsock, hbind]⟩
  right; right
  refine ⟨by omega, by omega, ?_⟩
  have hs := create_netlink_socket_ok env (by omega) (by omega)
  have a28 : NLMSG_ALIGN 28 = 28 := by decide
  have a36 : NLMSG_ALIGN 36 = 36 := by decide
  have hmax : sizeof_req ≤ 65535 := by decide
  obtain ⟨req1, hr1, hlen1, -⟩ :=
    add_attr_step env.endian (init_mpls_req env) sizeof_req RTA_DST
      (to_bytes env.endian 4 (create_mpls_label env.endian label s_bit).1) 28
      (nlmsg_len_init_mpls_req env) (by decide) (by decide) hmax
      (by rw [a28, to_bytes_length]; decide) (by decide)
  rw [a28, to_bytes_length] at hlen1
  obtain ⟨req2, hr2, hlen2, -⟩ :=
    add_attr_step env.endian req1 sizeof_req RTA_OIF
      (to_bytes env.endian 4 (int_bits 4 (get_interface_index env interface).1)) 36
      hlen1 (by decide) (by decide) hmax
      (by rw [a36, to_bytes_length]; decide) (by decide)
  rw [a36, to_bytes_length] at hlen2
  refine ⟨[Event.getpid] ++ stderr_events (create_mpls_label env.endian label s_bit).2
    ++ (get_interface_index env interface).2, ?_, ?_⟩
  · intro ev hev
    simp only [List.mem_append, List.mem_singleton] at hev
    rcases hev with (rfl | hev) | hev
    · rfl
    · exact local_stderr_events _ ev hev
    · exact local_get_interface_index env interface ev hev
  · by_cases hi : (get_interface_index env interface).1 = 0
    · left
      refine ⟨by simp [hi], ?_⟩
      simp [create_mpls_route_dev, hs, hsock, hr1, hi]
    · right
      refine ⟨hi, req2, 44, by decide, ?_⟩
      simp [create_mpls_route_dev, hs, hsock, hr1, hi, hr2, hlen2]

theorem all_local_stderr_events (lines : List String) :
    (stderr_events lines).all Event.is_local = true :=
  List.all_eq_true.mpr (local_stderr_events lines)

theorem all_local_get_interface_index (env : Env) (ifname : String) :
    (get_interface_index env ifname).2.all Event.is_local = true :=
  List.all_eq_true.mpr (local_get_interface_index env ifname)

theorem create_mpls_route_nexthop_run (env : Env) (nexthop_ip : String) (label s_bit : Nat) :
    op_run env (env.inet_pton nexthop_ip ≠ none)
      (create_mpls_route_nexthop env nexthop_ip label s_bit) := by
  by_cases hsock : env.socket < 0
  · left
    exact ⟨hsock, by simp [create_mpls_route_nexthop, create_netlink_socket, hsock]⟩
  by_cases hbind : env.bind < 0
  · right; left
    exact ⟨by omega, hbind,
      by simp [create_mpls_route_nexthop, create_netlink_socket, hsock, hbind]⟩
  right; right
  refine ⟨by omega, by omega, ?_⟩
  have hs := create_netlink_socket_ok env (by omega) (by omega)
  have a28 : NLMSG_ALIGN 28 = 28 := by decide
  have a36 : NLMSG_ALIGN 36 = 36 := by decide
  have hmax : sizeof_req ≤ 65535 := by decide
  obtain ⟨req1, hr1, hlen1, -⟩ :=
    add_attr_step env.endian (init_mpls_req env) sizeof_req RTA_DST
      (to_bytes env.endian 4 (create_mpls_label env.endian label s_bit).1) 28
      (nlmsg_len_init_mpls_req env) (by decide) (by decide) hmax
      (by rw [a28, to_bytes_length]; decide) (by decide)
  rw [a28, to_bytes_length] at hlen1
  cases hip : env.inet_pton nexthop_ip with
  | none =>
    refine ⟨[Event.getpid] ++ stderr_events (create_mpls_label env.endian label s_bit).2
      ++ [Event.inet_pton AF_INET nexthop_ip, Event.stderr "Invalid next hop IP address\n"],
      ?_, Or.inl ⟨by simp, ?_⟩⟩
    · rw [← List.all_eq_true]
      simp [List.all_append, Event.is_local, all_local_stderr_events]
    · simp [create_mpls_route_nexthop, hs, hsock, hr1, hip]
  | some a =>
    have hvia : (to_bytes env.endian 2 AF_INET ++ a.bytes).length = 6 := by
      simp [to_bytes_length, in_addr.bytes]
    obtain ⟨req2, hr2, hlen2, -⟩ :=
      add_attr_step env.endian req1 sizeof_req RTA_VIA
        (to_bytes env.endian 2 AF_INET ++ a.bytes) 36
        hlen1 (by decide) (by decide) hmax (by rw [a36, hvia]; decide) (by decide)
    rw [a36, hvia] at hlen2
    refine ⟨[Event.getpid] ++ stderr_events (create_mpls_label env.endian label s_bit).2
      ++ [Event.inet_pton AF_INET nexthop_ip], ?_, Or.inr ⟨by simp, req2, 46, by decide, ?_⟩⟩
    · rw [← List.all_eq_true]
      simp [List.all_append, Event.is_local, all_local_stderr_events]
    · simp [create_mpls_route_nexthop, hs, hsock, hr1, hip, hr2, hlen2]

theorem create_mpls_route_swap_nexthop_run (env : Env) (nexthop_ip : String)
    (label new_label s_bit : Nat) :
    op_run env (env.inet_pton nexthop_ip ≠ none)
      (create_mpls_route_swap_nexthop env nexthop_ip label new_label s_bit) := by
  by_cases hsock : env.socket < 0
  · left
    exact ⟨hsock, by simp [create_mpls_route_swap_nexthop, create_netlink_socket, hsock]⟩
  by_cases hbind : env.bind < 0
  · right; left
    exact ⟨by omega, hbind,
      by simp [create_mpls_route_swap_nexthop, create_netlink_socket, hsock, hbind]⟩
  right; right
  refine ⟨by omega, by omega, ?_⟩
  have hs := create_netlink_socket_ok env (by omega) (by omega)
  have a28 : NLMSG_ALIGN 28 = 28 := by decide
  have a36 : NLMSG_ALIGN 36 = 36 := by decide
  have a44 : NLMSG_ALIGN 44 = 44 := by decide
  have hmax : sizeof_req ≤ 65535 := by decide
  obtain ⟨req1, hr1, hlen1, -⟩ :=
    add_attr_step env.endian (init_mpls_req env) sizeof_req RTA_DST
      (to_bytes env.endian 4 (create_mpls_label env.endian label s_bit).1) 28
      (nlmsg_len_init_mpls_req env) (by decide) (by decide) hmax
      (by rw [a28, to_bytes_length]; decide) (by decide)
  rw [a28, to_bytes_length] at hlen1
  obtain ⟨req2, hr2, hlen2, -⟩ :=
    add_attr_step env.endian req1 sizeof_req RTA_NEWDST
      (to_bytes env.endian 4 (create_mpls_label env.endian new_label s_bit).1) 36
      hlen1 (by decide) (by decide) hmax (by rw [a36, to_bytes_length]; decide) (by decide)
  rw [a36, to_bytes_length] at hlen2
  cases hip : env.inet_pton nexthop_ip with
  | none =>
    refine ⟨[Event.getpid] ++ stderr_events (create_mpls_label env.endian label s_bit).2
      ++ stderr_events (create_mpls_label env.endian new_label s_bit).2
      ++ [Event.inet_pton AF_INET nexthop_ip, Event.stderr "Invalid next hop IP address\n"],
      ?_, Or.inl ⟨by simp, ?_⟩⟩
    · rw [← List.all_eq_true]
      simp [List.all_append, Event.is_local, all_local_stderr_events]
    · simp [create_mpls_route_swap_nexthop, hs, hsock, hr1, hr2, hip]
  | some a =>
    have hvia : (to_bytes env.endian 2 AF_INET ++ a.bytes).length = 6 := by
      simp [to_bytes_length, in_addr.bytes]
    obtain ⟨req3, hr3, hlen3, -⟩ :=
      add_attr_step env.endian req2 sizeof_req RTA_VIA
        (to_bytes env.endian 2 AF_INET ++ a.bytes) 44
        hlen2 (by decide) (by decide) hmax (by rw [a44, hvia]; decide) (by decide)
    rw [a44, hvia] at hlen3
    refine ⟨[Event.getpid] ++ stderr_events (create_mpls_label env.endian label s_bit).2
      ++ stderr_events (create_mpls_label env.endian new_label s_bit).2
      ++ [Event.inet_pton AF_INET nexthop_ip], ?_, Or.inr ⟨by simp, req3, 54, by decide, ?_⟩⟩
    · rw [← List.all_eq_true]
      simp [List.all_append, Event.is_local, all_local_stderr_events]
    · simp [create_mpls_route_swap_nexthop, hs, hsock, hr1, hr2, hip, hr3, hlen3]

theorem create_mpls_route_swap_dev_run (env : Env) (interface : String)
    (label new_label s_bit : Nat) :
    op_run env ((get_interface_index env interface).1 ≠ 0)
      (create_mpls_route_swap_dev env interface label new_label s_bit) := by
  by_cases hsock : env.socket < 0
  · left
    exact ⟨hsock, by simp [create_mpls_route_swap_dev, create_netlink_socket, hsock]⟩
  by_cases hbind : env.bind < 0
  · right; left
    exact ⟨by omega, hbind,
      by simp [create_mpls_route_swap_dev, create_netlink_socket, hsock, hbind]⟩
  right; right
  refine ⟨by omega, by omega, ?_⟩
  have hs := create_netlink_socket_ok env (by omega) (by omega)
  have a28 : NLMSG_ALIGN 28 = 28 := by decide
  have a36 : NLMSG_ALIGN 36 = 36 := by decide
  have a44 : NLMSG_ALIGN 44 = 44 := by decide
  have hmax : sizeof_req ≤ 65535 := by decide
  obtain ⟨req1, hr1, hlen1, -⟩ :=
    add_attr_step env.endian (init_mpls_req env) sizeof_req RTA_DST
      (to_bytes env.endian 4 (create_mpls_label env.endian label s_bit).1) 28
      (nlmsg_len_init_mpls_req env) (by decide) (by decide) hmax
      (by rw [a28, to_bytes_length]; decide) (by decide)
  rw [a28, to_bytes_length] at hlen1
  obtain ⟨req2, hr2, hlen2, -⟩ :=
    add_attr_step env.endian req1 sizeof_req RTA_NEWDST
      (to_bytes env.endian 4 (create_mpls_label env.endian new_label s_bit).1) 36
      hlen1 (by decide) (by decide) hmax (by rw [a36, to_bytes_length]; decide) (by decide)
  rw [a36, to_bytes_length] at hlen2
  obtain ⟨req3, hr3, hlen3, -⟩ :=
    add_attr_step env.endian req2 sizeof_req RTA_OIF
      (to_bytes env.endian 4 (int_bits 4 (get_interface_index env interface).1)) 44
      hlen2 (by decide) (by decide) hmax (by rw [a44, to_bytes_length]; decide) (by decide)
  rw [a44, to_bytes_length] at hlen3
  by_cases hi : (get_interface_index env interface).1 = 0
  · refine ⟨[Event.getpid] ++ stderr_events (create_mpls_label env.endian label s_bit).2
      ++ stderr_events (create_mpls_label env.endian new_label s_bit).2
      ++ (get_interface_index env interface).2
      ++ [Event.stderr ("Failed to get interface index for " ++ interface ++ "\n")],
      ?_, Or.inl ⟨by simp [hi], ?_⟩⟩
    · rw [← List.all_eq_true]
      simp [List.all_append, Event.is_local, all_local_stderr_events,
        all_local_get_interface_index]
    · simp [create_mpls_route_swap_dev, hs, hsock, hr1, hr2, hi]
  · refine ⟨[Event.getpid] ++ stderr_events (create_mpls_label env.endian label s_bit).2
      ++ stderr_events (create_mpls_label env.endian new_label s_bit).2
      ++ (get_interface_index env interface).2, ?_, Or.inr ⟨hi, req3, 52, by decide, ?_⟩⟩
    · rw [← List.all_eq_true]
      simp [List.all_append, Event.is_local, all_local_stderr_events,
        all_local_get_interface_index]
    · simp [create_mpls_route_swap_dev, hs, hsock, hr1, hr2, hi, hr3, hlen3]

theorem create_mpls_encap_route_dev_run (env : Env) (interface dst_ip : String)
    (mpls_label : Nat) :
    op_run env (env.inet_pton dst_ip ≠ none ∧ (get_interface_index env interface).1 ≠ 0)
      (create_mpls_encap_route_dev env interface dst_ip mpls_label) := by
  by_cases hsock : env.socket < 0
  · left
    exact ⟨hsock, by simp [create_mpls_encap_route_dev, create_netlink_socket, hsock]⟩
  by_cases hbind : env.bind < 0
  · right; left
    exact ⟨by omega, hbind,
      by simp [create_mpls_encap_route_dev, create_netlink_socket, hsock, hbind]⟩
  right; right
  refine ⟨by omega, by omega, ?_⟩
  have hs := create_netlink_socket_ok env (by omega) (by omega)
  have a28 : NLMSG_ALIGN 28 = 28 := by decide
  have a36 : NLMSG_ALIGN 36 = 36 := by decide
  have a48 : NLMSG_ALIGN 48 = 48 := by decide
  have a54 : NLMSG_ALIGN 54 = 56 := by decide
  have hmax : sizeof_req ≤ 65535 := by decide
  cases hdst : env.inet_pton dst_ip with
  | none =>
    refine ⟨[Event.getpid, Event.inet_pton AF_INET dst_ip,
      Event.stderr "Invalid destination IP address\n"], ?_, Or.inl ⟨by simp, ?_⟩⟩
    · rw [← List.all_eq_true]
      simp [Event.is_local]
    · simp [create_mpls_encap_route_dev, hs, hsock, hdst]
  | some a =>
    have habytes : a.bytes.length = 4 := rfl
    obtain ⟨req1, hr1, hlen1, -⟩ :=
      add_attr_step env.endian (init_inet_req env RT_SCOPE_LINK) sizeof_req RTA_DST a.bytes 28
        (nlmsg_len_init_inet_req env RT_SCOPE_LINK) (by decide) (by decide) hmax
        (by rw [a28, habytes]; decide) (by decide)
    rw [a28, habytes] at hlen1
    obtain ⟨req2, hr2, hlen2, -⟩ :=
      add_encap_step env.endian req1 sizeof_req mpls_label 36 hlen1 (by decide) (by decide)
        hmax (by rw [a36]; decide)
    rw [a36] at hlen2
    obtain ⟨req3, hr3, hlen3, -⟩ :=
      add_attr_step env.endian req2 sizeof_req RTA_ENCAP_TYPE
        (to_bytes env.endian 2 LWTUNNEL_ENCAP_MPLS) 48
        hlen2 (by decide) (by decide) hmax (by rw [a48, to_bytes_length]; decide) (by decide)
    rw [a48, to_bytes_length] at hlen3
    obtain ⟨req4, hr4, hlen4, -⟩ :=
      add_attr_step env.endian req3 sizeof_req RTA_OIF
        (to_bytes env.endian 4 (int_bits 4 (get_interface_index env interface).1)) 54
        hlen3 (by decide) (by decide) hmax (by rw [a54, to_bytes_length]; decide) (by decide)
    rw [a54, to_bytes_length] at hlen4
    by_cases hi : (get_interface_index env interface).1 = 0
    · refine ⟨[Event.getpid, Event.inet_pton AF_INET dst_ip]
        ++ stderr_events (create_mpls_label_for_encap env.endian mpls_label 1 0).2
        ++ (get_interface_index env interface).2
        ++ [Event.stderr ("Failed to get interface index for " ++ interface ++ "\n")],
        ?_, Or.inl ⟨by simp [hi], ?_⟩⟩
      · rw [← List.all_eq_true]
        simp [List.all_append, Event.is_local, all_local_stderr_events,
          all_local_get_interface_index]
      · simp [create_mpls_encap_route_dev, hs, hsock, hdst, hr1, hr2, hr3, hi]
    · refine ⟨[Event.getpid, Event.inet_pton AF_INET dst_ip]
        ++ stderr_events (create_mpls_label_for_encap env.endian mpls_label 1 0).2
        ++ (get_interface_index env interface).2, ?_,
        Or.inr ⟨⟨by simp, hi⟩, req4, 64, by decide, ?_⟩⟩
      · rw [← List.all_eq_true]
        simp [List.all_append, Event.is_local, all_local_stderr_events,
          all_local_get_interface_index]
      · simp [create_mpls_encap_route_dev, hs, hsock, hdst, hr1, hr2, hr3, hi, hr4, hlen4]

theorem create_mpls_encap_route_via_run (env : Env) (dst_ip : String) (mpls_label : Nat)
    (gateway_ip : String) :
    op_run env (env.inet_pton dst_ip ≠ none ∧ env.inet_pton gateway_ip ≠ none)
      (create_mpls_encap_route_via env dst_ip mpls_label gateway_ip) := by
  by_cases hsock : env.socket < 0
  · left
    exact ⟨hsock, by simp [create_mpls_encap_route_via, create_netlink_socket, hsock]⟩
  by_cases hbind : env.bind < 0
  · right; left
    exact ⟨by omega, hbind,
      by simp [create_mpls_encap_route_via, create_netlink_socket, hsock, hbind]⟩
  right; right
  refine ⟨by omega, by omega, ?_⟩
  have hs := create_netlink_socket_ok env (by omega) (by omega)
  have a28 : NLMSG_ALIGN 28 = 28 := by decide
  have a36 : NLMSG_ALIGN 36 = 36 := by decide
  have a48 : NLMSG_ALIGN 48 = 48 := by decide
  have a54 : NLMSG_ALIGN 54 = 56 := by decide
  have hmax : sizeof_req ≤ 65535 := by decide
  cases hdst : env.inet_pton dst_ip with
  | none =>
    refine ⟨[Event.getpid, Event.inet_pton AF_INET dst_ip,
      Event.stderr "Invalid destination IP address\n"], ?_, Or.inl ⟨by simp, ?_⟩⟩
    · rw [← List.all_eq_true]
      simp [Event.is_local]
    · simp [create_mpls_encap_route_via, hs, hsock, hdst]
  | some a =>
    have habytes : a.bytes.length = 4 := rfl
    obtain ⟨req1, hr1, hlen1, -⟩ :=
      add_attr_step env.endian (init_inet_req env RT_SCOPE_UNIVERSE) sizeof_req RTA_DST a.bytes 28
        (nlmsg_len_init_inet_req env RT_SCOPE_UNIVERSE) (by decide) (by decide) hmax
        (by rw [a28, habytes]; decide) (by decide)
    rw [a28, habytes] at hlen1
    obtain ⟨req2, hr2, hlen2, -⟩ :=
      add_encap_step env.endian req1 sizeof_req mpls_label 36 hlen1 (by decide) (by decide)
        hmax (by rw [a36]; decide)
    rw [a36] at hlen2
    obtain ⟨req3, hr3, hlen3, -⟩ :=
      add_attr_step env.endian req2 sizeof_req RTA_ENCAP_TYPE
        (to_bytes env.endian 2 LWTUNNEL_ENCAP_MPLS) 48
        hlen2 (by decide) (by decide) hmax (by rw [a48, to_bytes_length]; decide) (by decide)
    rw [a48, to_bytes_length] at hlen3
    cases hgw : env.inet_pton gateway_ip with
    | none =>
      refine ⟨[Event.getpid, Event.inet_pton AF_INET dst_ip]
        ++ stderr_events (create_mpls_label_for_encap env.endian mpls_label 1 0).2
        ++ [Event.inet_pton AF_INET gateway_ip, Event.stderr "Invalid gateway IP address\n"],
        ?_, Or.inl ⟨by simp, ?_⟩⟩
      · rw [← List.all_eq_true]
        simp [List.all_append, Event.is_local, all_local_stderr_events]
      · simp [create_mpls_encap_route_via, hs, hsock, hdst, hr1, hr2, hr3, hgw]
    | some g =>
      have hgbytes : g.bytes.length = 4 := rfl
      obtain ⟨req4, hr4, hlen4, -⟩ :=
        add_attr_step env.endian req3 sizeof_req RTA_GATEWAY g.bytes 54
          hlen3 (by decide) (by decide) hmax (by rw [a54, hgbytes]; decide) (by decide)
      rw [a54, hgbytes] at hlen4
      refine ⟨[Event.getpid, Event.inet_pton AF_INET dst_ip]
        ++ stderr_events (create_mpls_label_for_encap env.endian mpls_label 1 0).2
        ++ [Event.inet_pton AF_INET gateway_ip], ?_,
        Or.inr ⟨by simp, req4, 64, by decide, ?_⟩⟩
      · rw [← List.all_eq_true]
        simp [List.all_append, Event.is_local, all_local_stderr_events]
      · simp [create_mpls_encap_route_via, hs, hsock, hdst, hr1, hr2, hr3, hgw, hr4, hlen4]

theorem op_run_head (env : Env) (P : Prop) (r : Result) (h : op_run env P r) :
    r.2.head? = some (Event.socket AF_NETLINK SOCK_RAW NETLINK_ROUTE) := by
  rcases h with ⟨_, rfl⟩ | ⟨_, _, rfl⟩ | ⟨_, _, mid, _, ⟨_, rfl⟩ | ⟨_, req, n, _, rfl⟩⟩ <;> rfl

theorem get_interface_index_zero (env : Env) (ifname : String)
    (h : env.if_nametoindex ifname = 0) : (get_interface_index env ifname).1 = 0 := by
  simp [get_interface_index, h, to_int32]

theorem store_bytes_outside (m : Mem) (a : Nat) (bs : List Nat) (i : Nat)
    (h : i < a ∨ a + bs.length ≤ i) : store_bytes m a bs i = m i := by
  have h1 : ¬ (a ≤ i ∧ i < a + bs.length) := by omega
  simp only [store_bytes, if_neg h1]

theorem store_outside (e : Endian) (n : Nat) (m : Mem) (a v i : Nat)
    (h : i < a ∨ a + n ≤ i) : store e n m a v i = m i := by
  unfold store
  exact store_bytes_outside m a _ i (by rw [to_bytes_length]; exact h)

/-- A call of `add_attr` changes no byte outside the `nlmsg_len` field and the
region of the new attribute. -/
theorem add_attr_unchanged (e : Endian) (m : Mem) (maxlen : Nat) (type : Int)
    (data : List Nat) (i : Nat) (h4 : 4 ≤ i)
    (hout : i < NLMSG_ALIGN (nlmsg_len e m)
      ∨ NLMSG_ALIGN (nlmsg_len e m) + 4 + data.length ≤ i) :
    (add_attr e m maxlen type data).mem i = m i := by
  unfold add_attr
  by_cases h : (NLMSG_ALIGN (nlmsg_len e m) + RTA_LENGTH data.length % 2 ^ 32) % 2 ^ 32 > maxlen
  · simp only [h, if_true, Outcome.mem]
  · simp only [h, if_false, Outcome.mem]
    simp only [RTA_LENGTH_eq, Nat.add_zero]
    rw [store_outside e 4 _ 0 _ i (by omega), store_bytes_outside _ _ data i (by omega),
      store_outside e 2 _ _ _ i (by omega), store_outside e 2 _ _ _ i (by omega)]

/-! ## Outcomes of the route operations: claims C14 to C18, C20 -/

/-- C14, as stated, fails: an error report of code -17 from the kernel, a
failed `recv` and an interface name that does not resolve all give the same
returned value, -1, from `send_netlink_message` and from the route operation;
the code 17 is only in the line written to `stderr`. -/
theorem C14_outcomes_coincide :
    to_int32 (load eexist_env.endian 4 eexist_env.response NLMSG_HDRLEN) = -17 ∧
      send_netlink_message eexist_env 3 zero_mem 44
        = (-1, [Event.sendmsg 3 (load_bytes zero_mem 0 44), Event.recv 3,
                Event.stderr "Netlink error: File exists (code=17)\n"]) ∧
      (send_netlink_message recv_fail_env 3 zero_mem 44).1 = -1 ∧
      (create_mpls_route_dev eexist_env "eth0" 100 1).1 = some (-1) ∧
      (create_mpls_route_dev recv_fail_env "eth0" 100 1).1 = some (-1) ∧
      (create_mpls_route_dev sample_env "wlan9" 100 1).1 = some (-1) := by
  decide

theorem six_return_response_failed (env : Env)
    (interface nexthop_ip dst_ip gateway_ip : String) (label new_label s_bit : Nat)
    (hk : (process_kernel_response env env.socket).1 = -1) :
    six_return env interface nexthop_ip dst_ip gateway_ip label new_label s_bit
      (fun r => r = some (-1)) :=
  ⟨op_run_response_failed _ _ _ (create_mpls_route_dev_run env interface label s_bit) hk,
   op_run_response_failed _ _ _ (create_mpls_route_nexthop_run env nexthop_ip label s_bit) hk,
   op_run_response_failed _ _ _
     (create_mpls_route_swap_dev_run env interface label new_label s_bit) hk,
   op_run_response_failed _ _ _
     (create_mpls_route_swap_nexthop_run env nexthop_ip label new_label s_bit) hk,
   op_run_response_failed _ _ _ (create_mpls_encap_route_dev_run env interface dst_ip label) hk,
   op_run_response_failed _ _ _ (create_mpls_encap_route_via_run env dst_ip label gateway_ip)
     hk⟩

theorem six_return_two_valued (env : Env)
    (interface nexthop_ip dst_ip gateway_ip : String) (label new_label s_bit : Nat) :
    six_return env interface nexthop_ip dst_ip gateway_ip label new_label s_bit
      (fun r => r = some 0 ∨ r = some (-1)) :=
  ⟨(op_run_returns_zero_iff _ _ _ (create_mpls_route_dev_run env interface label s_bit)).1,
   (op_run_returns_zero_iff _ _ _
     (create_mpls_route_nexthop_run env nexthop_ip label s_bit)).1,
   (op_run_returns_zero_iff _ _ _
     (create_mpls_route_swap_dev_run env interface label new_label s_bit)).1,
   (op_run_returns_zero_iff _ _ _
     (create_mpls_route_swap_nexthop_run env nexthop_ip label new_label s_bit)).1,
   (op_run_returns_zero_iff _ _ _
     (create_mpls_encap_route_dev_run env interface dst_ip label)).1,
   (op_run_returns_zero_iff _ _ _
     (create_mpls_encap_route_via_run env dst_ip label gateway_ip)).1⟩

/-- C14, amended. When the kernel's response is an error report with a
non-zero code (witness: -17, already exists), `send_netlink_message` and each
route operation return -1; they return the same -1 when the receive fails,
and each route operation returns the same -1 for a local validation failure
(a literal that does not parse, an interface that does not resolve). Every
route operation returns 0 or -1 and nothing else, so the returned outcome is
two-valued and does not carry the code. The code is reported in the line
"Netlink error: <text> (code=<code>)" written to `stderr`, the code being the
`int` negation of the kernel's value. -/
theorem C14_binary_outcome (env : Env) (interface nexthop_ip dst_ip gateway_ip : String)
    (label new_label s_bit : Nat) (fd : Int) (m : Mem) (n : Nat) :
    ((nlmsg_type env.endian env.response = NLMSG_ERROR ∧
          to_int32 (load env.endian 4 env.response NLMSG_HDRLEN) ≠ 0) →
        (send_netlink_message env fd m n).1 = -1 ∧
        (0 ≤ env.sendmsg → 0 ≤ env.recv →
          Event.stderr ("Netlink error: "
              ++ env.strerror (neg_int32 (to_int32 (load env.endian 4 env.response NLMSG_HDRLEN)))
              ++ " (code="
              ++ toString (neg_int32 (to_int32 (load env.endian 4 env.response NLMSG_HDRLEN)))
              ++ ")\n")
            ∈ (send_netlink_message env fd m n).2) ∧
        six_return env interface nexthop_ip dst_ip gateway_ip label new_label s_bit
          (fun r => r = some (-1))) ∧
      (env.recv < 0 →
        (send_netlink_message env fd m n).1 = -1 ∧
        six_return env interface nexthop_ip dst_ip gateway_ip label new_label s_bit
          (fun r => r = some (-1))) ∧
      ((env.if_nametoindex interface = 0 →
          (create_mpls_route_dev env interface label s_bit).1 = some (-1)) ∧
        (env.inet_pton nexthop_ip = none →
          (create_mpls_route_nexthop env nexthop_ip label s_bit).1 = some (-1)) ∧
        (env.if_nametoindex interface = 0 →
          (create_mpls_route_swap_dev env interface label new_label s_bit).1 = some (-1)) ∧
        (env.inet_pton nexthop_ip = none →
          (create_mpls_route_swap_nexthop env nexthop_ip label new_label s_bit).1
            = some (-1)) ∧
        (env.inet_pton dst_ip = none ∨ env.if_nametoindex interface = 0 →
          (create_mpls_encap_route_dev env interface dst_ip label).1 = some (-1)) ∧
        (env.inet_pton dst_ip = none ∨ env.inet_pton gateway_ip = none →
          (create_mpls_encap_route_via env dst_ip label gateway_ip).1 = some (-1))) ∧
      six_return env interface nexthop_ip dst_ip gateway_ip label new_label s_bit
        (fun r => r = some 0 ∨ r = some (-1)) := by
  have hsend : ∀ fd1, (process_kernel_response env fd1).1 = -1 →
      (send_netlink_message env fd m n).1 = -1 := by
    intro fd1 hk
    rw [send_netlink_message_fst, process_kernel_response_fst_indep env fd fd1, hk]
    split_ifs <;> rfl
  refine ⟨?_, ?_, ⟨?_, ?_, ?_, ?_, ?_, ?_⟩, six_return_two_valued _ _ _ _ _ _ _ _⟩
  · intro h2
    have hk : ∀ fd1, (process_kernel_response env fd1).1 = -1 := by
      intro fd1
      rw [process_kernel_response_fst]
      simp [h2]
    refine ⟨hsend _ (hk fd), ?_, six_return_response_failed _ _ _ _ _ _ _ _ (hk _)⟩
    intro hs hr
    simp [send_netlink_message, process_kernel_response, not_lt.mpr hs, not_lt.mpr hr, h2.1,
      h2.2]
  · intro h1
    have hk : ∀ fd1, (process_kernel_response env fd1).1 = -1 := by
      intro fd1
      rw [process_kernel_response_fst]
      simp [h1]
    exact ⟨hsend _ (hk fd), six_return_response_failed _ _ _ _ _ _ _ _ (hk _)⟩
  · intro h
    exact (op_run_rejected _ _ _ (create_mpls_route_dev_run env interface label s_bit)
      (fun hP => hP (get_interface_index_zero env interface h))).1
  · intro h
    exact (op_run_rejected _ _ _ (create_mpls_route_nexthop_run env nexthop_ip label s_bit)
      (fun hP => hP h)).1
  · intro h
    exact (op_run_rejected _ _ _
      (create_mpls_route_swap_dev_run env interface label new_label s_bit)
      (fun hP => hP (get_interface_index_zero env interface h))).1
  · intro h
    exact (op_run_rejected _ _ _
      (create_mpls_route_swap_nexthop_run env nexthop_ip label new_label s_bit)
      (fun hP => hP h)).1
  · intro h
    refine (op_run_rejected _ _ _
      (create_mpls_encap_route_dev_run env interface dst_ip label) ?_).1
    rintro ⟨h1, h2⟩
    rcases h with h | h
    · exact h1 h
    · exact h2 (get_interface_index_zero env interface h)
  · intro h
    refine (op_run_rejected _ _ _
      (create_mpls_encap_route_via_run env dst_ip label gateway_ip) ?_).1
    rintro ⟨h1, h2⟩
    rcases h with h | h
    · exact h1 h
    · exact h2 h

theorem C14_binary_outcome_witness :
    ((send_netlink_message eexist_env 3 zero_mem 44).1 = -1 ∧
        Event.stderr ("Netlink error: "
            ++ eexist_env.strerror
              (neg_int32 (to_int32 (load eexist_env.endian 4 eexist_env.response NLMSG_HDRLEN)))
            ++ " (code="
            ++ toString
              (neg_int32 (to_int32 (load eexist_env.endian 4 eexist_env.response NLMSG_HDRLEN)))
            ++ ")\n")
          ∈ (send_netlink_message eexist_env 3 zero_mem 44).2 ∧
        six_return eexist_env "eth0" "10.0.0.1" "192.168.1.5" "10.0.0.2" 100 200 1
          (fun r => r = some (-1))) ∧
      ((send_netlink_message recv_fail_env 3 zero_mem 44).1 = -1 ∧
        six_return recv_fail_env "eth0" "10.0.0.1" "192.168.1.5" "10.0.0.2" 100 200 1
          (fun r => r = some (-1))) ∧
      ((create_mpls_route_dev sample_env "wlan9" 100 1).1 = some (-1) ∧
        (create_mpls_route_nexthop sample_env "999.999.1.1" 100 1).1 = some (-1) ∧
        (create_mpls_encap_route_via sample_env "999.999.1.1" 100 "10.0.0.2").1
          = some (-1)) :=
  ⟨⟨((C14_binary_outcome eexist_env "eth0" "10.0.0.1" "192.168.1.5" "10.0.0.2" 100 200 1 3
        zero_mem 44).1 (by decide)).1,
    ((C14_binary_outcome eexist_env "eth0" "10.0.0.1" "192.168.1.5" "10.0.0.2" 100 200 1 3
        zero_mem 44).1 (by decide)).2.1 (by decide) (by decide),
    ((C14_binary_outcome eexist_env "eth0" "10.0.0.1" "192.168.1.5" "10.0.0.2" 100 200 1 3
        zero_mem 44).1 (by decide)).2.2⟩,
   (C14_binary_outcome recv_fail_env "eth0" "10.0.0.1" "192.168.1.5" "10.0.0.2" 100 200 1 3
      zero_mem 44).2.1 (by decide),
   ⟨(C14_binary_outcome sample_env "wlan9" "999.999.1.1" "999.999.1.1" "10.0.0.2" 100 200 1 3
      zero_mem 44).2.2.1.1 (by decide),
    (C14_binary_outcome sample_env "wlan9" "999.999.1.1" "999.999.1.1" "10.0.0.2" 100 200 1 3
      zero_mem 44).2.2.1.2.1 (by decide),
    (C14_binary_outcome sample_env "wlan9" "999.999.1.1" "999.999.1.1" "10.0.0.2" 100 200 1 3
      zero_mem 44).2.2.1.2.2.2.2.2 (Or.inl (by decide))⟩⟩

/-- C15, as stated, fails: with the destination literal "999.999.1.1", which
does not parse, both encapsulation operations create and bind the socket
before they look at the literal; socket creation is the first of their
effects. -/
theorem C15_socket_opened_before_parse :
    sample_env.inet_pton "999.999.1.1" = none ∧
      create_mpls_encap_route_dev sample_env "eth0" "999.999.1.1" 42
        = (some (-1),
           [Event.socket AF_NETLINK SOCK_RAW NETLINK_ROUTE, Event.bind 3, Event.getpid,
            Event.inet_pton AF_INET "999.999.1.1",
            Event.stderr "Invalid destination IP address\n", Event.close 3]) ∧
      create_mpls_encap_route_via sample_env "999.999.1.1" 42 "10.0.0.2"
        = (some (-1),
           [Event.socket AF_NETLINK SOCK_RAW NETLINK_ROUTE, Event.bind 3, Event.getpid,
            Event.inet_pton AF_INET "999.999.1.1",
            Event.stderr "Invalid destination IP address\n", Event.close 3]) := by
  decide

/-- C15, amended. For every destination literal that is not a valid IPv4
address (witness: "999.999.1.1"), `create_mpls_encap_route_dev` and
`create_mpls_encap_route_via` reject the input before any send, the socket
having been asked for first: the operation returns -1, its sequence of effects
contains no `sendmsg`, and it begins with the socket creation. The socket,
once opened, is closed before the return: `close` is called exactly once, on
that socket, as the last effect. When the socket is opened and bound, the
whole run is: socket, bind, getpid, the parse of the literal, the line
"Invalid destination IP address", close. -/
theorem C15_rejected_before_send (env : Env) (interface dst_ip gateway_ip : String)
    (mpls_label : Nat) (h : env.inet_pton dst_ip = none) :
    (rejected_unsent (create_mpls_encap_route_dev env interface dst_ip mpls_label) ∧
        (create_mpls_encap_route_dev env interface dst_ip mpls_label).2.head?
          = some (Event.socket AF_NETLINK SOCK_RAW NETLINK_ROUTE) ∧
        (0 ≤ env.socket →
          closes_once env (create_mpls_encap_route_dev env interface dst_ip mpls_label)) ∧
        (0 ≤ env.socket → 0 ≤ env.bind →
          create_mpls_encap_route_dev env interface dst_ip mpls_label
            = (some (-1),
               [Event.socket AF_NETLINK SOCK_RAW NETLINK_ROUTE, Event.bind env.socket,
                Event.getpid, Event.inet_pton AF_INET dst_ip,
                Event.stderr "Invalid destination IP address\n",
                Event.close env.socket]))) ∧
      (rejected_unsent (create_mpls_encap_route_via env dst_ip mpls_label gateway_ip) ∧
        (create_mpls_encap_route_via env dst_ip mpls_label gateway_ip).2.head?
          = some (Event.socket AF_NETLINK SOCK_RAW NETLINK_ROUTE) ∧
        (0 ≤ env.socket →
          closes_once env (create_mpls_encap_route_via env dst_ip mpls_label gateway_ip)) ∧
        (0 ≤ env.socket → 0 ≤ env.bind →
          create_mpls_encap_route_via env dst_ip mpls_label gateway_ip
            = (some (-1),
               [Event.socket AF_NETLINK SOCK_RAW NETLINK_ROUTE, Event.bind env.socket,
                Event.getpid, Event.inet_pton AF_INET dst_ip,
                Event.stderr "Invalid destination IP address\n",
                Event.close env.socket]))) := by
  refine ⟨⟨op_run_rejected _ _ _
        (create_mpls_encap_route_dev_run env interface dst_ip mpls_label) (fun hP => hP.1 h),
      op_run_head _ _ _ (create_mpls_encap_route_dev_run env interface dst_ip mpls_label),
      op_run_closes_once _ _ _
        (create_mpls_encap_route_dev_run env interface dst_ip mpls_label), ?_⟩,
    ⟨op_run_rejected _ _ _
        (create_mpls_encap_route_via_run env dst_ip mpls_label gateway_ip) (fun hP => hP.1 h),
      op_run_head _ _ _ (create_mpls_encap_route_via_run env dst_ip mpls_label gateway_ip),
      op_run_closes_once _ _ _
        (create_mpls_encap_route_via_run env dst_ip mpls_label gateway_ip), ?_⟩⟩
  · intro hsock hbind
    simp [create_mpls_encap_route_dev, create_netlink_socket_ok env hsock hbind,
      not_lt.mpr hsock, h, stderr_events]
  · intro hsock hbind
    simp [create_mpls_encap_route_via, create_netlink_socket_ok env hsock hbind,
      not_lt.mpr hsock, h, stderr_events]

theorem C15_rejected_before_send_witness :
    sample_env.inet_pton "999.999.1.1" = none ∧
      (rejected_unsent (create_mpls_encap_route_dev sample_env "eth0" "999.999.1.1" 42) ∧
        (create_mpls_encap_route_dev sample_env "eth0" "999.999.1.1" 42).2.head?
          = some (Event.socket AF_NETLINK SOCK_RAW NETLINK_ROUTE) ∧
        closes_once sample_env
          (create_mpls_encap_route_dev sample_env "eth0" "999.999.1.1" 42) ∧
        create_mpls_encap_route_dev sample_env "eth0" "999.999.1.1" 42
          = (some (-1),
             [Event.socket AF_NETLINK SOCK_RAW NETLINK_ROUTE, Event.bind sample_env.socket,
              Event.getpid, Event.inet_pton AF_INET "999.999.1.1",
              Event.stderr "Invalid destination IP address\n",
              Event.close sample_env.socket])) ∧
      (rejected_unsent (create_mpls_encap_route_via sample_env "999.999.1.1" 42 "10.0.0.2") ∧
        (create_mpls_encap_route_via sample_env "999.999.1.1" 42 "10.0.0.2").2.head?
          = some (Event.socket AF_NETLINK SOCK_RAW NETLINK_ROUTE) ∧
        closes_once sample_env
          (create_mpls_encap_route_via sample_env "999.999.1.1" 42 "10.0.0.2") ∧
        create_mpls_encap_route_via sample_env "999.999.1.1" 42 "10.0.0.2"
          = (some (-1),
             [Event.socket AF_NETLINK SOCK_RAW NETLINK_ROUTE, Event.bind sample_env.socket,
              Event.getpid, Event.inet_pton AF_INET "999.999.1.1",
              Event.stderr "Invalid destination IP address\n",
              Event.close sample_env.socket])) :=
  have t := C15_rejected_before_send sample_env "eth0" "999.999.1.1" "10.0.0.2" 42 (by decide)
  ⟨by decide,
   ⟨t.1.1, t.1.2.1, t.1.2.2.1 (by decide), t.1.2.2.2 (by decide) (by decide)⟩,
   ⟨t.2.1, t.2.2.1, t.2.2.2.1 (by decide), t.2.2.2.2 (by decide) (by decide)⟩⟩

/-- C16. In each of the six route operations, whenever an address literal
fails to parse or an interface name fails to resolve (index 0), the operation
returns -1 and no `sendmsg` occurs in its sequence of effects. -/
theorem C16_local_failure_sends_nothing (env : Env)
    (interface nexthop_ip dst_ip gateway_ip : String) (label new_label s_bit : Nat) :
    (env.if_nametoindex interface = 0 →
        rejected_unsent (create_mpls_route_dev env interface label s_bit)) ∧
      (env.inet_pton nexthop_ip = none →
        rejected_unsent (create_mpls_route_nexthop env nexthop_ip label s_bit)) ∧
      (env.if_nametoindex interface = 0 →
        rejected_unsent (create_mpls_route_swap_dev env interface label new_label s_bit)) ∧
      (env.inet_pton nexthop_ip = none →
        rejected_unsent
          (create_mpls_route_swap_nexthop env nexthop_ip label new_label s_bit)) ∧
      (env.inet_pton dst_ip = none ∨ env.if_nametoindex interface = 0 →
        rejected_unsent (create_mpls_encap_route_dev env interface dst_ip label)) ∧
      (env.inet_pton dst_ip = none ∨ env.inet_pton gateway_ip = none →
        rejected_unsent (create_mpls_encap_route_via env dst_ip label gateway_ip)) := by
  refine ⟨?_, ?_, ?_, ?_, ?_, ?_⟩
  · intro h
    exact op_run_rejected _ _ _ (create_mpls_route_dev_run env interface label s_bit)
      (fun hP => hP (get_interface_index_zero env interface h))
  · intro h
    exact op_run_rejected _ _ _ (create_mpls_route_nexthop_run env nexthop_ip label s_bit)
      (fun hP => hP h)
  · intro h
    exact op_run_rejected _ _ _
      (create_mpls_route_swap_dev_run env interface label new_label s_bit)
      (fun hP => hP (get_interface_index_zero env interface h))
  · intro h
    exact op_run_rejected _ _ _
      (create_mpls_route_swap_nexthop_run env nexthop_ip label new_label s_bit)
      (fun hP => hP h)
  · intro h
    refine op_run_rejected _ _ _ (create_mpls_encap_route_dev_run env interface dst_ip label) ?_
    rintro ⟨h1, h2⟩
    rcases h with h | h
    · exact h1 h
    · exact h2 (get_interface_index_zero env interface h)
  · intro h
    refine op_run_rejected _ _ _
      (create_mpls_encap_route_via_run env dst_ip label gateway_ip) ?_
    rintro ⟨h1, h2⟩
    rcases h with h | h
    · exact h1 h
    · exact h2 h

theorem C16_local_failure_sends_nothing_witness :
    rejected_unsent (create_mpls_route_dev sample_env "wlan9" 100 1) ∧
      rejected_unsent (create_mpls_route_nexthop sample_env "999.999.1.1" 100 1) ∧
      rejected_unsent (create_mpls_route_swap_dev sample_env "wlan9" 100 200 1) ∧
      rejected_unsent (create_mpls_route_swap_nexthop sample_env "999.999.1.1" 100 200 1) ∧
      rejected_unsent (create_mpls_encap_route_dev sample_env "wlan9" "999.999.1.1" 100) ∧
      rejected_unsent (create_mpls_encap_route_via sample_env "999.999.1.1" 100 "10.0.0.2") :=
  ⟨(C16_local_failure_sends_nothing sample_env "wlan9" "999.999.1.1" "999.999.1.1" "10.0.0.2"
      100 200 1).1 (by decide),
   (C16_local_failure_sends_nothing sample_env "wlan9" "999.999.1.1" "999.999.1.1" "10.0.0.2"
      100 200 1).2.1 (by decide),
   (C16_local_failure_sends_nothing sample_env "wlan9" "999.999.1.1" "999.999.1.1" "10.0.0.2"
      100 200 1).2.2.1 (by decide),
   (C16_local_failure_sends_nothing sample_env "wlan9" "999.999.1.1" "999.999.1.1" "10.0.0.2"
      100 200 1).2.2.2.1 (by decide),
   (C16_local_failure_sends_nothing sample_env "wlan9" "999.999.1.1" "999.999.1.1" "10.0.0.2"
      100 200 1).2.2.2.2.1 (Or.inl (by decide)),
   (C16_local_failure_sends_nothing sample_env "wlan9" "999.999.1.1" "999.999.1.1" "10.0.0.2"
      100 200 1).2.2.2.2.2 (Or.inl (by decide))⟩

/-- C17. In each of the six route operations, on every path on which the
socket was opened successfully, the operation returns and the socket is closed
exactly once, by the last step of the run, so it is never used after being
closed; this covers success, a failed bind, a parse failure, an
interface-resolution failure, a send failure, a receive failure and a kernel
rejection. -/
theorem C17_socket_closed_once (env : Env) (interface nexthop_ip dst_ip gateway_ip : String)
    (label new_label s_bit : Nat) (hsock : 0 ≤ env.socket) :
    closes_once env (create_mpls_route_dev env interface label s_bit) ∧
      closes_once env (create_mpls_route_nexthop env nexthop_ip label s_bit) ∧
      closes_once env (create_mpls_route_swap_dev env interface label new_label s_bit) ∧
      closes_once env (create_mpls_route_swap_nexthop env nexthop_ip label new_label s_bit) ∧
      closes_once env (create_mpls_encap_route_dev env interface dst_ip label) ∧
      closes_once env (create_mpls_encap_route_via env dst_ip label gateway_ip) :=
  ⟨op_run_closes_once _ _ _ (create_mpls_route_dev_run env interface label s_bit) hsock,
   op_run_closes_once _ _ _ (create_mpls_route_nexthop_run env nexthop_ip label s_bit) hsock,
   op_run_closes_once _ _ _
     (create_mpls_route_swap_dev_run env interface label new_label s_bit) hsock,
   op_run_closes_once _ _ _
     (create_mpls_route_swap_nexthop_run env nexthop_ip label new_label s_bit) hsock,
   op_run_closes_once _ _ _ (create_mpls_encap_route_dev_run env interface dst_ip label) hsock,
   op_run_closes_once _ _ _ (create_mpls_encap_route_via_run env dst_ip label gateway_ip)
     hsock⟩

theorem C17_socket_closed_once_witness :
    closes_once eexist_env (create_mpls_route_dev eexist_env "eth0" 100 1) ∧
      closes_once eexist_env (create_mpls_route_nexthop eexist_env "10.0.0.1" 100 1) ∧
      closes_once eexist_env (create_mpls_route_swap_dev eexist_env "eth0" 100 200 1) ∧
      closes_once eexist_env (create_mpls_route_swap_nexthop eexist_env "10.0.0.1" 100 200 1) ∧
      closes_once eexist_env (create_mpls_encap_route_dev eexist_env "eth0" "192.168.1.5" 100) ∧
      closes_once eexist_env
        (create_mpls_encap_route_via eexist_env "192.168.1.5" 100 "10.0.0.2") :=
  C17_socket_closed_once eexist_env "eth0" "10.0.0.1" "192.168.1.5" "10.0.0.2" 100 200 1
    (by decide)

/-- C18. Each of the six route operations returns 0 or -1 and nothing else,
and returns 0 exactly when socket creation and bind, the address parsing or
interface resolution of the operation, the `sendmsg` call and the check of
the kernel's response all succeed. -/
theorem C18_zero_or_minus_one (env : Env) (interface nexthop_ip dst_ip gateway_ip : String)
    (label new_label s_bit : Nat) :
    returns_zero_iff env ((get_interface_index env interface).1 ≠ 0)
        (create_mpls_route_dev env interface label s_bit) ∧
      returns_zero_iff env (env.inet_pton nexthop_ip ≠ none)
        (create_mpls_route_nexthop env nexthop_ip label s_bit) ∧
      returns_zero_iff env ((get_interface_index env interface).1 ≠ 0)
        (create_mpls_route_swap_dev env interface label new_label s_bit) ∧
      returns_zero_iff env (env.inet_pton nexthop_ip ≠ none)
        (create_mpls_route_swap_nexthop env nexthop_ip label new_label s_bit) ∧
      returns_zero_iff env
        (env.inet_pton dst_ip ≠ none ∧ (get_interface_index env interface).1 ≠ 0)
        (create_mpls_encap_route_dev env interface dst_ip label) ∧
      returns_zero_iff env (env.inet_pton dst_ip ≠ none ∧ env.inet_pton gateway_ip ≠ none)
        (create_mpls_encap_route_via env dst_ip label gateway_ip) :=
  ⟨op_run_returns_zero_iff _ _ _ (create_mpls_route_dev_run env interface label s_bit),
   op_run_returns_zero_iff _ _ _ (create_mpls_route_nexthop_run env nexthop_ip label s_bit),
   op_run_returns_zero_iff _ _ _
     (create_mpls_route_swap_dev_run env interface label new_label s_bit),
   op_run_returns_zero_iff _ _ _
     (create_mpls_route_swap_nexthop_run env nexthop_ip label new_label s_bit),
   op_run_returns_zero_iff _ _ _ (create_mpls_encap_route_dev_run env interface dst_ip label),
   op_run_returns_zero_iff _ _ _ (create_mpls_encap_route_via_run env dst_ip label gateway_ip)⟩

/-- C20. In each of the six route operations, for all inputs, no `add_attr`
call takes the "Attribute too big" exit: the operation always returns, its run
contains no `exit`, and every datagram it builds has at most 64 bytes, far
below `sizeof(req) = 4124`. The unchecked inline write of the nested
encapsulation attribute also lies inside the request: it follows the first
append, starts at `NLMSG_ALIGN(nlmsg_len) = 36` and ends at 48, and on every
request whose `nlmsg_len` is 36, as it is after that append, every byte that
`add_encap_inline` changes is a byte of `nlmsg_len` or lies at an offset from
36 up to 47, below `sizeof(req)`. -/
theorem C20_capacity_never_exceeded (env : Env)
    (interface nexthop_ip dst_ip gateway_ip : String) (label new_label s_bit : Nat)
    (scope : Nat) (a : in_addr) :
    sizeof_req = 4124 ∧
      never_overflows (create_mpls_route_dev env interface label s_bit) ∧
      never_overflows (create_mpls_route_nexthop env nexthop_ip label s_bit) ∧
      never_overflows (create_mpls_route_swap_dev env interface label new_label s_bit) ∧
      never_overflows (create_mpls_route_swap_nexthop env nexthop_ip label new_label s_bit) ∧
      never_overflows (create_mpls_encap_route_dev env interface dst_ip label) ∧
      never_overflows (create_mpls_encap_route_via env dst_ip label gateway_ip) ∧
      ((add_attr env.endian (init_inet_req env scope) sizeof_req RTA_DST a.bytes).isOk = true ∧
        NLMSG_ALIGN (nlmsg_len env.endian
            (add_attr env.endian (init_inet_req env scope) sizeof_req RTA_DST a.bytes).mem)
          + RTA_LENGTH 8 = 48 ∧
        NLMSG_ALIGN (nlmsg_len env.endian
            (add_attr env.endian (init_inet_req env scope) sizeof_req RTA_DST a.bytes).mem)
          + RTA_LENGTH 8 ≤ sizeof_req) ∧
      (nlmsg_len env.endian
          (add_attr env.endian (init_inet_req env scope) sizeof_req RTA_DST a.bytes).mem = 36 ∧
        ∀ (m : Mem) (mpls_label i : Nat), nlmsg_len env.endian m = 36 →
          (add_encap_inline env.endian m mpls_label).1 i ≠ m i →
            (i < 4 ∨ (36 ≤ i ∧ i < 48)) ∧ i < sizeof_req) := by
  have a28 : NLMSG_ALIGN 28 = 28 := by decide
  have a36 : NLMSG_ALIGN 36 = 36 := by decide
  have habytes : a.bytes.length = 4 := rfl
  obtain ⟨req1, hr1, hlen1, -⟩ :=
    add_attr_step env.endian (init_inet_req env scope) sizeof_req RTA_DST a.bytes 28
      (nlmsg_len_init_inet_req env scope) (by decide) (by decide) (by decide)
      (by rw [a28, habytes]; decide) (by decide)
  rw [a28, habytes] at hlen1
  refine ⟨by decide,
    op_run_never_overflows _ _ _ (create_mpls_route_dev_run env interface label s_bit),
    op_run_never_overflows _ _ _ (create_mpls_route_nexthop_run env nexthop_ip label s_bit),
    op_run_never_overflows _ _ _
      (create_mpls_route_swap_dev_run env interface label new_label s_bit),
    op_run_never_overflows _ _ _
      (create_mpls_route_swap_nexthop_run env nexthop_ip label new_label s_bit),
    op_run_never_overflows _ _ _ (create_mpls_encap_route_dev_run env interface dst_ip label),
    op_run_never_overflows _ _ _ (create_mpls_encap_route_via_run env dst_ip label gateway_ip),
    ?_, ?_, ?_⟩
  · rw [hr1]
    simp only [Outcome.isOk, Outcome.mem, hlen1, a36, RTA_LENGTH_eq]
    decide
  · rw [hr1]
    exact hlen1
  · intro m mpls_label i hm hne
    have hlen : (to_bytes env.endian 8
        (create_mpls_label_for_encap env.endian mpls_label 1 0).1).length = 8 :=
      to_bytes_length _ _ _
    have hok := add_attr_ok env.endian m sizeof_req ((RTA_ENCAP ||| NLA_F_NESTED : Nat) : Int)
      (to_bytes env.endian 8 (create_mpls_label_for_encap env.endian mpls_label 1 0).1)
      (by rw [hm, a36, hlen]; decide)
    rw [add_encap_inline_eq env.endian m sizeof_req mpls_label hok] at hne
    have hin : i < 4 ∨ (36 ≤ i ∧ i < 48) := by
      by_contra hcon
      apply hne
      apply add_attr_unchanged env.endian m sizeof_req _ _ i (by omega)
      rw [hm, a36, hlen]
      omega
    refine ⟨hin, ?_⟩
    have hs : sizeof_req = 4124 := by decide
    omega

theorem C20_capacity_never_exceeded_witness :
    nlmsg_len sample_env.endian (store sample_env.endian 4 zero_mem 0 36) = 36 ∧
      (add_encap_inline sample_env.endian (store sample_env.endian 4 zero_mem 0 36) 100).1 36
        ≠ (store sample_env.endian 4 zero_mem 0 36) 36 ∧
      ((36 < 4 ∨ (36 ≤ 36 ∧ 36 < 48)) ∧ 36 < sizeof_req) :=
  ⟨by decide, by decide,
   (C20_capacity_never_exceeded sample_env "eth0" "10.0.0.1" "192.168.1.5" "10.0.0.2" 100 200 1
      0 ⟨192, 168, 1, 5⟩).2.2.2.2.2.2.2.2.2
     (store sample_env.endian 4 zero_mem 0 36) 100 36 (by decide) (by decide)⟩

/-! ## The datagrams built: claims C11, C12 -/

theorem get_interface_index_fst (env : Env) (ifname : String) :
    (get_interface_index env ifname).1 = to_int32 (env.if_nametoindex ifname % 2 ^ 32) := by
  simp only [get_interface_index]
  split_ifs <;> rfl

theorem sent_get_interface_index (env : Env) (ifname : String) :
    sent (get_interface_index env ifname).2 = [] :=
  sent_local _ (local_get_interface_index env ifname)

theorem int_bits_to_int32 (v : Nat) (hv : v < 2 ^ 32) : int_bits 4 (to_int32 v) = v := by
  rw [int_bits_four]
  unfold to_int32
  split_ifs <;> omega

theorem to_int32_ne_zero (v : Nat) (h0 : 0 < v) (hv : v < 2 ^ 32) : to_int32 v ≠ 0 := by
  unfold to_int32
  split_ifs <;> omega

/-- C12. For every label `≤ 0xFFFFF`, stack-bottom bit `s ∈ {0,1}` and
interface name that resolves to a positive index `i`, when the socket is
opened and bound, `create_mpls_route_dev` hands exactly one datagram to
`sendmsg`; its length is its `nlmsg_len` field, 44; after the 28 bytes of
header and route descriptor it has exactly two attributes, at offsets 28 and
36: `RTA_DST` of declared length 8 whose payload decodes to `(label, s)`, and
`RTA_OIF` of declared length 8 whose 4-byte payload is the integer `i`. -/
theorem C12_route_dev_message (env : Env) (interface : String) (label s : Nat)
    (hsock : 0 ≤ env.socket) (hbind : 0 ≤ env.bind)
    (hl : label ≤ 0xFFFFF) (hs : s = 0 ∨ s = 1)
    (hi0 : 0 < env.if_nametoindex interface) (hi1 : env.if_nametoindex interface < 2 ^ 32) :
    ∃ msg : List Nat,
      sent (create_mpls_route_dev env interface label s).2 = [msg] ∧
      msg.length = 44 ∧ of_bytes env.endian (msg.take 4) = msg.length ∧
      attrs_of env.endian msg
        = [{ off := 28, len := 8, type := RTA_DST,
             payload := to_bytes Endian.big 4 ((label <<< 12) ||| (s <<< 8)) },
           { off := 36, len := 8, type := RTA_OIF,
             payload := to_bytes env.endian 4 (env.if_nametoindex interface) }] ∧
      decode_word (of_bytes Endian.big (to_bytes Endian.big 4 ((label <<< 12) ||| (s <<< 8))))
        = (label, 0, s, 0) ∧
      of_bytes env.endian (to_bytes env.endian 4 (env.if_nametoindex interface))
        = env.if_nametoindex interface := by
  have hs1 : s ≤ 1 := by omega
  have a28 : NLMSG_ALIGN 28 = 28 := by decide
  have a36 : NLMSG_ALIGN 36 = 36 := by decide
  have r8 : RTA_ALIGN 8 = 8 := by decide
  have hmax : sizeof_req ≤ 65535 := by decide
  have hd1 := label_payload env.endian label s hl hs1
  have he1 : (create_mpls_label env.endian label s).2 = [] := by
    rw [create_mpls_label_valid _ label s hl hs1]
  have hgi : (get_interface_index env interface).1
      = to_int32 (env.if_nametoindex interface) := by
    rw [get_interface_index_fst, Nat.mod_eq_of_lt hi1]
  have hne : (get_interface_index env interface).1 ≠ 0 := by
    rw [hgi]; exact to_int32_ne_zero _ hi0 hi1
  have hd2 : to_bytes env.endian 4 (int_bits 4 (get_interface_index env interface).1)
      = to_bytes env.endian 4 (env.if_nametoindex interface) := by
    rw [hgi, int_bits_to_int32 _ hi1]
  obtain ⟨req1, hr1, hlen1, hA1, hT1, hP1, hF1⟩ :=
    add_attr_step env.endian (init_mpls_req env) sizeof_req RTA_DST
      (to_bytes Endian.big 4 ((label <<< 12) ||| (s <<< 8))) 28
      (nlmsg_len_init_mpls_req env) (by decide) (by decide) hmax
      (by rw [a28, to_bytes_length]; decide) (by decide)
  rw [a28, to_bytes_length] at hlen1 hA1 hP1
  rw [a28] at hT1 hF1
  obtain ⟨req2, hr2, hlen2, hA2, hT2, hP2, hF2⟩ :=
    add_attr_step env.endian req1 sizeof_req RTA_OIF
      (to_bytes env.endian 4 (env.if_nametoindex interface)) 36
      hlen1 (by decide) (by decide) hmax
      (by rw [a36, to_bytes_length]; decide) (by decide)
  rw [a36, to_bytes_length] at hlen2 hA2 hP2
  rw [a36] at hT2 hF2
  norm_num at hlen1 hlen2 hA1 hA2 hT1 hT2 hP1 hP2
  have hrun : sent (create_mpls_route_dev env interface label s).2
      = [load_bytes req2 0 44] := by
    simp only [create_mpls_route_dev, create_netlink_socket_ok env hsock hbind,
      not_lt.mpr hsock, if_false, hd1, hd2, hr1, hr2, hne, hlen2, he1, sent_append,
      sent_send_netlink_message, sent_stderr_events, sent_get_interface_index, sent,
      List.append_nil, List.nil_append, List.append_eq]
  refine ⟨load_bytes req2 0 44, hrun, load_bytes_length _ _ _, ?_, ?_, ?_, ?_⟩
  · have htake : (load_bytes req2 0 44).take 4 = load_bytes req2 0 4 := by
      simpa using load_bytes_drop_take req2 44 0 4 (by decide)
    rw [load_bytes_length, htake]
    exact hlen2
  · have L28 : load env.endian 2 req2 28 = 8 := by
      rw [load_congr _ 2 req2 req1 28 (hF2 28 2 (by decide) (by decide)), hA1]
    have T28 : load env.endian 2 req2 30 = RTA_DST := by
      rw [load_congr _ 2 req2 req1 30 (hF2 30 2 (by decide) (by decide)), hT1]
    have P28 : load_bytes req2 32 4
        = to_bytes Endian.big 4 ((label <<< 12) ||| (s <<< 8)) := by
      rw [hF2 32 4 (by decide) (by decide), hP1]
    have h28 : NLMSG_LENGTH sizeof_rtmsg = 28 := by decide
    unfold attrs_of
    rw [load_bytes_length, h28,
      rta_walk_step _ req2 44 43 28 (by decide) (by omega) (by omega)]
    simp only [L28, T28, r8, Nat.reduceAdd, Nat.reduceSub]
    rw [rta_walk_step _ req2 44 42 36 (by decide) (by omega) (by omega)]
    simp only [hA2, hT2, r8, Nat.reduceAdd, Nat.reduceSub]
    rw [rta_walk_stop _ _ 42 44 (by simp [load_bytes_length]), P28, hP2]
  · rw [of_bytes_to_bytes, plain_word_shift label s hs1, decode_word_eq]
    simp only [Prod.mk.injEq]
    omega
  · rw [of_bytes_to_bytes]
    norm_num
    omega

theorem C12_route_dev_message_witness :
    ∃ msg : List Nat,
      sent (create_mpls_route_dev sample_env "eth0" 100 1).2 = [msg] ∧
      msg.length = 44 ∧ of_bytes sample_env.endian (msg.take 4) = msg.length ∧
      attrs_of sample_env.endian msg
        = [{ off := 28, len := 8, type := RTA_DST,
             payload := to_bytes Endian.big 4 ((100 <<< 12) ||| (1 <<< 8)) },
           { off := 36, len := 8, type := RTA_OIF,
             payload := to_bytes sample_env.endian 4 (sample_env.if_nametoindex "eth0") }] ∧
      decode_word (of_bytes Endian.big (to_bytes Endian.big 4 ((100 <<< 12) ||| (1 <<< 8))))
        = (100, 0, 1, 0) ∧
      of_bytes sample_env.endian
          (to_bytes sample_env.endian 4 (sample_env.if_nametoindex "eth0"))
        = sample_env.if_nametoindex "eth0" :=
  C12_route_dev_message sample_env "eth0" 100 1 (by decide) (by decide) (by decide)
    (by decide) (by decide) (by decide)

/-- Payload of the nested attribute for a valid label: the descriptor, then
the label word with stack-bottom 1 and traffic class 0 in network order. -/
theorem encap_payload (e : Endian) (label : Nat) (hl : label ≤ 0xFFFFF) :
    to_bytes e 8 (create_mpls_label_for_encap e label 1 0).1
      = [0x08, 0x00, 0x01, 0x00]
          ++ to_bytes Endian.big 4 ((label <<< 12) ||| (0 <<< 9) ||| (1 <<< 8)) := by
  rw [create_mpls_label_for_encap_valid e label 1 0 hl (by decide) (by decide)]
  have h := to_bytes_of_bytes e (encap_bytes label 1 0) (encap_bytes_lt label 1 0)
  rw [encap_bytes_length] at h
  rw [h, encap_bytes_eq label 1 0 hl (by decide) (by decide)]

/-- C11. For every label `≤ 0xFFFFF` and destination and gateway literals that
parse to IPv4 addresses, when the socket is opened and bound,
`create_mpls_encap_route_via` hands exactly one datagram to `sendmsg`; its
length is its `nlmsg_len` field, 64; after the 28 bytes of header and route
descriptor it has exactly four attributes, at the 4-byte-aligned offsets 28,
36, 48 and 56: `RTA_DST` (declared length 8) with the four destination bytes;
`RTA_ENCAP` with the `NLA_F_NESTED` flag set (declared length 12) whose 8-byte
payload is the encapsulation header for (label, stack-bottom 1, traffic
class 0), decoding to that label; `RTA_ENCAP_TYPE` (declared length 6) with
the 16-bit value `LWTUNNEL_ENCAP_MPLS = 1`; `RTA_GATEWAY` (declared length 8)
with the four gateway bytes. -/
theorem C11_encap_via_message (env : Env) (dst_ip gateway_ip : String) (label : Nat)
    (a g : in_addr) (hsock : 0 ≤ env.socket) (hbind : 0 ≤ env.bind)
    (hl : label ≤ 0xFFFFF) (hdst : env.inet_pton dst_ip = some a)
    (hgw : env.inet_pton gateway_ip = some g) :
    ∃ msg : List Nat,
      sent (create_mpls_encap_route_via env dst_ip label gateway_ip).2 = [msg] ∧
      msg.length = 64 ∧ of_bytes env.endian (msg.take 4) = msg.length ∧
      attrs_of env.endian msg
        = [{ off := 28, len := 8, type := RTA_DST,
             payload := [a.b0.val, a.b1.val, a.b2.val, a.b3.val] },
           { off := 36, len := 12, type := RTA_ENCAP ||| NLA_F_NESTED,
             payload := [0x08, 0x00, 0x01, 0x00]
               ++ to_bytes Endian.big 4 ((label <<< 12) ||| (0 <<< 9) ||| (1 <<< 8)) },
           { off := 48, len := 6, type := RTA_ENCAP_TYPE,
             payload := to_bytes env.endian 2 LWTUNNEL_ENCAP_MPLS },
           { off := 56, len := 8, type := RTA_GATEWAY,
             payload := [g.b0.val, g.b1.val, g.b2.val, g.b3.val] }] ∧
      decode_word (of_bytes Endian.big
          (to_bytes Endian.big 4 ((label <<< 12) ||| (0 <<< 9) ||| (1 <<< 8))))
        = (label, 0, 1, 0) ∧
      of_bytes env.endian (to_bytes env.endian 2 LWTUNNEL_ENCAP_MPLS) = 1 := by
  have a28 : NLMSG_ALIGN 28 = 28 := by decide
  have a36 : NLMSG_ALIGN 36 = 36 := by decide
  have a48 : NLMSG_ALIGN 48 = 48 := by decide
  have a54 : NLMSG_ALIGN 54 = 56 := by decide
  have r8 : RTA_ALIGN 8 = 8 := by decide
  have r12 : RTA_ALIGN 12 = 12 := by decide
  have r6 : RTA_ALIGN 6 = 8 := by decide
  have hmax : sizeof_req ≤ 65535 := by decide
  have habytes : a.bytes.length = 4 := rfl
  have hgbytes : g.bytes.length = 4 := rfl
  have hpay := encap_payload env.endian label hl
  have he2 : (create_mpls_label_for_encap env.endian label 1 0).2 = [] := by
    rw [create_mpls_label_for_encap_valid _ label 1 0 hl (by decide) (by decide)]
  obtain ⟨req1, hr1, hlen1, hA1, hT1, hP1, hF1⟩ :=
    add_attr_step env.endian (init_inet_req env RT_SCOPE_UNIVERSE) sizeof_req RTA_DST
      a.bytes 28 (nlmsg_len_init_inet_req env RT_SCOPE_UNIVERSE) (by decide) (by decide) hmax
      (by rw [a28, habytes]; decide) (by decide)
  rw [a28, habytes] at hlen1 hA1 hP1
  rw [a28] at hT1 hF1
  obtain ⟨req2, hr2, hlen2, hA2, hT2, hP2, hF2⟩ :=
    add_encap_step env.endian req1 sizeof_req label 36 hlen1 (by decide) (by decide)
      hmax (by rw [a36]; decide)
  rw [he2] at hr2
  rw [a36] at hlen2 hA2 hT2 hP2 hF2
  rw [hpay] at hP2
  obtain ⟨req3, hr3, hlen3, hA3, hT3, hP3, hF3⟩ :=
    add_attr_step env.endian req2 sizeof_req RTA_ENCAP_TYPE
      (to_bytes env.endian 2 LWTUNNEL_ENCAP_MPLS) 48
      hlen2 (by decide) (by decide) hmax (by rw [a48, to_bytes_length]; decide) (by decide)
  rw [a48, to_bytes_length] at hlen3 hA3 hP3
  rw [a48] at hT3 hF3
  obtain ⟨req4, hr4, hlen4, hA4, hT4, hP4, hF4⟩ :=
    add_attr_step env.endian req3 sizeof_req RTA_GATEWAY g.bytes 54
      hlen3 (by decide) (by decide) hmax (by rw [a54, hgbytes]; decide) (by decide)
  rw [a54, hgbytes] at hlen4 hA4 hP4
  rw [a54] at hT4 hF4
  norm_num at hlen1 hlen2 hlen3 hlen4 hA1 hA2 hA3 hA4 hT1 hT2 hT3 hT4
  simp only [Nat.reduceAdd] at hP1 hP2 hP3 hP4
  have hrun : sent (create_mpls_encap_route_via env dst_ip label gateway_ip).2
      = [load_bytes req4 0 64] := by
    simp only [create_mpls_encap_route_via, create_netlink_socket_ok env hsock hbind,
      not_lt.mpr hsock, if_false, hdst, hgw, hr1, hr2, hr3, hr4, hlen4, sent_append,
      sent_send_netlink_message, sent_stderr_events, sent, List.append_nil, List.nil_append,
      List.append_eq]
  refine ⟨load_bytes req4 0 64, hrun, load_bytes_length _ _ _, ?_, ?_, ?_, ?_⟩
  · have htake : (load_bytes req4 0 64).take 4 = load_bytes req4 0 4 := by
      simpa using load_bytes_drop_take req4 64 0 4 (by decide)
    rw [load_bytes_length, htake]
    exact hlen4
  · have L28 : load env.endian 2 req4 28 = 8 := by
      rw [load_congr _ 2 req4 req3 28 (hF4 28 2 (by decide) (by decide)),
        load_congr _ 2 req3 req2 28 (hF3 28 2 (by decide) (by decide)),
        load_congr _ 2 req2 req1 28 (hF2 28 2 (by decide) (by decide)), hA1]
    have T28 : load env.endian 2 req4 30 = RTA_DST := by
      rw [load_congr _ 2 req4 req3 30 (hF4 30 2 (by decide) (by decide)),
        load_congr _ 2 req3 req2 30 (hF3 30 2 (by decide) (by decide)),
        load_congr _ 2 req2 req1 30 (hF2 30 2 (by decide) (by decide)), hT1]
    have P28 : load_bytes req4 32 4 = a.bytes := by
      rw [hF4 32 4 (by decide) (by decide), hF3 32 4 (by decide) (by decide),
        hF2 32 4 (by decide) (by decide), hP1]
    have L36 : load env.endian 2 req4 36 = 12 := by
      rw [load_congr _ 2 req4 req3 36 (hF4 36 2 (by decide) (by decide)),
        load_congr _ 2 req3 req2 36 (hF3 36 2 (by decide) (by decide)), hA2]
    have T36 : load env.endian 2 req4 38 = RTA_ENCAP ||| NLA_F_NESTED := by
      rw [load_congr _ 2 req4 req3 38 (hF4 38 2 (by decide) (by decide)),
        load_congr _ 2 req3 req2 38 (hF3 38 2 (by decide) (by decide)), hT2]
    have P36 : load_bytes req4 40 8
        = [0x08, 0x00, 0x01, 0x00]
            ++ to_bytes Endian.big 4 ((label <<< 12) ||| (0 <<< 9) ||| (1 <<< 8)) := by
      rw [hF4 40 8 (by decide) (by decide), hF3 40 8 (by decide) (by decide), hP2]
    have L48 : load env.endian 2 req4 48 = 6 := by
      rw [load_congr _ 2 req4 req3 48 (hF4 48 2 (by decide) (by decide)), hA3]
    have T48 : load env.endian 2 req4 50 = RTA_ENCAP_TYPE := by
      rw [load_congr _ 2 req4 req3 50 (hF4 50 2 (by decide) (by decide)), hT3]
    have P48 : load_bytes req4 52 2 = to_bytes env.endian 2 LWTUNNEL_ENCAP_MPLS := by
      rw [hF4 52 2 (by decide) (by decide), hP3]
    have h28 : NLMSG_LENGTH sizeof_rtmsg = 28 := by decide
    unfold attrs_of
    rw [load_bytes_length, h28,
      rta_walk_step _ req4 64 63 28 (by decide) (by omega) (by omega)]
    simp only [L28, T28, r8, Nat.reduceAdd, Nat.reduceSub]
    rw [rta_walk_step _ req4 64 62 36 (by decide) (by omega) (by omega)]
    simp only [L36, T36, r12, Nat.reduceAdd, Nat.reduceSub]
    rw [rta_walk_step _ req4 64 61 48 (by decide) (by omega) (by omega)]
    simp only [L48, T48, r6, Nat.reduceAdd, Nat.reduceSub]
    rw [rta_walk_step _ req4 64 60 56 (by decide) (by omega) (by omega)]
    simp only [hA4, hT4, r8, Nat.reduceAdd, Nat.reduceSub]
    rw [rta_walk_stop _ _ 60 64 (by simp [load_bytes_length]), P28, P36, P48, hP4]
    rfl
  · rw [of_bytes_to_bytes, encap_word_eq label 1 0 (by decide) (by decide), decode_word_eq]
    simp only [Prod.mk.injEq]
    omega
  · rw [of_bytes_to_bytes]
    decide

theorem C11_encap_via_message_witness :
    ∃ msg : List Nat,
      sent (create_mpls_encap_route_via sample_env "192.168.1.5" 42 "10.0.0.2").2 = [msg] ∧
      msg.length = 64 ∧ of_bytes sample_env.endian (msg.take 4) = msg.length ∧
      attrs_of sample_env.endian msg
        = [{ off := 28, len := 8, type := RTA_DST,
             payload := [(192 : Fin 256).val, (168 : Fin 256).val, (1 : Fin 256).val,
                         (5 : Fin 256).val] },
           { off := 36, len := 12, type := RTA_ENCAP ||| NLA_F_NESTED,
             payload := [0x08, 0x00, 0x01, 0x00]
               ++ to_bytes Endian.big 4 ((42 <<< 12) ||| (0 <<< 9) ||| (1 <<< 8)) },
           { off := 48, len := 6, type := RTA_ENCAP_TYPE,
             payload := to_bytes sample_env.endian 2 LWTUNNEL_ENCAP_MPLS },
           { off := 56, len := 8, type := RTA_GATEWAY,
             payload := [(10 : Fin 256).val, (0 : Fin 256).val, (0 : Fin 256).val,
                         (2 : Fin 256).val] }] ∧
      decode_word (of_bytes Endian.big
          (to_bytes Endian.big 4 ((42 <<< 12) ||| (0 <<< 9) ||| (1 <<< 8))))
        = (42, 0, 1, 0) ∧
      of_bytes sample_env.endian (to_bytes sample_env.endian 2 LWTUNNEL_ENCAP_MPLS) = 1 :=
  C11_encap_via_message sample_env "192.168.1.5" "10.0.0.2" 42 ⟨192, 168, 1, 5⟩ ⟨10, 0, 0, 2⟩
    (by decide) (by decide) (by decide) (by decide) (by decide)

/-! ## Bounds of the writes of `add_attr`: claim C21 -/

/-- C21, as stated, fails: with `nlmsg_len = 0` (capacity 100, type 1, empty
payload) the attribute header is written on the `nlmsg_len` field; the call
succeeds and the new `nlmsg_len`, computed from the overwritten field, is
65544, above the capacity. -/
theorem C21_nlmsg_len_exceeds_capacity :
    nlmsg_len Endian.little zero_mem ≤ 100 ∧ 100 ≤ 65535 ∧
      (add_attr Endian.little zero_mem 100 1 []).isOk = true ∧
      nlmsg_len Endian.little (add_attr Endian.little zero_mem 100 1 []).mem = 65544 ∧
      ¬ (nlmsg_len Endian.little (add_attr Endian.little zero_mem 100 1 []).mem ≤ 100) := by
  decide

/-- C21, amended. For every message with `0 < nlmsg_len ≤ maxlen ≤ 65535` and
every payload length `len ≥ 0` (`len` a C `int`): if `add_attr` succeeds, the
attribute fits, `NLMSG_ALIGN(old nlmsg_len) + 4 + len ≤ maxlen`; every byte
the call changes is in the `nlmsg_len` field or among the 4 header bytes at
`NLMSG_ALIGN(old nlmsg_len)` and the `len` payload bytes after them, and is at
an offset strictly below `maxlen`; and the new `nlmsg_len` is positive and
`≤ maxlen`, so the precondition is preserved from call to call. -/
theorem C21_writes_within_capacity (e : Endian) (m : Mem) (maxlen : Nat) (type : Int)
    (data : List Nat) (h0 : 0 < nlmsg_len e m) (hle : nlmsg_len e m ≤ maxlen)
    (hmax : maxlen ≤ 65535) (hlen : data.length ≤ 2147483647)
    (hok : (add_attr e m maxlen type data).isOk = true) :
    NLMSG_ALIGN (nlmsg_len e m) + 4 + data.length ≤ maxlen ∧
      (∀ i, (add_attr e m maxlen type data).mem i ≠ m i →
        i < 4 ∨ (NLMSG_ALIGN (nlmsg_len e m) ≤ i
          ∧ i < NLMSG_ALIGN (nlmsg_len e m) + 4 + data.length)) ∧
      (∀ i, (add_attr e m maxlen type data).mem i ≠ m i → i < maxlen) ∧
      0 < nlmsg_len e (add_attr e m maxlen type data).mem ∧
      nlmsg_len e (add_attr e m maxlen type data).mem ≤ maxlen := by
  have hb := NLMSG_ALIGN_bounds (nlmsg_len e m) (by omega)
  have h4 := NLMSG_ALIGN_mod4 (nlmsg_len e m)
  have hc := (add_attr_isOk_iff e m maxlen type data).mp hok
  rw [RTA_LENGTH_eq] at hc
  have hfit : NLMSG_ALIGN (nlmsg_len e m) + 4 + data.length ≤ maxlen := by omega
  have hnew := add_attr_nlmsg_len e m maxlen type data h0 hle hmax hfit
  have hwhere : ∀ i, (add_attr e m maxlen type data).mem i ≠ m i →
      i < 4 ∨ (NLMSG_ALIGN (nlmsg_len e m) ≤ i
        ∧ i < NLMSG_ALIGN (nlmsg_len e m) + 4 + data.length) := by
    intro i hi
    by_contra hcon
    exact hi (add_attr_unchanged e m maxlen type data i (by omega) (by omega))
  refine ⟨hfit, hwhere, ?_, by omega, by omega⟩
  intro i hi
  have := hwhere i hi
  omega

theorem C21_writes_within_capacity_witness :
    NLMSG_ALIGN (nlmsg_len Endian.little (init_mpls_req sample_env)) + 4
        + [2, 0, 10, 0, 0, 1].length ≤ 38 ∧
      (∀ i, (add_attr Endian.little (init_mpls_req sample_env) 38 18
          [2, 0, 10, 0, 0, 1]).mem i ≠ init_mpls_req sample_env i →
        i < 4 ∨ (NLMSG_ALIGN (nlmsg_len Endian.little (init_mpls_req sample_env)) ≤ i
          ∧ i < NLMSG_ALIGN (nlmsg_len Endian.little (init_mpls_req sample_env)) + 4
              + [2, 0, 10, 0, 0, 1].length)) ∧
      (∀ i, (add_attr Endian.little (init_mpls_req sample_env) 38 18
          [2, 0, 10, 0, 0, 1]).mem i ≠ init_mpls_req sample_env i → i < 38) ∧
      0 < nlmsg_len Endian.little
        (add_attr Endian.little (init_mpls_req sample_env) 38 18 [2, 0, 10, 0, 0, 1]).mem ∧
      nlmsg_len Endian.little
        (add_attr Endian.little (init_mpls_req sample_env) 38 18 [2, 0, 10, 0, 0, 1]).mem
        ≤ 38 :=
  C21_writes_within_capacity Endian.little (init_mpls_req sample_env) 38 18
    [2, 0, 10, 0, 0, 1] (by decide) (by decide) (by decide) (by decide) (by decide)

/-! ## Inline nested attribute, codec agreement, header initialisation:
claims C22, C23, C24 -/

/-- C22. For every message state with at least 12 free bytes after
`NLMSG_ALIGN(nlmsg_len)`, the generic appender accepts the 8-byte
encapsulation header, and the inline construction of the nested encapsulation
attribute in `create_mpls_encap_route_dev` and `create_mpls_encap_route_via`
leaves the request, `nlmsg_len` included, exactly as
`add_attr(nlh, maxlen, RTA_ENCAP | NLA_F_NESTED, &full_mpls_header, 8)` does. -/
theorem C22_inline_refines_add_attr (e : Endian) (m : Mem) (maxlen mpls_label : Nat)
    (hfree : NLMSG_ALIGN (nlmsg_len e m) + 12 ≤ maxlen) :
    (add_attr e m maxlen ((RTA_ENCAP ||| NLA_F_NESTED : Nat) : Int)
        (to_bytes e 8 (create_mpls_label_for_encap e mpls_label 1 0).1)).isOk = true ∧
      (add_encap_inline e m mpls_label).1
        = (add_attr e m maxlen ((RTA_ENCAP ||| NLA_F_NESTED : Nat) : Int)
            (to_bytes e 8 (create_mpls_label_for_encap e mpls_label 1 0).1)).mem ∧
      nlmsg_len e (add_encap_inline e m mpls_label).1
        = nlmsg_len e (add_attr e m maxlen ((RTA_ENCAP ||| NLA_F_NESTED : Nat) : Int)
            (to_bytes e 8 (create_mpls_label_for_encap e mpls_label 1 0).1)).mem := by
  have hok : (add_attr e m maxlen ((RTA_ENCAP ||| NLA_F_NESTED : Nat) : Int)
      (to_bytes e 8 (create_mpls_label_for_encap e mpls_label 1 0).1)).isOk = true := by
    apply add_attr_ok
    rw [to_bytes_length]
    omega
  have heq := add_encap_inline_eq e m maxlen mpls_label hok
  refine ⟨hok, ?_, ?_⟩
  · rw [heq]
  · rw [heq]

theorem C22_inline_refines_add_attr_witness :
    (add_attr Endian.little (init_inet_req sample_env RT_SCOPE_LINK) sizeof_req
        ((RTA_ENCAP ||| NLA_F_NESTED : Nat) : Int)
        (to_bytes Endian.little 8 (create_mpls_label_for_encap Endian.little 42 1 0).1)).isOk
        = true ∧
      (add_encap_inline Endian.little (init_inet_req sample_env RT_SCOPE_LINK) 42).1
        = (add_attr Endian.little (init_inet_req sample_env RT_SCOPE_LINK) sizeof_req
            ((RTA_ENCAP ||| NLA_F_NESTED : Nat) : Int)
            (to_bytes Endian.little 8
              (create_mpls_label_for_encap Endian.little 42 1 0).1)).mem ∧
      nlmsg_len Endian.little
          (add_encap_inline Endian.little (init_inet_req sample_env RT_SCOPE_LINK) 42).1
        = nlmsg_len Endian.little
            (add_attr Endian.little (init_inet_req sample_env RT_SCOPE_LINK) sizeof_req
              ((RTA_ENCAP ||| NLA_F_NESTED : Nat) : Int)
              (to_bytes Endian.little 8
                (create_mpls_label_for_encap Endian.little 42 1 0).1)).mem :=
  C22_inline_refines_add_attr Endian.little (init_inet_req sample_env RT_SCOPE_LINK)
    sizeof_req 42 (by decide)

/-- C23. For every label `≤ 0xFFFFF` and stack-bottom bit `s ∈ {0,1}`, the
last four bytes, in memory order, of `create_mpls_label_for_encap(label, s, 0)`
are the four bytes, in memory order, of `create_mpls_label(label, s)`, on
either host byte order. -/
theorem C23_encap_tc0_matches_plain (e : Endian) (label s : Nat) (hl : label ≤ 0xFFFFF)
    (hs : s = 0 ∨ s = 1) :
    (to_bytes e 8 (create_mpls_label_for_encap e label s 0).1).drop 4
      = to_bytes e 4 (create_mpls_label e label s).1 := by
  have hs1 : s ≤ 1 := by omega
  rw [create_mpls_label_for_encap_valid e label s 0 hl hs1 (by decide)]
  have h := to_bytes_of_bytes e (encap_bytes label s 0) (encap_bytes_lt label s 0)
  rw [encap_bytes_length] at h
  rw [h, encap_bytes_eq label s 0 hl hs1 (by decide), label_payload e label s hl hs1,
    encap_word_eq label s 0 hs1 (by decide), plain_word_shift label s hs1]
  simp

theorem C23_encap_tc0_matches_plain_witness :
    (to_bytes Endian.little 8 (create_mpls_label_for_encap Endian.little 100 1 0).1).drop 4
      = to_bytes Endian.little 4 (create_mpls_label Endian.little 100 1).1 :=
  C23_encap_tc0_matches_plain Endian.little 100 1 (by decide) (by decide)

theorem int_bits_four_lt (x : Int) : int_bits 4 x < 4294967296 := by
  rw [int_bits_four]; omega

theorem to_int32_int_bits (x : Int) (h1 : -2147483648 ≤ x) (h2 : x ≤ 2147483647) :
    to_int32 (int_bits 4 x) = x := by
  rw [int_bits_four]
  unfold to_int32
  split_ifs <;> omega

/-- The header fields after `init_netlink_message`, as bit patterns. -/
theorem init_netlink_message_fields (e : Endian) (m : Mem) (type flags pid seq : Int) :
    nlmsg_type e (init_netlink_message e m type flags pid seq) = int_bits 2 type ∧
      nlmsg_flags e (init_netlink_message e m type flags pid seq) = int_bits 2 flags ∧
      nlmsg_seq e (init_netlink_message e m type flags pid seq) = int_bits 4 seq ∧
      nlmsg_pid e (init_netlink_message e m type flags pid seq) = int_bits 4 pid := by
  have ht := int_bits_two_lt type
  have hf := int_bits_two_lt flags
  have hs := int_bits_four_lt seq
  have hp := int_bits_four_lt pid
  unfold init_netlink_message nlmsg_type nlmsg_flags nlmsg_seq nlmsg_pid
  refine ⟨?_, ?_, ?_, ?_⟩
  · rw [load_store_disjoint e 2 4 _ 12 4 _ (by omega),
      load_store_disjoint e 2 4 _ 8 4 _ (by omega),
      load_store_disjoint e 2 2 _ 6 4 _ (by omega), load_store_same]
    omega
  · rw [load_store_disjoint e 2 4 _ 12 6 _ (by omega),
      load_store_disjoint e 2 4 _ 8 6 _ (by omega), load_store_same]
    omega
  · rw [load_store_disjoint e 4 4 _ 12 8 _ (by omega), load_store_same]
    omega
  · rw [load_store_same]
    omega

/-- C24. After `init_netlink_message(nlh, type, flags, pid, seq)`, for every
argument, `nlmsg_len` is the size of the header plus the route descriptor,
`16 + 12 = 28`; `nlmsg_seq` and `nlmsg_pid` hold `seq` and `pid` (the same
32 bits, which read back as `int` give `seq` and `pid` for every `int`);
`nlmsg_type` and `nlmsg_flags` hold `type` and `flags` reduced to 16 bits; and
`init_route_message` afterwards does not change `nlmsg_len`. -/
theorem C24_header_after_init (e : Endian) (m : Mem) (type flags pid seq : Int)
    (family dst_len table protocol scope rtype : Nat) :
    nlmsg_len e (init_netlink_message e m type flags pid seq) = 28 ∧
      NLMSG_HDRLEN + sizeof_rtmsg = 28 ∧
      (nlmsg_seq e (init_netlink_message e m type flags pid seq) : Int) = seq % 2 ^ 32 ∧
      (nlmsg_pid e (init_netlink_message e m type flags pid seq) : Int) = pid % 2 ^ 32 ∧
      (-2147483648 ≤ seq → seq ≤ 2147483647 →
        to_int32 (nlmsg_seq e (init_netlink_message e m type flags pid seq)) = seq) ∧
      (-2147483648 ≤ pid → pid ≤ 2147483647 →
        to_int32 (nlmsg_pid e (init_netlink_message e m type flags pid seq)) = pid) ∧
      (nlmsg_type e (init_netlink_message e m type flags pid seq) : Int) = type % 2 ^ 16 ∧
      (nlmsg_flags e (init_netlink_message e m type flags pid seq) : Int) = flags % 2 ^ 16 ∧
      nlmsg_len e (init_route_message (init_netlink_message e m type flags pid seq)
          family dst_len table protocol scope rtype)
        = nlmsg_len e (init_netlink_message e m type flags pid seq) := by
  obtain ⟨ht, hf, hs, hp⟩ := init_netlink_message_fields e m type flags pid seq
  refine ⟨nlmsg_len_init e m type flags pid seq, by decide, ?_, ?_, ?_, ?_, ?_, ?_,
    nlmsg_len_init_route_message e _ family dst_len table protocol scope rtype⟩
  · rw [hs, int_bits_four]; omega
  · rw [hp, int_bits_four]; omega
  · intro h1 h2
    rw [hs]; exact to_int32_int_bits seq h1 h2
  · intro h1 h2
    rw [hp]; exact to_int32_int_bits pid h1 h2
  · rw [ht, int_bits_two]; omega
  · rw [hf, int_bits_two]; omega

theorem C24_header_after_init_witness :
    nlmsg_len Endian.little
        (init_netlink_message Endian.little zero_mem RTM_NEWROUTE request_flags 4242 1) = 28 ∧
      to_int32 (nlmsg_seq Endian.little
        (init_netlink_message Endian.little zero_mem RTM_NEWROUTE request_flags 4242 1)) = 1 ∧
      to_int32 (nlmsg_pid Endian.little
        (init_netlink_message Endian.little zero_mem RTM_NEWROUTE request_flags 4242 1))
        = 4242 ∧
      (nlmsg_type Endian.little
        (init_netlink_message Endian.little zero_mem RTM_NEWROUTE request_flags 4242 1) : Int)
        = RTM_NEWROUTE % 2 ^ 16 ∧
      (nlmsg_flags Endian.little
        (init_netlink_message Endian.little zero_mem RTM_NEWROUTE request_flags 4242 1) : Int)
        = request_flags % 2 ^ 16 ∧
      nlmsg_len Endian.little
          (init_route_message
            (init_netlink_message Endian.little zero_mem RTM_NEWROUTE request_flags 4242 1)
            AF_MPLS 20 RT_TABLE_MAIN RTPROT_BOOT RT_SCOPE_UNIVERSE RTN_UNICAST)
        = nlmsg_len Endian.little
            (init_netlink_message Endian.little zero_mem RTM_NEWROUTE request_flags 4242 1) :=
  ⟨(C24_header_after_init Endian.little zero_mem RTM_NEWROUTE request_flags 4242 1
      AF_MPLS 20 RT_TABLE_MAIN RTPROT_BOOT RT_SCOPE_UNIVERSE RTN_UNICAST).1,
   (C24_header_after_init Endian.little zero_mem RTM_NEWROUTE request_flags 4242 1
      AF_MPLS 20 RT_TABLE_MAIN RTPROT_BOOT RT_SCOPE_UNIVERSE RTN_UNICAST).2.2.2.2.1
      (by decide) (by decide),
   (C24_header_after_init Endian.little zero_mem RTM_NEWROUTE request_flags 4242 1
      AF_MPLS 20 RT_TABLE_MAIN RTPROT_BOOT RT_SCOPE_UNIVERSE RTN_UNICAST).2.2.2.2.2.1
      (by decide) (by decide),
   (C24_header_after_init Endian.little zero_mem RTM_NEWROUTE request_flags 4242 1
      AF_MPLS 20 RT_TABLE_MAIN RTPROT_BOOT RT_SCOPE_UNIVERSE RTN_UNICAST).2.2.2.2.2.2.1,
   (C24_header_after_init Endian.little zero_mem RTM_NEWROUTE request_flags 4242 1
      AF_MPLS 20 RT_TABLE_MAIN RTPROT_BOOT RT_SCOPE_UNIVERSE RTN_UNICAST).2.2.2.2.2.2.2.1,
   (C24_header_after_init Endian.little zero_mem RTM_NEWROUTE request_flags 4242 1
      AF_MPLS 20 RT_TABLE_MAIN RTPROT_BOOT RT_SCOPE_UNIVERSE RTN_UNICAST).2.2.2.2.2.2.2.2⟩

end Mpls
